import Mathlib

/-!
A shallow embedding of form-utils.js and its verified properties.

The development follows `src/static/js/form-utils.js`.

Modelling conventions
* JavaScript strings are Lean strings; string algorithms work on the list of
  characters (`String.data`).
* A regular expression literal is embedded as a value of `Re` and executed by
  a derivative matcher (`Re.test`), which is proved equivalent to the usual
  language semantics (`Re.Matches`).
* `parseFloat` yields the exact decimal value of the literal it reads; the
  comparisons with the double `0.01` made by the source are expressed exactly
  on that value (see `ParsedNum.geHundredth`).
* The page is a record of the surfaces the code looks up (`Page`); a missing
  element is `none`.  Distinct slots are distinct elements.
* An asynchronous handler is embedded as one run to completion: every awaited
  call settles (it returns or throws), and no other handler interleaves.  The
  answers of the network are an argument (`Net`), and everything a run does
  that is visible from outside is appended to a trace of `Event`s.  The payload
  of the form submission and the scrolling of the window are not represented.
* `toLowerCase` is exact on every character whose lower-case image contains a
  character below U+0100 and keeps the others (see `lowerChars`).
* The floating point renderings used by the upload handler and the outcome of
  the file reader are arguments (`UploadEnv`); the upload handler is run until
  the reader has settled.
-/

namespace FormUtils

/-! ## Characters and strings -/

/-- White space and line terminators of ECMAScript (`StrWhiteSpaceChar`): the
characters removed by `String.prototype.trim` and skipped by `parseFloat` and
`Number`. -/
def isJsSpace (c : Char) : Bool :=
  let n := c.toNat
  n == 0x09 || n == 0x0A || n == 0x0B || n == 0x0C || n == 0x0D || n == 0x20 ||
  n == 0xA0 || n == 0x1680 || (0x2000 ≤ n && n ≤ 0x200A) || n == 0x2028 ||
  n == 0x2029 || n == 0x202F || n == 0x205F || n == 0x3000 || n == 0xFEFF

/-- Characters of `s` once the white space at both ends is removed
(`s.trim()`). -/
def trimChars (s : List Char) : List Char :=
  ((s.dropWhile isJsSpace).reverse.dropWhile isJsSpace).reverse

/-- The method `String.prototype.trim`. -/
def trim (s : String) : String := ⟨trimChars s.data⟩

/-- Truthiness of a JavaScript string: every string but the empty one. -/
def truthy (s : String) : Bool := !s.data.isEmpty

/-- The expression `a || b` on strings. -/
def orElse (a b : String) : String := if truthy a then a else b

/-- The expression `a || b` where `a` may be `undefined`. -/
def optOr (a : Option String) (b : String) : String :=
  match a with
  | some s => orElse s b
  | none => b

/-- Test whether `p` occurs at the start of `s`. -/
def startsWithChars : List Char → List Char → Bool
  | [], _ => true
  | _ :: _, [] => false
  | a :: p, b :: s => a == b && startsWithChars p s

/-- The method `s.startsWith(p)`. -/
def startsWith (s p : String) : Bool := startsWithChars p.data s.data

/-- Test whether `p` occurs somewhere in `s`. -/
def includesChars (p : List Char) : List Char → Bool
  | [] => startsWithChars p []
  | c :: s => startsWithChars p (c :: s) || includesChars p s

/-- The method `s.includes(p)`. -/
def includes (s p : String) : Bool := includesChars p.data s.data

/-- Lower-case image of one character. The image is exact for every character
whose image contains a character below U+0100: the letters of Basic Latin and
of Latin-1 Supplement, U+0130 (to `i` followed by U+0307), U+0178, U+1E9E,
U+212A (the Kelvin sign, to `k`) and U+212B. Every other character is kept: its
image in JavaScript has no character below U+0100, so comparing the lower-cased
text with a text made of characters below U+0100, the only use the program
makes of it, gives the same result. -/
def lowerChars (c : Char) : List Char :=
  let n := c.toNat
  if (0x41 ≤ n && n ≤ 0x5A) || (0xC0 ≤ n && n ≤ 0xDE && n != 0xD7) then [Char.ofNat (n + 32)]
  else if n == 0x130 then ['i', Char.ofNat 0x307]
  else if n == 0x178 then [Char.ofNat 0xFF]
  else if n == 0x1E9E then [Char.ofNat 0xDF]
  else if n == 0x212A then ['k']
  else if n == 0x212B then [Char.ofNat 0xE5]
  else [c]

/-- Lower-case image of a list of characters. -/
def lowerAll : List Char → List Char
  | [] => []
  | c :: s => lowerChars c ++ lowerAll s

/-- The method `s.toLowerCase()`. -/
def toLowerCase (s : String) : String := ⟨lowerAll s.data⟩

/-! ## Regular expressions -/

/-- Regular expressions over characters, with character classes given by a
predicate. -/
inductive Re where
  | empty : Re
  | eps : Re
  | cls (p : Char → Bool) : Re
  | alt (a b : Re) : Re
  | seq (a b : Re) : Re
  | star (a : Re) : Re

namespace Re

/-- One or more repetitions (`a+`). -/
def plus (a : Re) : Re := seq a (star a)

/-- Zero or one occurrence (`a?`). -/
def opt (a : Re) : Re := alt eps a

/-- The given characters in sequence. -/
def lit : List Char → Re
  | [] => eps
  | c :: cs => seq (cls (fun x => x == c)) (lit cs)

/-- Language of a regular expression. -/
inductive Matches : Re → List Char → Prop where
  | eps : Matches Re.eps []
  | cls {p : Char → Bool} {c : Char} : p c = true → Matches (Re.cls p) [c]
  | altL {a b : Re} {s : List Char} : Matches a s → Matches (Re.alt a b) s
  | altR {a b : Re} {s : List Char} : Matches b s → Matches (Re.alt a b) s
  | seq {a b : Re} {s t : List Char} :
      Matches a s → Matches b t → Matches (Re.seq a b) (s ++ t)
  | starNil {a : Re} : Matches (Re.star a) []
  | starCons {a : Re} {s t : List Char} :
      Matches a s → Matches (Re.star a) t → Matches (Re.star a) (s ++ t)

/-- Whether the expression matches the empty input. -/
def nullable : Re → Bool
  | empty => false
  | eps => true
  | cls _ => false
  | alt a b => nullable a || nullable b
  | seq a b => nullable a && nullable b
  | star _ => true

/-- Brzozowski derivative: what remains to be matched after reading `c`. -/
def deriv : Re → Char → Re
  | empty, _ => empty
  | eps, _ => empty
  | cls p, c => if p c then eps else empty
  | alt a b, c => alt (deriv a c) (deriv b c)
  | seq a b, c =>
      if nullable a then alt (seq (deriv a c) b) (deriv b c) else seq (deriv a c) b
  | star a, c => seq (deriv a c) (star a)

/-- Match of the whole input, as `/^...$/.test(s)` does. -/
def test (r : Re) : List Char → Bool
  | [] => nullable r
  | c :: s => test (deriv r c) s

end Re

/-! ## Validators of the credential and of the group identifiers -/

/-- Class `\d`. -/
def isDigit (c : Char) : Bool := decide ('0' ≤ c ∧ c ≤ '9')

/-- Class `[A-Za-z0-9_-]`. -/
def isTokenChar (c : Char) : Bool :=
  decide ('A' ≤ c ∧ c ≤ 'Z') || decide ('a' ≤ c ∧ c ≤ 'z') || decide ('0' ≤ c ∧ c ≤ '9') ||
    c == '_' || c == '-'

/-- Pattern `/^\d+:[A-Za-z0-9_-]+$/`. -/
def tokenPattern : Re :=
  Re.seq (Re.plus (Re.cls isDigit)) (Re.seq (Re.cls (fun c => c == ':')) (Re.plus (Re.cls isTokenChar)))

/-- Source function `validateTelegramToken`. -/
def validateTelegramToken (token : String) : Bool :=
  tokenPattern.test token.data

/-- Decimal digits `\d+` of the numeric grammar. -/
def reDigits : Re := Re.plus (Re.cls isDigit)

/-- Optional sign. -/
def reSign : Re := Re.opt (Re.cls (fun c => c == '+' || c == '-'))

/-- Exponent part `[eE][+-]?\d+`. -/
def reExponent : Re := Re.seq (Re.cls (fun c => c == 'e' || c == 'E')) (Re.seq reSign reDigits)

/-- Grammar `StrUnsignedDecimalLiteral`. -/
def reUnsignedDecimal : Re :=
  Re.alt (Re.lit "Infinity".data)
    (Re.alt
      (Re.seq reDigits
        (Re.seq (Re.opt (Re.seq (Re.cls (fun c => c == '.')) (Re.star (Re.cls isDigit))))
          (Re.opt reExponent)))
      (Re.seq (Re.cls (fun c => c == '.')) (Re.seq reDigits (Re.opt reExponent))))

/-- Grammar `NonDecimalIntegerLiteral`: binary, octal and hexadecimal. -/
def reNonDecimal : Re :=
  Re.seq (Re.cls (fun c => c == '0'))
    (Re.alt
      (Re.seq (Re.cls (fun c => c == 'b' || c == 'B')) (Re.plus (Re.cls (fun c => c == '0' || c == '1'))))
      (Re.alt
        (Re.seq (Re.cls (fun c => c == 'o' || c == 'O'))
          (Re.plus (Re.cls (fun c => decide ('0' ≤ c ∧ c ≤ '7')))))
        (Re.seq (Re.cls (fun c => c == 'x' || c == 'X'))
          (Re.plus (Re.cls (fun c => isDigit c ||
            decide ('a' ≤ c ∧ c ≤ 'f') || decide ('A' ≤ c ∧ c ≤ 'F')))))))

/-- Grammar `StringNumericLiteral`: the strings that `Number` converts to a
number; every other string converts to `NaN`. -/
def reStringNumeric : Re :=
  Re.seq (Re.star (Re.cls isJsSpace))
    (Re.seq (Re.opt (Re.alt (Re.seq reSign reUnsignedDecimal) reNonDecimal))
      (Re.star (Re.cls isJsSpace)))

/-- The global function `isNaN` applied to a string. -/
def isNaN (s : String) : Bool := !reStringNumeric.test s.data

/-- The method `s.substring(1)`. -/
def substring1 (s : String) : String := ⟨s.data.drop 1⟩

/-- Source function `validateGroupId`, as the truth value of its result. -/
def validateGroupId (groupId : String) : Bool :=
  truthy groupId && startsWith groupId "-" && !isNaN (substring1 groupId)

/-! ## Numbers read by `parseFloat` -/

/-- Outcome of `parseFloat`: `NaN`, an infinity, or the exact decimal value
`± mantissa × 10 ^ exponent` of the literal that was read (the double returned
by JavaScript is this value rounded to nearest). -/
inductive ParsedNum where
  | nan : ParsedNum
  | infinity (negative : Bool) : ParsedNum
  | decimal (negative : Bool) (mantissa : Nat) (exponent : Int) : ParsedNum
  deriving DecidableEq, Repr

/-- Value of a sequence of decimal digits. -/
def digitsToNat (ds : List Char) : Nat :=
  ds.foldl (fun n c => 10 * n + (c.toNat - 48)) 0

/-- Split an optional sign off the front of the input. -/
def readSign : List Char → Bool × List Char
  | '-' :: u => (true, u)
  | '+' :: u => (false, u)
  | u => (false, u)

/-- Exponent part at the front of the input (`0` when there is none): an `e` or
`E`, an optional sign and at least one digit. -/
def readExponent : List Char → Int
  | c :: r =>
    if c == 'e' || c == 'E' then
      let ed := (readSign r).2.takeWhile isDigit
      if ed.isEmpty then 0
      else if (readSign r).1 then -(digitsToNat ed : Int) else (digitsToNat ed : Int)
    else 0
  | [] => 0

/-- The global function `parseFloat` on a string: leading white space is
skipped and the longest prefix that is a `StrDecimalLiteral` is read. -/
def parseFloat (s : String) : ParsedNum :=
  let t := s.data.dropWhile isJsSpace
  let neg := (readSign t).1
  let u := (readSign t).2
  if startsWithChars "Infinity".data u then ParsedNum.infinity neg
  else
    let ip := u.takeWhile isDigit
    let r1 := u.dropWhile isDigit
    let fp := match r1 with
      | '.' :: r => r.takeWhile isDigit
      | _ => []
    let r2 := match r1 with
      | '.' :: r => r.dropWhile isDigit
      | _ => r1
    if ip.isEmpty && fp.isEmpty then ParsedNum.nan
    else ParsedNum.decimal neg (digitsToNat (ip ++ fp)) (readExponent r2 - (fp.length : Int))

namespace ParsedNum

/-- The global function `isNaN` on a number. -/
def isNaN : ParsedNum → Bool
  | nan => true
  | _ => false

/-- Twice the significand of the double `0.01`, less one: the double `0.01` is
`5764607523034235 / 2 ^ 59`, so `hundredthMidpoint / 2 ^ 60` lies half-way
between it and the double just below. The significand being odd, a value at
that midpoint rounds down; hence a real `x` rounds to a double that is at
least `0.01` exactly when `hundredthMidpoint / 2 ^ 60 < x`. -/
def hundredthMidpoint : Nat := 11529215046068469

/-- The comparison `x >= 0.01` of the source, where `x` is the double nearest
to the value read. -/
def geHundredth : ParsedNum → Bool
  | nan => false
  | infinity neg => !neg
  | decimal neg m e =>
    !neg && (if 0 ≤ e then decide (hundredthMidpoint < m * 10 ^ e.toNat * 2 ^ 60)
      else decide (hundredthMidpoint * 10 ^ (-e).toNat < m * 2 ^ 60))

/-- The comparison `x < 0.01` of the source. -/
def ltHundredth : ParsedNum → Bool
  | nan => false
  | infinity neg => neg
  | decimal neg m e =>
    neg || (if 0 ≤ e then decide (m * 10 ^ e.toNat * 2 ^ 60 ≤ hundredthMidpoint)
      else decide (m * 2 ^ 60 ≤ hundredthMidpoint * 10 ^ (-e).toNat))

end ParsedNum

/-! ## Section validators -/

/-- Verdict of a section validator: `ok`, and a title and a message when the
section is rejected. -/
structure SectionValidationResult where
  ok : Bool
  title : Option String
  message : Option String
  deriving DecidableEq, Repr

/-- The verdict `{ ok: true }`. -/
def SectionValidationResult.pass : SectionValidationResult := ⟨true, none, none⟩

/-- A verdict `{ ok: false, title, message }`. -/
def SectionValidationResult.fail (title message : String) : SectionValidationResult :=
  ⟨false, some title, some message⟩

/-- Values of the fields selected by the three selectors of
`validatePlanSection`, each list in document order. -/
structure PlanFields where
  pix : List String
  names : List String
  durations : List String
  deriving DecidableEq, Repr

/-- Source function `validatePlanSection`. -/
def validatePlanSection (sel : PlanFields) : SectionValidationResult :=
  let hasValue := sel.pix.any (fun value => truthy value && (parseFloat value).geHundredth)
  let hasName := sel.names.any (fun value => truthy value && truthy (trim value))
  let hasDuration := sel.durations.any (fun value => truthy value && truthy (trim value))
  if !hasValue then
    SectionValidationResult.fail "Erro de Validação"
      "Configure pelo menos um valor PIX para o seu bot!"
  else if !hasName then
    SectionValidationResult.fail "Erro de Validação"
      "Configure pelo menos um nome de plano para o seu bot!"
  else if !hasDuration then
    SectionValidationResult.fail "Erro de Validação"
      "Configure pelo menos uma duração de plano para o seu bot!"
  else SectionValidationResult.pass

/-- Values of the six fields looked up by `validateOrderBumpSection`; `none`
stands for an element that was not found (also when there is no form). -/
structure OrderBumpFields where
  name : Option String
  price : Option String
  message : Option String
  deliverable : Option String
  accept : Option String
  decline : Option String
  deriving DecidableEq, Repr

/-- The test `!el || !el.value.trim()` of `validateOrderBumpSection`. -/
def missingOrBlank (el : Option String) : Bool :=
  match el with
  | none => true
  | some value => !truthy (trim value)

/-- The test `!priceEl || isNaN(parseFloat(priceEl.value)) ||
parseFloat(priceEl.value) < 0.01`. -/
def priceRejected (el : Option String) : Bool :=
  match el with
  | none => true
  | some value => (parseFloat value).isNaN || (parseFloat value).ltHundredth

/-- Source function `validateOrderBumpSection`. -/
def validateOrderBumpSection (cfg : OrderBumpFields) : SectionValidationResult :=
  if missingOrBlank cfg.name then
    SectionValidationResult.fail "Nome obrigatório" "Informe o nome da oferta."
  else if priceRejected cfg.price then
    SectionValidationResult.fail "Preço inválido" "Informe um preço válido (mínimo R$ 0,01)."
  else if missingOrBlank cfg.message then
    SectionValidationResult.fail "Mensagem obrigatória" "Informe a mensagem da oferta."
  else if missingOrBlank cfg.deliverable then
    SectionValidationResult.fail "Entregável obrigatório"
      "Informe a mensagem do entregável que será enviada após o pagamento."
  else if missingOrBlank cfg.accept then
    SectionValidationResult.fail "Texto do botão" "Informe o texto do botão de aceitar."
  else if missingOrBlank cfg.decline then
    SectionValidationResult.fail "Texto do botão" "Informe o texto do botão de recusar."
  else SectionValidationResult.pass

/-! ## Errors, responses and the network -/

/-- A thrown JavaScript error object: its `name` and its `message`. -/
structure JsError where
  name : String
  message : String
  deriving DecidableEq, Repr

/-- The expression `new Error(message)`. -/
def mkError (message : String) : JsError := ⟨"Error", message⟩

/-- The error raised by reading a property of `undefined` (with the text that
V8 gives it). -/
def typeError (property : String) : JsError :=
  ⟨"TypeError", "Cannot read properties of undefined (reading '" ++ property ++ "')"⟩

/-- The expression `String(err?.message || err)`: the message of the error, or,
when the message is empty, the text of the error object, which is then its
name. -/
def errorText (err : JsError) : String := orElse err.message err.name

/-- Payload `result` of an answer of the verification API: the identity `id`
as it is written into an address, and the membership `status`. -/
structure ApiResult where
  id : String
  status : Option String
  deriving DecidableEq, Repr

/-- JSON envelope of an answer of the verification API. -/
structure Envelope where
  ok : Bool
  description : Option String
  result : Option ApiResult
  deriving DecidableEq, Repr

/-- An HTTP response: status code, final address, and what reading the body as
text and as JSON gives (either may throw). -/
structure Response where
  status : Nat
  url : String
  text : Except JsError String
  json : Except JsError Envelope

/-- The property `response.ok`: a status in the range 200 to 299. -/
def Response.ok (r : Response) : Bool := decide (200 ≤ r.status) && decide (r.status ≤ 299)

/-- A request handed to `fetch`. -/
inductive Request where
  | get (url : String) : Request
  | post (url : String) : Request
  deriving DecidableEq, Repr

/-- The `fetch` call of the source that issues a request. -/
inductive CallSite where
  | getMe : CallSite
  | vipMember : CallSite
  | logsMember : CallSite
  | formPost : CallSite
  deriving DecidableEq, Repr

/-- The network: the settlement (a response, or a thrown error) of the request
issued as the `k`-th call of a run, `k` counted from zero. -/
abbrev Net := Nat → Request → Except JsError Response

/-- Mapping from step numbers to progress messages. -/
abbrev Messages := List (Int × String)

/-- What a run does that is visible from outside, in order: the validators it
runs, the calls to the notification and progress surfaces, the requests it
issues and the redirects it schedules. -/
inductive Event where
  | validatePlanSection : Event
  | validateTelegramToken (token : Option String) : Event
  | validateGroupId (groupId : Option String) : Event
  | showError (title message : String) : Event
  | showSuccess (title message : String) : Event
  | showLoading (submitLoadingText : String) : Event
  | hideLoading : Event
  | updateLoadingStep (stepNumber : Int) (status : String) : Event
  | fetch (site : CallSite) (request : Request) : Event
  | setTimeout (delay : Nat) (redirectTo : String) : Event
  deriving DecidableEq, Repr

/-! ## The page -/

/-- The submit control: its `disabled` flag and the `display` of its
`.btn-spinner` child, when it has one. -/
structure SubmitBtn where
  disabled : Bool
  spinner : Option String
  deriving DecidableEq, Repr

/-- The submit label: its text and its `data-original-text` attribute. -/
structure SubmitText where
  textContent : String
  originalText : Option String
  deriving DecidableEq, Repr

/-- A progress step element. -/
structure StepEl where
  className : String
  innerHTML : String
  deriving DecidableEq, Repr

/-- State of the page: the configuration, the surfaces the code looks up
(`none` when the element does not exist), the busy flag, the fields read by the
submit handlers, and the addresses of the form and of the window. -/
structure Page where
  stepIds : List String
  submitLoadingText : String
  errorDisplay : Option String
  errorTitle : Option String
  errorMessage : Option String
  successDisplay : Option String
  successTitle : Option String
  successMessage : Option String
  loadingOverlay : Option String
  loadingMessage : Option String
  submitBtn : Option SubmitBtn
  cancelBtn : Option String
  submitText : Option SubmitText
  steps : List (String × StepEl)
  isSubmitting : Bool
  plans : PlanFields
  token : Option String
  idVip : Option String
  idLogs : Option String
  formAction : String
  location : String
  deriving DecidableEq, Repr

/-! ## Notifications -/

/-- Source function `showError` (the scrolling of the window is left out). -/
def showError (p : Page) (title message : String) : Page :=
  match p.errorDisplay, p.errorTitle, p.errorMessage with
  | some _, some _, some _ =>
    { p with errorTitle := some title, errorMessage := some message, errorDisplay := some "block" }
  | _, _, _ => p

/-- Source function `showSuccess` (the scrolling of the window is left out). -/
def showSuccess (p : Page) (title message : String) : Page :=
  match p.successDisplay, p.successTitle, p.successMessage with
  | some _, some _, some _ =>
    { p with successTitle := some title, successMessage := some message,
             successDisplay := some "block" }
  | _, _, _ => p

/-! ## Loading and steps -/

/-- Source function `showLoading`, called with the override
`{ submitLoadingText }` (`none` when there is no override). -/
def showLoading (p : Page) (submitLoadingText : Option String) : Page :=
  { p with
    loadingOverlay := p.loadingOverlay.map (fun _ => "flex")
    submitBtn := p.submitBtn.map (fun b =>
      { disabled := true, spinner := b.spinner.map (fun _ => "inline-block") })
    cancelBtn := p.cancelBtn.map (fun _ => "none")
    submitText := p.submitText.map (fun t =>
      { textContent :=
          orElse (optOr submitLoadingText p.submitLoadingText) p.submitLoadingText
        originalText :=
          if truthy (t.originalText.getD "") then t.originalText else some t.textContent })
    isSubmitting := true }

/-- Source function `hideLoading`, called without an override. -/
def hideLoading (p : Page) : Page :=
  { p with
    loadingOverlay := p.loadingOverlay.map (fun _ => "none")
    submitBtn := p.submitBtn.map (fun b =>
      { disabled := false, spinner := b.spinner.map (fun _ => "none") })
    cancelBtn := p.cancelBtn.map (fun _ => "auto")
    submitText := p.submitText.map (fun t =>
      { t with textContent := optOr t.originalText "Salvar" })
    isSubmitting := false }

/-- The method `s.replace(pattern, replacement)` with a string pattern: the
first occurrence is replaced. -/
def replaceFirstChars (pat rep : List Char) : List Char → List Char
  | [] => if pat.isEmpty then rep else []
  | c :: s =>
    if startsWithChars pat (c :: s) then rep ++ (c :: s).drop pat.length
    else c :: replaceFirstChars pat rep s

/-- The method `s.replace(pattern, replacement)` on strings. -/
def replaceFirst (s pat rep : String) : String := ⟨replaceFirstChars pat.data rep.data s.data⟩

/-- Identifier of the step surface:
`ids.stepIds[stepNumber - 1] || "step" + stepNumber`. -/
def stepIdOf (stepIds : List String) (stepNumber : Int) : String :=
  let configured : Option String :=
    if 1 ≤ stepNumber then stepIds.get? (stepNumber - 1).toNat else none
  optOr configured ("step" ++ toString stepNumber)

/-- Apply `f` to the first element that has the given identifier. -/
def updateFirst (id : String) (f : StepEl → StepEl) :
    List (String × StepEl) → List (String × StepEl)
  | [] => []
  | e :: es => if e.1 == id then (e.1, f e.2) :: es else e :: updateFirst id f es

/-- New class and markup of a step element for a status. -/
def restyleStep (status : String) (step : StepEl) : StepEl :=
  { className := "step " ++ status
    innerHTML :=
      if status == "completed" then replaceFirst step.innerHTML "⏳" "✓"
      else if status == "error" then replaceFirst step.innerHTML "⏳" "✗"
      else if status == "active" then
        replaceFirst (replaceFirst step.innerHTML "✓" "⏳") "✗" "⏳"
      else step.innerHTML }

/-- Built-in progress messages of `updateLoadingStep`. -/
def messagesDefault : Messages :=
  [(1, "Verificando se o token é válido..."),
   (2, "Testando acesso ao grupo VIP como admin..."),
   (3, "Testando acesso ao grupo de notificações como admin..."),
   (4, "Criando e ativando seu bot...")]

/-- The lookup `messages[stepNumber]`. -/
def lookupMessage (messages : Messages) (stepNumber : Int) : Option String :=
  (messages.find? (fun e => e.1 == stepNumber)).map (fun e => e.2)

/-- Source function `updateLoadingStep`; `messages` is `opts.messages` when the
caller gives one. -/
def updateLoadingStep (p : Page) (stepNumber : Int) (status : String)
    (messages : Option Messages) : Page :=
  let stepId := stepIdOf p.stepIds stepNumber
  let p1 := { p with steps := updateFirst stepId (restyleStep status) p.steps }
  let msgs := messages.getD messagesDefault
  match p1.loadingMessage, lookupMessage msgs stepNumber with
  | some _, some m => if truthy m then { p1 with loadingMessage := some m } else p1
  | _, _ => p1

/-! ## Remote verification -/

/-- The test `["administrator", "creator"].includes(status)`. -/
def isAdminRole (status : Option String) : Bool :=
  status == some "administrator" || status == some "creator"

/-- Source function `validateBotInGroups`: the requests it issues, in order,
and its settlement (it returns `true`, here `()`, or throws). -/
def validateBotInGroups (net : Net) (token vipGroupId logsGroupId : String) :
    List Event × Except JsError Unit :=
  let req1 := Request.get ("https://api.telegram.org/bot" ++ token ++ "/getMe")
  let t1 := [Event.fetch CallSite.getMe req1]
  match net 0 req1 with
  | Except.error e => (t1, Except.error e)
  | Except.ok botInfoResponse =>
    if !botInfoResponse.ok then (t1, Except.error (mkError "Token inválido"))
    else
      match botInfoResponse.json with
      | Except.error e => (t1, Except.error e)
      | Except.ok botInfoData =>
        if !botInfoData.ok then (t1, Except.error (mkError "Token inválido"))
        else
          match botInfoData.result with
          | none => (t1, Except.error (typeError "id"))
          | some botInfo =>
            let req2 := Request.get ("https://api.telegram.org/bot" ++ token ++
              "/getChatMember?chat_id=" ++ vipGroupId ++ "&user_id=" ++ botInfo.id)
            let t2 := t1 ++ [Event.fetch CallSite.vipMember req2]
            match net 1 req2 with
            | Except.error e => (t2, Except.error e)
            | Except.ok vipResponse =>
              match vipResponse.json with
              | Except.error e => (t2, Except.error e)
              | Except.ok vipData =>
                if !vipData.ok then
                  (t2, Except.error (mkError ("Erro no grupo VIP: " ++
                    optOr vipData.description "Bot não está no grupo")))
                else
                  match vipData.result with
                  | none => (t2, Except.error (typeError "status"))
                  | some vipMember =>
                    if !isAdminRole vipMember.status then
                      (t2, Except.error (mkError "Bot precisa ser administrador no grupo VIP"))
                    else
                      let req3 := Request.get ("https://api.telegram.org/bot" ++ token ++
                        "/getChatMember?chat_id=" ++ logsGroupId ++ "&user_id=" ++ botInfo.id)
                      let t3 := t2 ++ [Event.fetch CallSite.logsMember req3]
                      match net 2 req3 with
                      | Except.error e => (t3, Except.error e)
                      | Except.ok logsResponse =>
                        match logsResponse.json with
                        | Except.error e => (t3, Except.error e)
                        | Except.ok logsData =>
                          if !logsData.ok then
                            (t3, Except.error (mkError ("Erro no grupo de notificações: " ++
                              optOr logsData.description "Bot não está no grupo")))
                          else
                            match logsData.result with
                            | none => (t3, Except.error (typeError "status"))
                            | some logsMember =>
                              if !isAdminRole logsMember.status then
                                (t3, Except.error (mkError
                                  "Bot precisa ser administrador no grupo de notificações"))
                              else (t3, Except.ok ())

/-! ## Submit handlers -/

/-- Options of the two submit helpers; `validatePlans` is `false` only when the
caller passes `validatePlans: false`. -/
structure SubmitOpts where
  validatePlans : Bool
  successTitle : Option String
  successMessage : Option String
  redirectUrl : Option String
  submitLoadingText : Option String
  stepMessages : Option Messages
  deriving DecidableEq, Repr

/-- Outcome of a run of a handler: the page it leaves and what it did. -/
structure Run where
  page : Page
  trace : List Event
  deriving DecidableEq, Repr

/-- The guard `submitBtn?.disabled`. -/
def submitDisabled (p : Page) : Bool :=
  match p.submitBtn with
  | some b => b.disabled
  | none => false

/-- The address the form is posted to: `form.action || window.location.href`. -/
def postTarget (p : Page) : String := orElse p.formAction p.location

/-- The success branch shared by both handlers: step 4 completed, loading
hidden, success notification, redirect scheduled after 1200 ms to
`opts.redirectUrl || resp.url || window.location.href`. -/
def onSubmitted (opts : SubmitOpts) (messages : Option Messages) (resp : Response) (r : Run) :
    Run :=
  let target := optOr opts.redirectUrl (orElse resp.url r.page.location)
  let title := optOr opts.successTitle "Salvo com sucesso! ✅"
  let message := optOr opts.successMessage "Alterações salvas."
  { page := showSuccess (hideLoading (updateLoadingStep r.page 4 "completed" messages))
      title message
    trace := r.trace ++ [Event.updateLoadingStep 4 "completed", Event.hideLoading,
      Event.showSuccess title message, Event.setTimeout 1200 target] }

/-- The form submission shared by both handlers, issued as the `k`-th request
of the run: the state reached, and the error thrown if any. -/
def postForm (opts : SubmitOpts) (messages : Option Messages) (net : Net) (k : Nat) (r : Run) :
    Run × Option JsError :=
  let req := Request.post (postTarget r.page)
  let r1 : Run := { r with trace := r.trace ++ [Event.fetch CallSite.formPost req] }
  match net k req with
  | Except.error e => (r1, some e)
  | Except.ok resp =>
    if resp.ok then (onSubmitted opts messages resp r1, none)
    else
      match resp.text with
      | Except.error e => (r1, some e)
      | Except.ok text => (r1, some (mkError (orElse text ("Erro HTTP " ++ toString resp.status))))

/-- The body of the `try` block of the handler of `registerSimpleFormSubmit`. -/
def simpleTry (opts : SubmitOpts) (net : Net) (r : Run) : Run × Option JsError :=
  let p1 := updateLoadingStep r.page 1 "active"
    (some [(1, "Validando dados..."), (4, "Salvando alterações...")])
  let p2 := updateLoadingStep p1 1 "completed" none
  let p3 := updateLoadingStep p2 4 "active" none
  postForm opts none net 0
    { page := p3
      trace := r.trace ++ [Event.updateLoadingStep 1 "active",
        Event.updateLoadingStep 1 "completed", Event.updateLoadingStep 4 "active"] }

/-- The submit handler registered by `registerSimpleFormSubmit`. -/
def registerSimpleFormSubmit (opts : SubmitOpts) (net : Net) (p : Page) : Run :=
  if submitDisabled p then { page := p, trace := [] }
  else
    let planCheck := validatePlanSection p.plans
    if opts.validatePlans && !planCheck.ok then
      { page := showError p (planCheck.title.getD "undefined") (planCheck.message.getD "undefined")
        trace := [Event.validatePlanSection,
          Event.showError (planCheck.title.getD "undefined")
            (planCheck.message.getD "undefined")] }
    else
      let text := optOr opts.submitLoadingText "Salvando..."
      let r0 : Run :=
        { page := showLoading p (some text)
          trace := (if opts.validatePlans then [Event.validatePlanSection] else []) ++
            [Event.showLoading text] }
      match simpleTry opts net r0 with
      | (r, none) => r
      | (r, some err) =>
        { page := showError (hideLoading r.page) "Erro ao salvar" (errorText err)
          trace := r.trace ++ [Event.hideLoading,
            Event.showError "Erro ao salvar" (errorText err)] }

/-- The call `validateGroupId(groupId)` where `groupId` may be `undefined`. -/
def validateGroupIdOpt (groupId : Option String) : Bool :=
  match groupId with
  | some g => validateGroupId g
  | none => false

/-- Title and message chosen by the `catch` block of the handler of
`registerBotSubmitWithTelegramChecks` for the error text `msg`. -/
def classifyError (msg idVip idLogs : String) : String × String :=
  if includes msg "Token inválido" then
    ("Token Inválido", "O token do bot é inválido ou expirou. Verifique e tente novamente.")
  else if includes (toLowerCase msg) "vip" then
    ("Problema no Grupo VIP",
      "Verifique se o bot está no grupo VIP e é administrador (" ++ idVip ++ ").")
  else if includes (toLowerCase msg) "notific" then
    ("Problema no Grupo de Notificações",
      "Verifique se o bot está no grupo de notificações e é administrador (" ++ idLogs ++ ").")
  else ("Erro ao validar", msg)

/-- Progress messages used by `registerBotSubmitWithTelegramChecks` when the
caller gives none. -/
def botStepMessages : Messages :=
  [(1, "Verificando se o token é válido..."),
   (2, "Testando acesso ao grupo VIP como admin..."),
   (3, "Testando acesso ao grupo de notificações como admin..."),
   (4, "Salvando alterações...")]

/-- The body of the `try` block of the handler of
`registerBotSubmitWithTelegramChecks`. -/
def botTry (opts : SubmitOpts) (net : Net) (token idVip idLogs : String) (r : Run) :
    Run × Option JsError :=
  let stepMessages := opts.stepMessages.getD botStepMessages
  let p1 := updateLoadingStep r.page 1 "active" (some stepMessages)
  let checked := validateBotInGroups net token idVip idLogs
  let r1 : Run :=
    { page := p1, trace := r.trace ++ [Event.updateLoadingStep 1 "active"] ++ checked.1 }
  match checked.2 with
  | Except.error e => (r1, some e)
  | Except.ok _ =>
    let p2 := updateLoadingStep p1 1 "completed" none
    let p3 := updateLoadingStep p2 4 "active" (some stepMessages)
    postForm opts (some stepMessages) net 3
      { page := p3
        trace := r1.trace ++ [Event.updateLoadingStep 1 "completed",
          Event.updateLoadingStep 4 "active"] }

/-- The submit handler registered by `registerBotSubmitWithTelegramChecks`. -/
def registerBotSubmitWithTelegramChecks (opts : SubmitOpts) (net : Net) (p : Page) : Run :=
  if submitDisabled p then { page := p, trace := [] }
  else
    let planCheck := validatePlanSection p.plans
    if !planCheck.ok then
      { page := showError p (planCheck.title.getD "undefined") (planCheck.message.getD "undefined")
        trace := [Event.validatePlanSection,
          Event.showError (planCheck.title.getD "undefined")
            (planCheck.message.getD "undefined")] }
    else
      let token := p.token.map trim
      if !validateTelegramToken (token.getD "undefined") then
        { page := showError p "Token Inválido"
            "Token do bot inválido! Verifique se copiou corretamente do @BotFather."
          trace := [Event.validatePlanSection, Event.validateTelegramToken token,
            Event.showError "Token Inválido"
              "Token do bot inválido! Verifique se copiou corretamente do @BotFather."] }
      else
        let idVip := p.idVip.map trim
        let idLogs := p.idLogs.map trim
        if !validateGroupIdOpt idVip then
          { page := showError p "Grupo VIP Inválido"
              "O ID do Grupo VIP deve começar com '-' (ex: -1001234567890)"
            trace := [Event.validatePlanSection, Event.validateTelegramToken token,
              Event.validateGroupId idVip,
              Event.showError "Grupo VIP Inválido"
                "O ID do Grupo VIP deve começar com '-' (ex: -1001234567890)"] }
        else if !validateGroupIdOpt idLogs then
          { page := showError p "Grupo de Notificações Inválido"
              "O ID do Grupo de Notificações deve começar com '-' (ex: -1001234567890)"
            trace := [Event.validatePlanSection, Event.validateTelegramToken token,
              Event.validateGroupId idVip, Event.validateGroupId idLogs,
              Event.showError "Grupo de Notificações Inválido"
                "O ID do Grupo de Notificações deve começar com '-' (ex: -1001234567890)"] }
        else
          let text := optOr opts.submitLoadingText "Validando..."
          let r0 : Run :=
            { page := showLoading p (some text)
              trace := [Event.validatePlanSection, Event.validateTelegramToken token,
                Event.validateGroupId idVip, Event.validateGroupId idLogs,
                Event.showLoading text] }
          match botTry opts net (token.getD "undefined") (idVip.getD "undefined")
              (idLogs.getD "undefined") r0 with
          | (r, none) => r
          | (r, some err) =>
            let shown := classifyError (errorText err) (idVip.getD "undefined")
              (idLogs.getD "undefined")
            { page := showError (hideLoading r.page) shown.1 shown.2
              trace := r.trace ++ [Event.hideLoading, Event.showError shown.1 shown.2] }

/-! ## Reading a trace -/

/-- The call sites of the requests issued in a trace, in order. -/
def fetchSites : List Event → List CallSite
  | [] => []
  | Event.fetch site _ :: es => site :: fetchSites es
  | _ :: es => fetchSites es

/-- The notifications (error and success) shown in a trace, in order. -/
def notifications : List Event → List Event
  | [] => []
  | Event.showError t m :: es => Event.showError t m :: notifications es
  | Event.showSuccess t m :: es => Event.showSuccess t m :: notifications es
  | _ :: es => notifications es

/-- The redirects scheduled in a trace, in order. -/
def redirects : List Event → List String
  | [] => []
  | Event.setTimeout _ target :: es => target :: redirects es
  | _ :: es => redirects es

/-! ## Pages and networks used as concrete inputs -/

/-- Default options: nothing given by the caller. -/
def defaultOpts : SubmitOpts :=
  { validatePlans := true, successTitle := none, successMessage := none, redirectUrl := none,
    submitLoadingText := none, stepMessages := none }

/-- A complete idle page of the bot form, with valid fields. -/
def botPage : Page :=
  { stepIds := ["step1", "step2", "step3", "step4"]
    submitLoadingText := "Validando..."
    errorDisplay := some "none", errorTitle := some "", errorMessage := some ""
    successDisplay := some "none", successTitle := some "", successMessage := some ""
    loadingOverlay := some "none", loadingMessage := some ""
    submitBtn := some { disabled := false, spinner := some "none" }
    cancelBtn := some "auto"
    submitText := some { textContent := "Criar Bot", originalText := none }
    steps := [("step1", ⟨"step", "⏳ Token"⟩), ("step2", ⟨"step", "⏳ Grupo VIP"⟩),
      ("step3", ⟨"step", "⏳ Grupo de notificações"⟩), ("step4", ⟨"step", "⏳ Salvar"⟩)]
    isSubmitting := false
    plans := ⟨["19.90"], ["Mensal"], ["mensal"]⟩
    token := some "123456789:ABC-defGHI_123"
    idVip := some "-1001234567890"
    idLogs := some "-1009876543210"
    formAction := "https://painel.example/bots/create"
    location := "https://painel.example/bots/new" }

/-- The same page without a submit control. -/
def pageWithoutSubmit : Page := { botPage with submitBtn := none }

/-- A JSON answer of the verification API with HTTP status 200. -/
def apiResponse (e : Envelope) : Response :=
  { status := 200, url := "", text := Except.ok "", json := Except.ok e }

/-- A membership answer carrying the given role. -/
def memberResponse (role : String) : Response :=
  apiResponse { ok := true, description := none, result := some ⟨"", some role⟩ }

/-- An answer to the form submission. -/
def postResponse (status : Nat) (body : String) : Response :=
  { status := status, url := "https://painel.example/bots", text := Except.ok body,
    json := Except.error ⟨"SyntaxError", "Unexpected token"⟩ }

/-- A network in which the identity is resolved, the two membership checks
return the given roles, and the form submission is answered with the given
status and body. -/
def netWith (roleVip roleLogs : String) (status : Nat) (body : String) : Net :=
  fun k _ =>
    match k with
    | 0 => Except.ok (apiResponse { ok := true, description := none, result := some ⟨"42", none⟩ })
    | 1 => Except.ok (memberResponse roleVip)
    | 2 => Except.ok (memberResponse roleLogs)
    | _ => Except.ok (postResponse status body)

/-- A network whose every call throws. -/
def failingNet : Net := fun _ _ => Except.error ⟨"TypeError", "Failed to fetch"⟩

/-! ## Formatting of group identifiers -/

/-- A text input: its current value. -/
structure InputEl where
  value : String
  deriving DecidableEq, Repr

/-- Class `[^\d-]`. -/
def isNotDigitOrHyphen (c : Char) : Bool := !(isDigit c || c == '-')

/-- The call `s.replace(/[...]/g, "")` for a class `p` of single characters:
every character of the class is removed. -/
def removeAll (p : Char → Bool) (s : String) : String := ⟨s.data.filter (fun c => !p c)⟩

/-- Source function `formatGroupId`. -/
def formatGroupId (input : InputEl) : InputEl :=
  let value := removeAll isNotDigitOrHyphen input.value
  let value := if truthy value && !startsWith value "-" then "-" ++ value else value
  { input with value := value }

/-! ## Media upload -/

/-- The selected file: its name, its MIME type and its size in bytes. -/
structure SelectedFile where
  name : String
  type : String
  size : Nat
  deriving DecidableEq, Repr

/-- The file input: its identifier, its value and the first selected file.
Assigning the empty string to the value clears the selection. -/
structure FileInput where
  id : String
  value : String
  file : Option SelectedFile
  deriving DecidableEq, Repr

/-- The label next to the file input: the text of its `.upload-text` and
`.upload-limit` children, when it has them, and whether it carries the class
`file-selected`. -/
structure FileLabel where
  uploadText : Option String
  uploadLimit : Option String
  fileSelected : Bool
  deriving DecidableEq, Repr

/-- The media element appended to the preview once the file is read. -/
structure MediaTag where
  tag : String
  src : String
  type : String
  deriving DecidableEq, Repr

/-- Markup of the preview surface: either markup that is already there, or the
file card written by `handleMediaUpload` (the icon, the name, the size, the
kind, the arguments of the removal button, and the media element). -/
inductive Markup where
  | raw (html : String) : Markup
  | fileCard (icon name size kind inputId previewId : String) (media : Option MediaTag) : Markup
  deriving DecidableEq, Repr

/-- The preview surface. -/
structure PreviewEl where
  display : String
  innerHTML : Markup
  deriving DecidableEq, Repr

/-- What `handleMediaUpload` looks up: the input, the label that follows it and
the preview surface (`none` when the element does not exist). -/
structure UploadSurface where
  input : FileInput
  label : Option FileLabel
  preview : Option PreviewEl
  deriving DecidableEq, Repr

/-- What the upload handlers take from outside: the floating point renderings
`formatFileSize(bytes)`, `(bytes / 1024 / 1024).toFixed(1)` and
`bytes / 1024 / 1024` as a text, and the data address produced by the file
reader (`none` when the read never completes). -/
structure UploadEnv where
  formatFileSize : Nat → String
  megabytesFixed : Nat → String
  megabytes : Nat → String
  dataUrl : Option String

/-- The merged configuration of `handleMediaUpload`. -/
structure UploadConfig where
  allowedTypes : List String
  maxVideoSize : Nat
  maxImageSize : Nat
  deriving DecidableEq, Repr

/-- The default configuration of `handleMediaUpload`. -/
def defaultUploadConfig : UploadConfig :=
  { allowedTypes := ["image/jpeg", "image/jpg", "image/png", "video/mp4", "video/avi",
      "video/quicktime", "video/x-msvideo", "video/webm", "video/x-matroska"]
    maxVideoSize := 50 * 1024 * 1024
    maxImageSize := 10 * 1024 * 1024 }

/-- Outcome of a run of an upload handler: the value returned (`none` for
`undefined`), the surfaces it leaves and the alerts it raised. -/
structure UploadRun where
  result : Option Bool
  surface : UploadSurface
  alerts : List String
  deriving DecidableEq, Repr

/-- The rejection shared by the three checks of `handleMediaUpload`: an alert,
the input cleared, `false` returned. -/
def rejectUpload (s : UploadSurface) (message : String) : UploadRun :=
  { result := some false
    surface := { s with input := { s.input with value := "", file := none } }
    alerts := [message] }

/-- Source function `handleMediaUpload`, run until the file reader has
settled. -/
def handleMediaUpload (env : UploadEnv) (config : UploadConfig) (previewId : String)
    (s : UploadSurface) : UploadRun :=
  match s.input.file with
  | none => { result := none, surface := s, alerts := [] }
  | some file =>
    if !(config.allowedTypes.contains (toLowerCase file.type)) then
      let message :=
        if startsWith file.type "image/" then
          "Formato de imagem não suportado! Use apenas JPG ou PNG."
        else if startsWith file.type "video/" then
          "Formato de vídeo não suportado! Use MP4, AVI, MOV, MKV ou WebM."
        else "Formato de arquivo não suportado!"
      rejectUpload s message
    else
      let isVideo := startsWith file.type "video/"
      let isImage := startsWith file.type "image/"
      if isImage && !(["image/jpeg", "image/jpg", "image/png"].contains (toLowerCase file.type)) then
        rejectUpload s "Use apenas imagens JPG ou PNG para evitar falhas no Telegram."
      else
        let maxSize := if isVideo then config.maxVideoSize else config.maxImageSize
        if maxSize < file.size then
          rejectUpload s ("Arquivo muito grande! Tamanho: " ++ env.megabytesFixed file.size ++
            "MB, Máximo: " ++ env.megabytes maxSize ++ "MB")
        else
          let label := s.label.map (fun l =>
            { uploadText := l.uploadText.map (fun _ => file.name)
              uploadLimit := l.uploadLimit.map (fun _ => "(" ++ env.formatFileSize file.size ++ ")")
              fileSelected := true })
          let card (media : Option MediaTag) : Markup :=
            Markup.fileCard (if isImage then "image" else if isVideo then "video" else "file")
              file.name (env.formatFileSize file.size)
              (if isVideo then "Vídeo" else if isImage then "Imagem" else "Arquivo")
              s.input.id previewId media
          let preview := s.preview.map (fun pv =>
            if isImage then
              match env.dataUrl with
              | some url => { display := "block", innerHTML := card (some ⟨"img", url, ""⟩) }
              | none => { pv with display := "block" }
            else if isVideo then
              match env.dataUrl with
              | some url =>
                { display := "block", innerHTML := card (some ⟨"video", url, file.type⟩) }
              | none => { pv with display := "block" }
            else { display := "block", innerHTML := card none })
          { result := some true
            surface := { s with label := label, preview := preview }
            alerts := [] }

/-- A page configured with two step identifiers whose template has the four
step elements. -/
def shortConfigPage : Page := { botPage with stepIds := ["step1", "step2"] }

/-- Renderings used in the concrete upload runs. -/
def sampleUploadEnv : UploadEnv :=
  { formatFileSize := fun n => toString n ++ " Bytes"
    megabytesFixed := fun n => toString (n / 1048576)
    megabytes := fun n => toString (n / 1048576)
    dataUrl := some "data:" }

/-- An upload surface on which the given file is selected. -/
def uploadSurface (file : SelectedFile) : UploadSurface :=
  { input := { id := "welcome_image", value := file.name, file := some file }
    label := some
      { uploadText := some "Escolher Mídia", uploadLimit := some "(Máx: 50MB)",
        fileSelected := false }
    preview := some { display := "none", innerHTML := Markup.raw "" } }

/-- A network that answers the calls, in order, with the given responses (and
every later call with the last one). -/
def netOf (r1 r2 r3 r4 : Response) : Net :=
  fun k _ =>
    match k with
    | 0 => Except.ok r1
    | 1 => Except.ok r2
    | 2 => Except.ok r3
    | _ => Except.ok r4

/-- A membership answer flagged as failed, with the given description. -/
def unreachableResponse (description : String) : Response :=
  apiResponse { ok := false, description := some description, result := none }

/-- The complete page with an empty submit label. -/
def emptyLabelPage : Page := { botPage with submitText := some ⟨"", none⟩ }

/-- An identity answer that resolves the bot `42`. -/
def identityResponse : Response :=
  apiResponse { ok := true, description := none, result := some ⟨"42", none⟩ }

/-! ## Predicates used to state the properties of the section validators -/

/-- A field that is present and not blank once trimmed. -/
def NonBlank (el : Option String) : Prop := ∃ value, el = some value ∧ trim value ≠ ""

/-- A price field that is present and holds a number that is at least `0.01`. -/
def PriceValid (el : Option String) : Prop :=
  ∃ value, el = some value ∧ (parseFloat value).isNaN = false ∧
    (parseFloat value).geHundredth = true

/-- Some price of the plan list is at least `0.01`. -/
def HasPrice (sel : PlanFields) : Prop := ∃ v ∈ sel.pix, (parseFloat v).geHundredth = true

/-- Some name of the plan list is not blank. -/
def HasName (sel : PlanFields) : Prop := ∃ v ∈ sel.names, trim v ≠ ""

/-- Some duration of the plan list is not blank. -/
def HasDuration (sel : PlanFields) : Prop := ∃ v ∈ sel.durations, trim v ≠ ""

/-- A network that answers every call with the same response to a form
submission. -/
def postNet (status : Nat) (body : String) : Net :=
  fun _ _ => Except.ok (postResponse status body)

/-! ## Predicates used to state the properties of the submit handlers -/

/-- The idle state: the busy flag is down and the submit control, if the page
has one, is enabled. -/
def Idle (p : Page) : Prop := p.isSubmitting = false ∧ submitDisabled p = false

/-- The submit control of `q`, if there is one, is enabled, and `q` has a submit
control exactly when `p` has one. -/
def SubmitEnabled (p q : Page) : Prop :=
  (∀ b, q.submitBtn = some b → b.disabled = false) ∧ q.submitBtn.isSome = p.submitBtn.isSome

/-- The identity call succeeded: a response with a success HTTP status whose
envelope has a true success flag and carries the identity. -/
def identityPassed (o : Except JsError Response) : Bool :=
  match o with
  | Except.ok r =>
    r.ok && (match r.json with
      | Except.ok e => e.ok && e.result.isSome
      | Except.error _ => false)
  | Except.error _ => false

/-- A membership check passed: a response whose envelope has a true success
flag and a role among `administrator` and `creator`. -/
def membershipPassed (o : Except JsError Response) : Bool :=
  match o with
  | Except.ok r =>
    (match r.json with
      | Except.ok e => e.ok && (match e.result with
        | some m => isAdminRole m.status
        | none => false)
      | Except.error _ => false)
  | Except.error _ => false

/-- The plan section, the credential format and both group identifier formats
are valid. -/
def LocalValid (p : Page) : Prop :=
  (validatePlanSection p.plans).ok = true ∧
  (∃ t, p.token = some t ∧ validateTelegramToken (trim t) = true) ∧
  (∃ g, p.idVip = some g ∧ validateGroupId (trim g) = true) ∧
  (∃ g, p.idLogs = some g ∧ validateGroupId (trim g) = true)

/-- The membership role carried by an envelope, if any. -/
def Envelope.role (e : Envelope) : Option String := e.result.bind (fun m => m.status)

/-- Detail of an unreachable-group failure: the description given by the
provider when there is one (a non-empty text), and the default text otherwise. -/
def unreachableDetail (e : Envelope) : String :=
  match e.description with
  | some d => if d = "" then "Bot não está no grupo" else d
  | none => "Bot não está no grupo"

/-- An envelope flagged as successful carries its result. -/
def Envelope.WellFormed (e : Envelope) : Prop := e.ok = true → e.result ≠ none

/-- Target of the redirect as the specification words it: the address given by
the caller if there is one (a non-empty text), else the address of the
response, else the current location. -/
def redirectTarget (given : Option String) (responseUrl location : String) : String :=
  match given with
  | some u => if u ≠ "" then u else if responseUrl ≠ "" then responseUrl else location
  | none => if responseUrl ≠ "" then responseUrl else location

/-! ## Predicates used to state the properties of the utilities -/

/-- The normalisation of a group identifier as the specification words it:
every character that is not a decimal digit or a hyphen is removed, then one
hyphen is put in front exactly when the result is not empty and does not
already start with a hyphen. -/
def normalizedGroupId (v : String) : String :=
  let kept := v.data.filter (fun c => decide ('0' ≤ c ∧ c ≤ '9') || c == '-')
  if kept ≠ [] ∧ kept.head? ≠ some '-' then ⟨'-' :: kept⟩ else ⟨kept⟩

/-- The image types of the upload allow-list. -/
def imageTypes : List String := ["image/jpeg", "image/jpg", "image/png"]

/-- The video types of the upload allow-list. -/
def videoTypes : List String :=
  ["video/mp4", "video/avi", "video/quicktime", "video/x-msvideo", "video/webm",
    "video/x-matroska"]

/-- A MIME type as a file object reports it: printable characters of Basic
Latin, none of them an upper-case letter. -/
def isReportedType (type : String) : Bool :=
  type.data.all (fun c => decide (0x20 ≤ c.toNat) && decide (c.toNat ≤ 0x7E) &&
    !(decide (0x41 ≤ c.toNat) && decide (c.toNat ≤ 0x5A)))

/-- The detail of a submission failure: the response body when it is not
empty, and the text derived from the status code otherwise. -/
def failureDetail (body : String) (status : Nat) : String :=
  if body ≠ "" then body else "Erro HTTP " ++ toString status

/-- The type checks of `handleMediaUpload` taken together: the lower-cased
type is in the allow-list, and a type that starts with `image/` is one of the
three image types. -/
def mediaTypeOk (config : UploadConfig) (type : String) : Bool :=
  config.allowedTypes.contains (toLowerCase type) &&
    !(startsWith type "image/" &&
      !(["image/jpeg", "image/jpg", "image/png"].contains (toLowerCase type)))

/-- The size limit that `handleMediaUpload` applies to a type. -/
def mediaLimit (config : UploadConfig) (type : String) : Nat :=
  if startsWith type "video/" then config.maxVideoSize else config.maxImageSize

/-! ## Sanity checks of the embedding on concrete inputs -/

example : trim "  a b \n" = "a b" := by decide
example : parseFloat "  -12.50e-2xyz" = ParsedNum.decimal true 1250 (-4) := by decide
example : parseFloat "." = ParsedNum.nan := by decide
example : (parseFloat "0.01").geHundredth = true := by decide
example : (parseFloat "0.009999999999999999").geHundredth = false := by decide
example : validateGroupId "-1001234567890" = true := by decide
example : validateGroupId "-12a" = false := by decide
example : validateGroupId "1001" = false := by decide
example : includes (toLowerCase "Erro no grupo VIP: x") "vip" = true := by decide
example : replaceFirst "⏳ Token" "⏳" "✓" = "✓ Token" := by decide
example : stepIdOf ["a", "b"] 5 = "step5" := by decide

example : (handleMediaUpload sampleUploadEnv defaultUploadConfig "mediaPreview"
    (uploadSurface ⟨"a.png", "image/png", 1000⟩)).result = some true := by decide
example : (handleMediaUpload sampleUploadEnv defaultUploadConfig "mediaPreview"
    (uploadSurface ⟨"a.gif", "image/gif", 1000⟩)).alerts =
      ["Formato de imagem não suportado! Use apenas JPG ou PNG."] := by decide

example : toLowerCase "video/x-matros\u212Aa" = "video/x-matroska" := by decide
example : toLowerCase "\u0130" = "i\u0307" := by decide
example : (handleMediaUpload sampleUploadEnv defaultUploadConfig "mediaPreview"
    (uploadSurface ⟨"a.mkv", "video/x-matros\u212Aa", 1000⟩)).result = some true := by decide

/-! ## Regular expressions: the matcher computes the language -/

namespace Re

theorem matches_empty_iff (x : List Char) : Matches empty x ↔ False := by
  constructor
  · intro h; cases h
  · intro h; exact h.elim

theorem matches_eps_iff (x : List Char) : Matches eps x ↔ x = [] := by
  constructor
  · intro h; cases h; rfl
  · intro h; subst h; exact Matches.eps

theorem matches_cls_iff (p : Char → Bool) (x : List Char) :
    Matches (cls p) x ↔ ∃ c, x = [c] ∧ p c = true := by
  constructor
  · intro h
    cases h with
    | cls hp => exact ⟨_, rfl, hp⟩
  · rintro ⟨c, rfl, hp⟩
    exact Matches.cls hp

theorem matches_alt_iff (a b : Re) (x : List Char) :
    Matches (alt a b) x ↔ Matches a x ∨ Matches b x := by
  constructor
  · intro h
    cases h with
    | altL h => exact Or.inl h
    | altR h => exact Or.inr h
  · rintro (h | h)
    · exact Matches.altL h
    · exact Matches.altR h

theorem matches_seq_iff (a b : Re) (x : List Char) :
    Matches (seq a b) x ↔ ∃ s t, x = s ++ t ∧ Matches a s ∧ Matches b t := by
  constructor
  · intro h
    cases h with
    | seq ha hb => exact ⟨_, _, rfl, ha, hb⟩
  · rintro ⟨s, t, rfl, ha, hb⟩
    exact Matches.seq ha hb

theorem matches_opt_iff (a : Re) (x : List Char) :
    Matches (opt a) x ↔ x = [] ∨ Matches a x := by
  simp [opt, matches_alt_iff, matches_eps_iff]

theorem nullable_iff (r : Re) : r.nullable = true ↔ Matches r [] := by
  induction r with
  | empty => simp [nullable, matches_empty_iff]
  | eps => simp [nullable, matches_eps_iff]
  | cls p => simp [nullable, matches_cls_iff]
  | alt a b iha ihb => simp [nullable, matches_alt_iff, iha, ihb]
  | seq a b iha ihb =>
    simp only [nullable, Bool.and_eq_true, iha, ihb, matches_seq_iff]
    constructor
    · rintro ⟨ha, hb⟩
      exact ⟨[], [], rfl, ha, hb⟩
    · rintro ⟨s, t, hst, ha, hb⟩
      have hs : s = [] := (List.append_eq_nil.mp hst.symm).1
      have ht : t = [] := (List.append_eq_nil.mp hst.symm).2
      subst hs; subst ht
      exact ⟨ha, hb⟩
  | star a _ => simp [nullable, Matches.starNil]

theorem star_cons_inv {a : Re} {c : Char} {x : List Char}
    (h : Matches (star a) (c :: x)) :
    ∃ u v, x = u ++ v ∧ Matches a (c :: u) ∧ Matches (star a) v := by
  generalize hr : star a = r at h
  generalize hy : c :: x = y at h
  induction h generalizing x with
  | eps => cases hr
  | cls _ => cases hr
  | altL _ _ => cases hr
  | altR _ _ => cases hr
  | seq _ _ _ _ => cases hr
  | starNil => cases hy
  | @starCons a1 s t hs ht _ iht =>
    cases hr
    cases s with
    | nil =>
      simp only [List.nil_append] at hy
      exact iht rfl hy
    | cons d s1 =>
      simp only [List.cons_append, List.cons.injEq] at hy
      obtain ⟨hd, hx⟩ := hy
      subst hd
      exact ⟨s1, t, hx, hs, ht⟩

theorem deriv_iff (r : Re) (c : Char) (x : List Char) :
    Matches (deriv r c) x ↔ Matches r (c :: x) := by
  induction r generalizing x with
  | empty => simp [deriv, matches_empty_iff]
  | eps => simp [deriv, matches_empty_iff, matches_eps_iff]
  | cls p =>
    by_cases hp : p c = true
    · simp only [deriv, hp, if_true, matches_eps_iff, matches_cls_iff]
      constructor
      · rintro rfl
        exact ⟨c, rfl, hp⟩
      · rintro ⟨d, hd, _⟩
        simp only [List.cons.injEq] at hd
        exact hd.2
    · have hp2 : p c = false := by simpa using hp
      simp only [deriv, hp2, Bool.false_eq_true, if_false, matches_empty_iff, matches_cls_iff,
        false_iff]
      rintro ⟨d, hd, hpd⟩
      simp only [List.cons.injEq] at hd
      obtain ⟨rfl, _⟩ := hd
      exact hp hpd
  | alt a b iha ihb => simp [deriv, matches_alt_iff, iha, ihb]
  | seq a b iha ihb =>
    have key : Matches (seq a b) (c :: x) ↔
        (Matches a [] ∧ Matches b (c :: x)) ∨
          ∃ u v, x = u ++ v ∧ Matches a (c :: u) ∧ Matches b v := by
      rw [matches_seq_iff]
      constructor
      · rintro ⟨s, t, hst, ha, hb⟩
        cases s with
        | nil =>
          simp only [List.nil_append] at hst
          subst hst
          exact Or.inl ⟨ha, hb⟩
        | cons d s1 =>
          simp only [List.cons_append, List.cons.injEq] at hst
          obtain ⟨hd, hx⟩ := hst
          subst hd
          exact Or.inr ⟨s1, t, hx, ha, hb⟩
      · rintro (⟨ha, hb⟩ | ⟨u, v, hx, ha, hb⟩)
        · exact ⟨[], c :: x, rfl, ha, hb⟩
        · exact ⟨c :: u, v, by simp [hx], ha, hb⟩
    rw [key]
    by_cases hn : nullable a = true
    · have hn1 : Matches a [] := (nullable_iff a).mp hn
      simp only [deriv, hn, if_true, matches_alt_iff, matches_seq_iff, iha, ihb]
      constructor
      · rintro (h | h)
        · exact Or.inr h
        · exact Or.inl ⟨hn1, h⟩
      · rintro (⟨_, h⟩ | h)
        · exact Or.inr h
        · exact Or.inl h
    · have hn1 : ¬ Matches a [] := fun h => hn ((nullable_iff a).mpr h)
      have hn2 : nullable a = false := by simpa using hn
      simp only [deriv, hn2, Bool.false_eq_true, if_false, matches_seq_iff, iha]
      constructor
      · intro h; exact Or.inr h
      · rintro (⟨h, _⟩ | h)
        · exact (hn1 h).elim
        · exact h
  | star a iha =>
    simp only [deriv, matches_seq_iff, iha]
    constructor
    · rintro ⟨u, v, hx, ha, hv⟩
      subst hx
      exact Matches.starCons (s := c :: u) ha hv
    · intro h
      exact star_cons_inv h

theorem test_iff (r : Re) (x : List Char) : r.test x = true ↔ Matches r x := by
  induction x generalizing r with
  | nil => simp [test, nullable_iff]
  | cons c x ih => simp [test, ih, deriv_iff]

theorem matches_star_cls_iff (p : Char → Bool) (x : List Char) :
    Matches (star (cls p)) x ↔ ∀ c ∈ x, p c = true := by
  constructor
  · intro h
    generalize hr : star (cls p) = r at h
    induction h with
    | eps => cases hr
    | cls _ => cases hr
    | altL _ _ => cases hr
    | altR _ _ => cases hr
    | seq _ _ _ _ => cases hr
    | starNil => simp
    | @starCons a1 s t hs _ _ iht =>
      cases hr
      obtain ⟨d, rfl, hd⟩ := (matches_cls_iff p s).mp hs
      intro c hc
      simp only [List.singleton_append, List.mem_cons] at hc
      rcases hc with rfl | hc
      · exact hd
      · exact iht rfl c hc
  · intro h
    induction x with
    | nil => exact Matches.starNil
    | cons d x ih =>
      have hd : p d = true := h d (List.mem_cons_self d x)
      have hx : Matches (star (cls p)) x := ih (fun c hc => h c (List.mem_cons_of_mem d hc))
      exact Matches.starCons (s := [d]) (Matches.cls hd) hx

theorem matches_plus_cls_iff (p : Char → Bool) (x : List Char) :
    Matches (plus (cls p)) x ↔ x ≠ [] ∧ ∀ c ∈ x, p c = true := by
  simp only [plus, matches_seq_iff, matches_cls_iff, matches_star_cls_iff]
  constructor
  · rintro ⟨s, t, rfl, ⟨c, rfl, hc⟩, ht⟩
    refine ⟨by simp, ?_⟩
    intro d hd
    simp only [List.singleton_append, List.mem_cons] at hd
    rcases hd with rfl | hd
    · exact hc
    · exact ht d hd
  · rintro ⟨hne, h⟩
    cases x with
    | nil => exact (hne rfl).elim
    | cons d x =>
      exact ⟨[d], x, rfl, ⟨d, rfl, h d (List.mem_cons_self d x)⟩,
        fun c hc => h c (List.mem_cons_of_mem d hc)⟩

end Re

/-! ## Credential and group identifier formats -/

/-- C9. `validateTelegramToken` accepts exactly the strings made of one or more
decimal digits, one colon, and one or more characters that are ASCII letters,
digits, underscores or hyphens; it accepts `123456789:ABC-defGHI_123` and
rejects `123456789-ABCdef` and `abc:123`. -/
theorem validateTelegramToken_iff :
    (∀ token : String, validateTelegramToken token = true ↔
      ∃ ds cs : List Char, token.data = ds ++ ':' :: cs ∧
        ds ≠ [] ∧ (∀ c ∈ ds, '0' ≤ c ∧ c ≤ '9') ∧
        cs ≠ [] ∧ (∀ c ∈ cs, ('A' ≤ c ∧ c ≤ 'Z') ∨ ('a' ≤ c ∧ c ≤ 'z') ∨
          ('0' ≤ c ∧ c ≤ '9') ∨ c = '_' ∨ c = '-')) ∧
    validateTelegramToken "123456789:ABC-defGHI_123" = true ∧
    validateTelegramToken "123456789-ABCdef" = false ∧
    validateTelegramToken "abc:123" = false := by
  refine ⟨?_, by decide, by decide, by decide⟩
  intro token
  simp only [validateTelegramToken, tokenPattern, Re.test_iff, Re.matches_seq_iff,
    Re.matches_plus_cls_iff, Re.matches_cls_iff]
  constructor
  · rintro ⟨ds, t, ht, ⟨hds, hdig⟩, u, cs, rfl, ⟨c, rfl, hc⟩, hcs, htok⟩
    have hc1 : c = ':' := by simpa using hc
    subst hc1
    refine ⟨ds, cs, by simpa using ht, hds, ?_, hcs, ?_⟩
    · intro d hd
      simpa [isDigit] using hdig d hd
    · intro d hd
      have := htok d hd
      simp only [isTokenChar, Bool.or_eq_true, decide_eq_true_eq, beq_iff_eq] at this
      tauto
  · rintro ⟨ds, cs, ht, hds, hdig, hcs, htok⟩
    refine ⟨ds, ':' :: cs, ht, ⟨hds, ?_⟩, [':'], cs, rfl, ⟨':', rfl, by simp⟩, hcs, ?_⟩
    · intro d hd
      simpa [isDigit] using hdig d hd
    · intro d hd
      have := htok d hd
      simp only [isTokenChar, Bool.or_eq_true, decide_eq_true_eq, beq_iff_eq]
      tauto

theorem matches_digits_numeric (ds : List Char) (hne : ds ≠ [])
    (hd : ∀ c ∈ ds, isDigit c = true) : Re.Matches reStringNumeric ds := by
  have h1 : Re.Matches reDigits ds := (Re.matches_plus_cls_iff _ _).mpr ⟨hne, hd⟩
  have h2 : Re.Matches reUnsignedDecimal ds := by
    refine Re.Matches.altR (Re.Matches.altL ?_)
    exact (Re.matches_seq_iff _ _ _).mpr ⟨ds, [], by simp, h1,
      (Re.matches_seq_iff _ _ _).mpr ⟨[], [], rfl,
        (Re.matches_opt_iff _ _).mpr (Or.inl rfl), (Re.matches_opt_iff _ _).mpr (Or.inl rfl)⟩⟩
  have h3 : Re.Matches (Re.seq reSign reUnsignedDecimal) ds :=
    (Re.matches_seq_iff _ _ _).mpr ⟨[], ds, rfl, (Re.matches_opt_iff _ _).mpr (Or.inl rfl), h2⟩
  exact (Re.matches_seq_iff _ _ _).mpr ⟨[], ds, rfl, Re.Matches.starNil,
    (Re.matches_seq_iff _ _ _).mpr ⟨ds, [], by simp,
      (Re.matches_opt_iff _ _).mpr (Or.inr (Re.Matches.altL h3)), Re.Matches.starNil⟩⟩

/-- C10 (as amended). Every string accepted by `validateGroupId` starts with a
hyphen and continues with text that `Number` converts to a number; and every
string made of a hyphen followed by one or more decimal digits is accepted. -/
theorem validateGroupId_accepts :
    (∀ groupId : String, validateGroupId groupId = true →
      ∃ rest : List Char, groupId.data = '-' :: rest ∧ isNaN ⟨rest⟩ = false) ∧
    (∀ ds : List Char, ds ≠ [] → (∀ c ∈ ds, '0' ≤ c ∧ c ≤ '9') →
      validateGroupId ⟨'-' :: ds⟩ = true) := by
  constructor
  · intro groupId h
    simp only [validateGroupId, Bool.and_eq_true, Bool.not_eq_true', startsWith,
      substring1] at h
    obtain ⟨⟨_, hs⟩, hn⟩ := h
    cases hg : groupId.data with
    | nil => rw [hg] at hs; simp [startsWithChars] at hs
    | cons c rest =>
      rw [hg] at hs hn
      have hc : c = '-' := by
        have : ('-' == c) = true := by simpa [startsWithChars] using hs
        exact (beq_iff_eq.mp this).symm
      subst hc
      exact ⟨rest, rfl, by simpa using hn⟩
  · intro ds hne hd
    have hm : Re.Matches reStringNumeric ds :=
      matches_digits_numeric ds hne (fun c hc => by simpa [isDigit] using hd c hc)
    have ht : reStringNumeric.test ds = true := (Re.test_iff _ _).mpr hm
    simp [validateGroupId, truthy, startsWith, startsWithChars, substring1, isNaN, ht]

/-- C10 witness: the amended statement at `-100` and at the digits `100`. -/
theorem validateGroupId_accepts_witness :
    (∃ rest : List Char, "-100".data = '-' :: rest ∧ isNaN ⟨rest⟩ = false) ∧
      validateGroupId ⟨'-' :: ['1', '0', '0']⟩ = true :=
  ⟨validateGroupId_accepts.1 "-100" (by decide),
    validateGroupId_accepts.2 ['1', '0', '0'] (by decide) (by decide)⟩

/-- C10 counterexample: `--5` is accepted although what follows its first
hyphen is not a sequence of decimal digits. -/
theorem validateGroupId_counterexample :
    validateGroupId "--5" = true ∧
      ¬ ∃ ds : List Char, "--5".data = '-' :: ds ∧ ds ≠ [] ∧ ∀ c ∈ ds, '0' ≤ c ∧ c ≤ '9' := by
  refine ⟨by decide, ?_⟩
  rintro ⟨ds, h, _, hd⟩
  have hds : ds = ['-', '5'] := by
    have : ("--5".data) = ['-', '-', '5'] := rfl
    rw [this] at h
    simpa using h.symm
  subst hds
  have := hd '-' (by simp)
  exact absurd this (by decide)

/-! ## Section validators -/

theorem truthy_iff_ne (s : String) : truthy s = true ↔ s ≠ "" := by
  cases s with
  | mk d =>
    cases d with
    | nil => simp [truthy]
    | cons c d =>
      simp only [truthy, List.isEmpty_cons, Bool.not_false, ne_eq, true_iff]
      intro h
      have := congrArg String.data h
      simp at this

theorem trim_empty : trim "" = "" := by decide

theorem nonblank_iff (v : String) : (truthy v && truthy (trim v)) = true ↔ trim v ≠ "" := by
  simp only [Bool.and_eq_true, truthy_iff_ne]
  constructor
  · exact fun h => h.2
  · intro h
    refine ⟨?_, h⟩
    rintro rfl
    exact h trim_empty

theorem parseFloat_of_blank (v : String) (h : trim v = "") : parseFloat v = ParsedNum.nan := by
  have h1 : trimChars v.data = [] := by
    have := congrArg String.data h
    simpa [trim] using this
  have h2 : v.data.dropWhile isJsSpace = [] := by
    simp only [trimChars, List.reverse_eq_nil_iff, List.dropWhile_eq_nil_iff,
      List.mem_reverse] at h1
    cases hd : v.data.dropWhile isJsSpace with
    | nil => rfl
    | cons c t =>
      have hc : isJsSpace c = true := h1 c (by rw [hd]; simp)
      have hn := List.head_dropWhile_not isJsSpace v.data (by rw [hd]; simp)
      simp only [hd, List.head_cons] at hn
      rw [hc] at hn
      exact absurd hn (by simp)
  simp only [parseFloat, h2]
  decide

theorem price_iff (v : String) :
    (truthy v && (parseFloat v).geHundredth) = true ↔ (parseFloat v).geHundredth = true := by
  simp only [Bool.and_eq_true, truthy_iff_ne]
  constructor
  · exact fun h => h.2
  · intro h
    refine ⟨?_, h⟩
    rintro rfl
    revert h
    decide

theorem hasValue_iff (sel : PlanFields) :
    sel.pix.any (fun value => truthy value && (parseFloat value).geHundredth) = true ↔
      HasPrice sel := by
  simp only [List.any_eq_true, price_iff, HasPrice]

theorem hasName_iff (l : List String) :
    l.any (fun value => truthy value && truthy (trim value)) = true ↔
      ∃ v ∈ l, trim v ≠ "" := by
  simp only [List.any_eq_true, nonblank_iff]

/-- C7 (as amended). `validatePlanSection` returns `ok: true` exactly when some
row has a price of at least 0.01, some row has a non-blank name and some row has
a non-blank duration, whichever rows these are; otherwise it returns the failure
of the first unmet criterion in the order price, name, duration, and when every
price is blank the failure is the one about the PIX value. -/
theorem validatePlanSection_spec :
    (∀ sel, (validatePlanSection sel).ok = true ↔ HasPrice sel ∧ HasName sel ∧ HasDuration sel) ∧
    (∀ sel, ¬ HasPrice sel → validatePlanSection sel =
      SectionValidationResult.fail "Erro de Validação"
        "Configure pelo menos um valor PIX para o seu bot!") ∧
    (∀ sel, HasPrice sel → ¬ HasName sel → validatePlanSection sel =
      SectionValidationResult.fail "Erro de Validação"
        "Configure pelo menos um nome de plano para o seu bot!") ∧
    (∀ sel, HasPrice sel → HasName sel → ¬ HasDuration sel → validatePlanSection sel =
      SectionValidationResult.fail "Erro de Validação"
        "Configure pelo menos uma duração de plano para o seu bot!") ∧
    (∀ sel, (∀ v ∈ sel.pix, trim v = "") → validatePlanSection sel =
      SectionValidationResult.fail "Erro de Validação"
        "Configure pelo menos um valor PIX para o seu bot!") ∧
    validatePlanSection ⟨["", "10"], ["A", ""], ["", "mensal"]⟩ =
      SectionValidationResult.pass := by
  have hp : ∀ sel, ¬ HasPrice sel → validatePlanSection sel =
      SectionValidationResult.fail "Erro de Validação"
        "Configure pelo menos um valor PIX para o seu bot!" := by
    intro sel h
    have h1 : sel.pix.any (fun value => truthy value && (parseFloat value).geHundredth) = false := by
      rw [← Bool.not_eq_true, hasValue_iff]; exact h
    simp [validatePlanSection, h1]
  refine ⟨?_, hp, ?_, ?_, ?_, by decide⟩
  · intro sel
    by_cases h1 : HasPrice sel
    · by_cases h2 : HasName sel
      · by_cases h3 : HasDuration sel
        · have e1 := (hasValue_iff sel).mpr h1
          have e2 := (hasName_iff sel.names).mpr h2
          have e3 := (hasName_iff sel.durations).mpr h3
          simp [validatePlanSection, e1, e2, e3, h1, h2, h3, SectionValidationResult.pass]
        · have e1 := (hasValue_iff sel).mpr h1
          have e2 := (hasName_iff sel.names).mpr h2
          have e3 : sel.durations.any (fun value => truthy value && truthy (trim value)) = false := by
            rw [← Bool.not_eq_true, hasName_iff]; exact h3
          simp [validatePlanSection, e1, e2, e3, h3, SectionValidationResult.fail]
      · have e1 := (hasValue_iff sel).mpr h1
        have e2 : sel.names.any (fun value => truthy value && truthy (trim value)) = false := by
          rw [← Bool.not_eq_true, hasName_iff]; exact h2
        simp [validatePlanSection, e1, e2, h2, SectionValidationResult.fail]
    · rw [hp sel h1]
      simp [h1, SectionValidationResult.fail]
  · intro sel h1 h2
    have e1 := (hasValue_iff sel).mpr h1
    have e2 : sel.names.any (fun value => truthy value && truthy (trim value)) = false := by
      rw [← Bool.not_eq_true, hasName_iff]; exact h2
    simp [validatePlanSection, e1, e2]
  · intro sel h1 h2 h3
    have e1 := (hasValue_iff sel).mpr h1
    have e2 := (hasName_iff sel.names).mpr h2
    have e3 : sel.durations.any (fun value => truthy value && truthy (trim value)) = false := by
      rw [← Bool.not_eq_true, hasName_iff]; exact h3
    simp [validatePlanSection, e1, e2, e3]
  · intro sel h
    apply hp
    rintro ⟨v, hv, hge⟩
    rw [parseFloat_of_blank v (h v hv)] at hge
    exact absurd hge (by decide)

/-- C7 witness: the clauses of the amended statement at concrete plan lists. -/
theorem validatePlanSection_spec_witness :
    validatePlanSection ⟨["abc"], ["A"], ["mensal"]⟩ =
        SectionValidationResult.fail "Erro de Validação"
          "Configure pelo menos um valor PIX para o seu bot!" ∧
      validatePlanSection ⟨["10"], [" "], ["mensal"]⟩ =
        SectionValidationResult.fail "Erro de Validação"
          "Configure pelo menos um nome de plano para o seu bot!" ∧
      validatePlanSection ⟨["10"], ["A"], [""]⟩ =
        SectionValidationResult.fail "Erro de Validação"
          "Configure pelo menos uma duração de plano para o seu bot!" ∧
      validatePlanSection ⟨["", " "], ["A"], ["mensal"]⟩ =
        SectionValidationResult.fail "Erro de Validação"
          "Configure pelo menos um valor PIX para o seu bot!" :=
  ⟨validatePlanSection_spec.2.1 ⟨["abc"], ["A"], ["mensal"]⟩ (by simp [HasPrice]; decide),
    validatePlanSection_spec.2.2.1 ⟨["10"], [" "], ["mensal"]⟩
      ⟨"10", by simp, by decide⟩ (by simp [HasName]; decide),
    validatePlanSection_spec.2.2.2.1 ⟨["10"], ["A"], [""]⟩
      ⟨"10", by simp, by decide⟩ ⟨"A", by simp, by decide⟩ (by simp [HasDuration]; decide),
    validatePlanSection_spec.2.2.2.2.1 ⟨["", " "], ["A"], ["mensal"]⟩ (by decide)⟩

/-- C7 counterexample: the single row with price `0.005`, name `A` and duration
`mensal` has a positive price (5 × 10⁻³), a non-blank name and a non-blank
duration, and is rejected with the PIX-value message. -/
theorem validatePlanSection_counterexample :
    parseFloat "0.005" = ParsedNum.decimal false 5 (-3) ∧
      trim "A" ≠ "" ∧ trim "mensal" ≠ "" ∧
      validatePlanSection ⟨["0.005"], ["A"], ["mensal"]⟩ =
        SectionValidationResult.fail "Erro de Validação"
          "Configure pelo menos um valor PIX para o seu bot!" := by
  decide

theorem missingOrBlank_iff (el : Option String) : missingOrBlank el = false ↔ NonBlank el := by
  cases el with
  | none => simp [missingOrBlank, NonBlank]
  | some v => simp [missingOrBlank, NonBlank, truthy_iff_ne]

theorem ParsedNum.lt_false_iff (x : ParsedNum) (h : x.isNaN = false) :
    x.ltHundredth = false ↔ x.geHundredth = true := by
  cases x with
  | nan => simp [ParsedNum.isNaN] at h
  | infinity neg => cases neg <;> simp [ParsedNum.ltHundredth, ParsedNum.geHundredth]
  | decimal neg m e =>
    cases neg
    · by_cases he : 0 ≤ e
      · simp [ParsedNum.ltHundredth, ParsedNum.geHundredth, he]
      · simp [ParsedNum.ltHundredth, ParsedNum.geHundredth, he]
    · simp [ParsedNum.ltHundredth, ParsedNum.geHundredth]

theorem priceRejected_iff (el : Option String) : priceRejected el = false ↔ PriceValid el := by
  cases el with
  | none => simp [priceRejected, PriceValid]
  | some v =>
    simp only [priceRejected, PriceValid, Bool.or_eq_false_iff, Option.some.injEq,
      exists_eq_left']
    constructor
    · rintro ⟨h1, h2⟩
      exact ⟨h1, (ParsedNum.lt_false_iff _ h1).mp h2⟩
    · rintro ⟨h1, h2⟩
      exact ⟨h1, (ParsedNum.lt_false_iff _ h1).mpr h2⟩

theorem missingOrBlank_true (el : Option String) (h : ¬ NonBlank el) : missingOrBlank el = true := by
  rw [← Bool.not_eq_false, missingOrBlank_iff]; exact h

theorem priceRejected_true (el : Option String) (h : ¬ PriceValid el) : priceRejected el = true := by
  rw [← Bool.not_eq_false, priceRejected_iff]; exact h

/-- C8. `validateOrderBumpSection` returns `ok: true` exactly when the name, the
message, the deliverable message and the two button labels are present and not
blank after trimming and the price is a number that is at least 0.01; otherwise
it returns the title and message of the first failing field in the order name,
price, message, deliverable message, accept label, decline label, whatever the
later fields hold. -/
theorem validateOrderBumpSection_spec :
    (∀ cfg, (validateOrderBumpSection cfg).ok = true ↔
      NonBlank cfg.name ∧ PriceValid cfg.price ∧ NonBlank cfg.message ∧
        NonBlank cfg.deliverable ∧ NonBlank cfg.accept ∧ NonBlank cfg.decline) ∧
    (∀ cfg, ¬ NonBlank cfg.name → validateOrderBumpSection cfg =
      SectionValidationResult.fail "Nome obrigatório" "Informe o nome da oferta.") ∧
    (∀ cfg, NonBlank cfg.name → ¬ PriceValid cfg.price → validateOrderBumpSection cfg =
      SectionValidationResult.fail "Preço inválido" "Informe um preço válido (mínimo R$ 0,01).") ∧
    (∀ cfg, NonBlank cfg.name → PriceValid cfg.price → ¬ NonBlank cfg.message →
      validateOrderBumpSection cfg =
        SectionValidationResult.fail "Mensagem obrigatória" "Informe a mensagem da oferta.") ∧
    (∀ cfg, NonBlank cfg.name → PriceValid cfg.price → NonBlank cfg.message →
      ¬ NonBlank cfg.deliverable → validateOrderBumpSection cfg =
        SectionValidationResult.fail "Entregável obrigatório"
          "Informe a mensagem do entregável que será enviada após o pagamento.") ∧
    (∀ cfg, NonBlank cfg.name → PriceValid cfg.price → NonBlank cfg.message →
      NonBlank cfg.deliverable → ¬ NonBlank cfg.accept → validateOrderBumpSection cfg =
        SectionValidationResult.fail "Texto do botão" "Informe o texto do botão de aceitar.") ∧
    (∀ cfg, NonBlank cfg.name → PriceValid cfg.price → NonBlank cfg.message →
      NonBlank cfg.deliverable → NonBlank cfg.accept → ¬ NonBlank cfg.decline →
      validateOrderBumpSection cfg =
        SectionValidationResult.fail "Texto do botão" "Informe o texto do botão de recusar.") := by
  have f1 : ∀ cfg, ¬ NonBlank cfg.name → validateOrderBumpSection cfg =
      SectionValidationResult.fail "Nome obrigatório" "Informe o nome da oferta." := by
    intro cfg h
    simp [validateOrderBumpSection, missingOrBlank_true _ h]
  have f2 : ∀ cfg, NonBlank cfg.name → ¬ PriceValid cfg.price → validateOrderBumpSection cfg =
      SectionValidationResult.fail "Preço inválido"
        "Informe um preço válido (mínimo R$ 0,01)." := by
    intro cfg h1 h2
    simp [validateOrderBumpSection, (missingOrBlank_iff _).mpr h1, priceRejected_true _ h2]
  have f3 : ∀ cfg, NonBlank cfg.name → PriceValid cfg.price → ¬ NonBlank cfg.message →
      validateOrderBumpSection cfg =
        SectionValidationResult.fail "Mensagem obrigatória" "Informe a mensagem da oferta." := by
    intro cfg h1 h2 h3
    simp [validateOrderBumpSection, (missingOrBlank_iff _).mpr h1, (priceRejected_iff _).mpr h2,
      missingOrBlank_true _ h3]
  have f4 : ∀ cfg, NonBlank cfg.name → PriceValid cfg.price → NonBlank cfg.message →
      ¬ NonBlank cfg.deliverable → validateOrderBumpSection cfg =
        SectionValidationResult.fail "Entregável obrigatório"
          "Informe a mensagem do entregável que será enviada após o pagamento." := by
    intro cfg h1 h2 h3 h4
    simp [validateOrderBumpSection, (missingOrBlank_iff _).mpr h1, (priceRejected_iff _).mpr h2,
      (missingOrBlank_iff _).mpr h3, missingOrBlank_true _ h4]
  have f5 : ∀ cfg, NonBlank cfg.name → PriceValid cfg.price → NonBlank cfg.message →
      NonBlank cfg.deliverable → ¬ NonBlank cfg.accept → validateOrderBumpSection cfg =
        SectionValidationResult.fail "Texto do botão" "Informe o texto do botão de aceitar." := by
    intro cfg h1 h2 h3 h4 h5
    simp [validateOrderBumpSection, (missingOrBlank_iff _).mpr h1, (priceRejected_iff _).mpr h2,
      (missingOrBlank_iff _).mpr h3, (missingOrBlank_iff _).mpr h4, missingOrBlank_true _ h5]
  have f6 : ∀ cfg, NonBlank cfg.name → PriceValid cfg.price → NonBlank cfg.message →
      NonBlank cfg.deliverable → NonBlank cfg.accept → ¬ NonBlank cfg.decline →
      validateOrderBumpSection cfg =
        SectionValidationResult.fail "Texto do botão" "Informe o texto do botão de recusar." := by
    intro cfg h1 h2 h3 h4 h5 h6
    simp [validateOrderBumpSection, (missingOrBlank_iff _).mpr h1, (priceRejected_iff _).mpr h2,
      (missingOrBlank_iff _).mpr h3, (missingOrBlank_iff _).mpr h4,
      (missingOrBlank_iff _).mpr h5, missingOrBlank_true _ h6]
  refine ⟨?_, f1, f2, f3, f4, f5, f6⟩
  intro cfg
  constructor
  · intro h
    by_cases h1 : NonBlank cfg.name
    swap
    · rw [f1 cfg h1] at h; simp [SectionValidationResult.fail] at h
    by_cases h2 : PriceValid cfg.price
    swap
    · rw [f2 cfg h1 h2] at h; simp [SectionValidationResult.fail] at h
    by_cases h3 : NonBlank cfg.message
    swap
    · rw [f3 cfg h1 h2 h3] at h; simp [SectionValidationResult.fail] at h
    by_cases h4 : NonBlank cfg.deliverable
    swap
    · rw [f4 cfg h1 h2 h3 h4] at h; simp [SectionValidationResult.fail] at h
    by_cases h5 : NonBlank cfg.accept
    swap
    · rw [f5 cfg h1 h2 h3 h4 h5] at h; simp [SectionValidationResult.fail] at h
    by_cases h6 : NonBlank cfg.decline
    swap
    · rw [f6 cfg h1 h2 h3 h4 h5 h6] at h; simp [SectionValidationResult.fail] at h
    exact ⟨h1, h2, h3, h4, h5, h6⟩
  · rintro ⟨h1, h2, h3, h4, h5, h6⟩
    simp [validateOrderBumpSection, (missingOrBlank_iff _).mpr h1, (priceRejected_iff _).mpr h2,
      (missingOrBlank_iff _).mpr h3, (missingOrBlank_iff _).mpr h4,
      (missingOrBlank_iff _).mpr h5, (missingOrBlank_iff _).mpr h6, SectionValidationResult.pass]

/-- C8 witness: each failure clause at a concrete offer. -/
theorem validateOrderBumpSection_spec_witness :
    validateOrderBumpSection ⟨some " ", none, none, none, none, none⟩ =
        SectionValidationResult.fail "Nome obrigatório" "Informe o nome da oferta." ∧
      validateOrderBumpSection ⟨some "Oferta", some "0.001", none, none, none, none⟩ =
        SectionValidationResult.fail "Preço inválido" "Informe um preço válido (mínimo R$ 0,01)." ∧
      validateOrderBumpSection ⟨some "Oferta", some "9.90", some "", none, none, none⟩ =
        SectionValidationResult.fail "Mensagem obrigatória" "Informe a mensagem da oferta." ∧
      validateOrderBumpSection ⟨some "Oferta", some "9.90", some "m", none, some "", some ""⟩ =
        SectionValidationResult.fail "Entregável obrigatório"
          "Informe a mensagem do entregável que será enviada após o pagamento." ∧
      validateOrderBumpSection ⟨some "Oferta", some "9.90", some "m", some "d", some " ", none⟩ =
        SectionValidationResult.fail "Texto do botão" "Informe o texto do botão de aceitar." ∧
      validateOrderBumpSection ⟨some "Oferta", some "9.90", some "m", some "d", some "Sim", none⟩ =
        SectionValidationResult.fail "Texto do botão" "Informe o texto do botão de recusar." :=
  have n : NonBlank (some "Oferta") := ⟨"Oferta", rfl, by decide⟩
  have p : PriceValid (some "9.90") := ⟨"9.90", rfl, by decide, by decide⟩
  have m : NonBlank (some "m") := ⟨"m", rfl, by decide⟩
  have d : NonBlank (some "d") := ⟨"d", rfl, by decide⟩
  have a : NonBlank (some "Sim") := ⟨"Sim", rfl, by decide⟩
  ⟨validateOrderBumpSection_spec.2.1 ⟨some " ", none, none, none, none, none⟩
      (by rintro ⟨v, hv, h⟩; cases hv; exact h (by decide)),
    validateOrderBumpSection_spec.2.2.1 ⟨some "Oferta", some "0.001", none, none, none, none⟩ n
      (by rintro ⟨v, hv, _, h⟩; cases hv; exact absurd h (by decide)),
    validateOrderBumpSection_spec.2.2.2.1 ⟨some "Oferta", some "9.90", some "", none, none, none⟩
      n p (by rintro ⟨v, hv, h⟩; cases hv; exact h (by decide)),
    validateOrderBumpSection_spec.2.2.2.2.1
      ⟨some "Oferta", some "9.90", some "m", none, some "", some ""⟩ n p m
      (by rintro ⟨v, hv, _⟩; cases hv),
    validateOrderBumpSection_spec.2.2.2.2.2.1
      ⟨some "Oferta", some "9.90", some "m", some "d", some " ", none⟩ n p m d
      (by rintro ⟨v, hv, h⟩; cases hv; exact h (by decide)),
    validateOrderBumpSection_spec.2.2.2.2.2.2
      ⟨some "Oferta", some "9.90", some "m", some "d", some "Sim", none⟩ n p m d a
      (by rintro ⟨v, hv, _⟩; cases hv)⟩

/-! ## Surfaces: what each operation leaves untouched -/

theorem showError_frame (p : Page) (t m : String) :
    (showError p t m).isSubmitting = p.isSubmitting ∧ (showError p t m).submitBtn = p.submitBtn := by
  unfold showError
  split <;> exact ⟨rfl, rfl⟩

theorem showSuccess_frame (p : Page) (t m : String) :
    (showSuccess p t m).isSubmitting = p.isSubmitting ∧
      (showSuccess p t m).submitBtn = p.submitBtn := by
  unfold showSuccess
  split <;> exact ⟨rfl, rfl⟩

theorem updateLoadingStep_frame (p : Page) (n : Int) (s : String) (ms : Option Messages) :
    (updateLoadingStep p n s ms).isSubmitting = p.isSubmitting ∧
      (updateLoadingStep p n s ms).submitBtn = p.submitBtn ∧
      (updateLoadingStep p n s ms).location = p.location ∧
      (updateLoadingStep p n s ms).formAction = p.formAction := by
  unfold updateLoadingStep
  simp only []
  split
  · split <;> exact ⟨rfl, rfl, rfl, rfl⟩
  · exact ⟨rfl, rfl, rfl, rfl⟩

theorem hideLoading_idle (p : Page) : Idle (hideLoading p) ∧ SubmitEnabled p (hideLoading p) := by
  refine ⟨⟨rfl, ?_⟩, ?_, ?_⟩
  · cases h : p.submitBtn <;> simp [submitDisabled, hideLoading, h]
  · intro b hb
    cases h : p.submitBtn with
    | none => simp [hideLoading, h] at hb
    | some c =>
      simp only [hideLoading, h, Option.map_some', Option.some.injEq] at hb
      rw [← hb]
  · cases h : p.submitBtn <;> simp [hideLoading, h]

theorem showLoading_control (p : Page) (t : Option String) :
    (showLoading p t).submitBtn.isSome = p.submitBtn.isSome ∧
      (showLoading p t).isSubmitting = true ∧
      (p.submitBtn ≠ none → submitDisabled (showLoading p t) = true) := by
  refine ⟨?_, rfl, ?_⟩
  · cases h : p.submitBtn <;> simp [showLoading, h]
  · intro hne
    cases h : p.submitBtn with
    | none => exact absurd h hne
    | some b => simp [submitDisabled, showLoading, h]

theorem exited_of_eq {p q q1 : Page} (h : Idle q ∧ SubmitEnabled p q)
    (h1 : q1.isSubmitting = q.isSubmitting) (h2 : q1.submitBtn = q.submitBtn) :
    Idle q1 ∧ SubmitEnabled p q1 := by
  obtain ⟨⟨a, b⟩, c, d⟩ := h
  refine ⟨⟨h1.trans a, ?_⟩, ?_, ?_⟩
  · simpa [submitDisabled, h2] using b
  · intro x hx; exact c x (h2 ▸ hx)
  · rw [h2]; exact d

theorem exited_refl {p : Page} (h : Idle p) : Idle p ∧ SubmitEnabled p p := by
  refine ⟨h, ?_, rfl⟩
  intro b hb
  have := h.2
  simpa [submitDisabled, hb] using this

theorem submitEnabled_trans {p q r : Page} (h1 : q.submitBtn.isSome = p.submitBtn.isSome)
    (h2 : Idle r ∧ SubmitEnabled q r) : Idle r ∧ SubmitEnabled p r :=
  ⟨h2.1, h2.2.1, h2.2.2.trans h1⟩

theorem catch_exits (p q : Page) (t m : String) (h : q.submitBtn.isSome = p.submitBtn.isSome) :
    Idle (showError (hideLoading q) t m) ∧ SubmitEnabled p (showError (hideLoading q) t m) :=
  submitEnabled_trans h
    (exited_of_eq (hideLoading_idle q) (showError_frame _ t m).1 (showError_frame _ t m).2)

theorem onSubmitted_exits (opts : SubmitOpts) (ms : Option Messages) (resp : Response) (r : Run) :
    Idle (onSubmitted opts ms resp r).page ∧ SubmitEnabled r.page (onSubmitted opts ms resp r).page := by
  simp only [onSubmitted]
  have hu := updateLoadingStep_frame r.page 4 "completed" ms
  exact submitEnabled_trans (congrArg Option.isSome hu.2.1)
    (exited_of_eq (hideLoading_idle _) (showSuccess_frame _ _ _).1 (showSuccess_frame _ _ _).2)

theorem postForm_exits (opts : SubmitOpts) (ms : Option Messages) (net : Net) (k : Nat) (r : Run) :
    ((postForm opts ms net k r).2 = none →
      Idle (postForm opts ms net k r).1.page ∧
        SubmitEnabled r.page (postForm opts ms net k r).1.page) ∧
    (postForm opts ms net k r).1.page.submitBtn.isSome = r.page.submitBtn.isSome := by
  unfold postForm
  simp only []
  split
  · simp
  · split
    · exact ⟨fun _ => onSubmitted_exits opts ms _ _, (onSubmitted_exits opts ms _ _).2.2⟩
    · split <;> simp

theorem simpleTry_exits (opts : SubmitOpts) (net : Net) (r : Run) :
    ((simpleTry opts net r).2 = none →
      Idle (simpleTry opts net r).1.page ∧ SubmitEnabled r.page (simpleTry opts net r).1.page) ∧
    (simpleTry opts net r).1.page.submitBtn.isSome = r.page.submitBtn.isSome := by
  unfold simpleTry
  simp only []
  have h1 := updateLoadingStep_frame r.page 1 "active"
    (some [(1, "Validando dados..."), (4, "Salvando alterações...")])
  have h2 := updateLoadingStep_frame (updateLoadingStep r.page 1 "active"
    (some [(1, "Validando dados..."), (4, "Salvando alterações...")])) 1 "completed" none
  have h3 := updateLoadingStep_frame (updateLoadingStep (updateLoadingStep r.page 1 "active"
    (some [(1, "Validando dados..."), (4, "Salvando alterações...")])) 1 "completed" none)
    4 "active" none
  have hb : (updateLoadingStep (updateLoadingStep (updateLoadingStep r.page 1 "active"
      (some [(1, "Validando dados..."), (4, "Salvando alterações...")])) 1 "completed" none)
      4 "active" none).submitBtn.isSome = r.page.submitBtn.isSome := by
    rw [h3.2.1, h2.2.1, h1.2.1]
  have hp := postForm_exits opts none net 0
    { page := updateLoadingStep (updateLoadingStep (updateLoadingStep r.page 1 "active"
        (some [(1, "Validando dados..."), (4, "Salvando alterações...")])) 1 "completed" none)
        4 "active" none
      trace := r.trace ++ [Event.updateLoadingStep 1 "active",
        Event.updateLoadingStep 1 "completed", Event.updateLoadingStep 4 "active"] }
  exact ⟨fun h => submitEnabled_trans hb (hp.1 h), hp.2.trans hb⟩

theorem botTry_exits (opts : SubmitOpts) (net : Net) (token idVip idLogs : String) (r : Run) :
    ((botTry opts net token idVip idLogs r).2 = none →
      Idle (botTry opts net token idVip idLogs r).1.page ∧
        SubmitEnabled r.page (botTry opts net token idVip idLogs r).1.page) ∧
    (botTry opts net token idVip idLogs r).1.page.submitBtn.isSome = r.page.submitBtn.isSome := by
  unfold botTry
  simp only []
  have h1 := updateLoadingStep_frame r.page 1 "active" (some (opts.stepMessages.getD botStepMessages))
  split
  · exact ⟨fun h => by simp at h, by simp [h1.2.1]⟩
  · have h2 := updateLoadingStep_frame (updateLoadingStep r.page 1 "active"
      (some (opts.stepMessages.getD botStepMessages))) 1 "completed" none
    have h3 := updateLoadingStep_frame (updateLoadingStep (updateLoadingStep r.page 1 "active"
      (some (opts.stepMessages.getD botStepMessages))) 1 "completed" none) 4 "active"
      (some (opts.stepMessages.getD botStepMessages))
    have hb : (updateLoadingStep (updateLoadingStep (updateLoadingStep r.page 1 "active"
        (some (opts.stepMessages.getD botStepMessages))) 1 "completed" none) 4 "active"
        (some (opts.stepMessages.getD botStepMessages))).submitBtn.isSome =
        r.page.submitBtn.isSome := by
      rw [h3.2.1, h2.2.1, h1.2.1]
    exact ⟨fun h => submitEnabled_trans hb ((postForm_exits _ _ _ _ _).1 h),
      (postForm_exits _ _ _ _ _).2.trans hb⟩

theorem simple_ends_idle (opts : SubmitOpts) (net : Net) (p : Page) (h : Idle p) :
    Idle (registerSimpleFormSubmit opts net p).page ∧
      SubmitEnabled p (registerSimpleFormSubmit opts net p).page := by
  unfold registerSimpleFormSubmit
  simp only []
  split
  · exact exited_refl h
  · split
    · exact exited_of_eq (exited_refl h) (showError_frame _ _ _).1 (showError_frame _ _ _).2
    · have hs := showLoading_control p (some (optOr opts.submitLoadingText "Salvando..."))
      have hx := simpleTry_exits opts net
        { page := showLoading p (some (optOr opts.submitLoadingText "Salvando..."))
          trace := (if opts.validatePlans then [Event.validatePlanSection] else []) ++
            [Event.showLoading (optOr opts.submitLoadingText "Salvando...")] }
      revert hx
      generalize simpleTry opts net _ = x
      intro hx
      rcases x with ⟨r, _ | err⟩
      · exact submitEnabled_trans hs.1 (hx.1 rfl)
      · exact catch_exits p r.page _ _ (hx.2.trans hs.1)

theorem bot_ends_idle (opts : SubmitOpts) (net : Net) (p : Page) (h : Idle p) :
    Idle (registerBotSubmitWithTelegramChecks opts net p).page ∧
      SubmitEnabled p (registerBotSubmitWithTelegramChecks opts net p).page := by
  unfold registerBotSubmitWithTelegramChecks
  simp only []
  have he : ∀ t m, Idle (showError p t m) ∧ SubmitEnabled p (showError p t m) := fun t m =>
    exited_of_eq (exited_refl h) (showError_frame _ _ _).1 (showError_frame _ _ _).2
  split
  · exact exited_refl h
  split
  · exact he _ _
  split
  · exact he _ _
  split
  · exact he _ _
  split
  · exact he _ _
  have hs := showLoading_control p (some (optOr opts.submitLoadingText "Validando..."))
  have hx := botTry_exits opts net ((p.token.map trim).getD "undefined")
    ((p.idVip.map trim).getD "undefined") ((p.idLogs.map trim).getD "undefined")
    { page := showLoading p (some (optOr opts.submitLoadingText "Validando..."))
      trace := [Event.validatePlanSection, Event.validateTelegramToken (p.token.map trim),
        Event.validateGroupId (p.idVip.map trim), Event.validateGroupId (p.idLogs.map trim),
        Event.showLoading (optOr opts.submitLoadingText "Validando...")] }
  revert hx
  generalize botTry opts net _ _ _ _ = x
  intro hx
  rcases x with ⟨r, _ | err⟩
  · exact submitEnabled_trans hs.1 (hx.1 rfl)
  · exact catch_exits p r.page _ _ (hx.2.trans hs.1)

/-- C2. Started in the idle state, a run of either submit handler ends with the
busy flag down and the submit control enabled (the page has a submit control
after the run exactly when it had one before), whatever the fields hold and
however the network settles each call: local validation failure, format
failure, remote verification failure, non-2xx answer, thrown exception and
success alike. -/
theorem submit_ends_idle (opts : SubmitOpts) (net : Net) (p : Page) (h : Idle p) :
    (Idle (registerSimpleFormSubmit opts net p).page ∧
      SubmitEnabled p (registerSimpleFormSubmit opts net p).page) ∧
    (Idle (registerBotSubmitWithTelegramChecks opts net p).page ∧
      SubmitEnabled p (registerBotSubmitWithTelegramChecks opts net p).page) :=
  ⟨simple_ends_idle opts net p h, bot_ends_idle opts net p h⟩

/-! ## The re-entrancy guard -/

/-- C1 (as amended). On a page whose submit control exists and is disabled a
submit intent handled by either handler is a no-op: nothing is run, shown or
requested and the page is unchanged; and `showLoading` leaves every page that
has a submit control busy with that control disabled. -/
theorem submit_guard_noop :
    (∀ (opts : SubmitOpts) (net : Net) (p : Page), submitDisabled p = true →
      registerSimpleFormSubmit opts net p = { page := p, trace := [] } ∧
      registerBotSubmitWithTelegramChecks opts net p = { page := p, trace := [] }) ∧
    (∀ (p : Page) (text : Option String), p.submitBtn ≠ none →
      (showLoading p text).isSubmitting = true ∧ submitDisabled (showLoading p text) = true) := by
  constructor
  · intro opts net p h
    constructor
    · simp [registerSimpleFormSubmit, h]
    · simp [registerBotSubmitWithTelegramChecks, h]
  · intro p text h
    exact ⟨(showLoading_control p text).2.1, (showLoading_control p text).2.2 h⟩

/-- C1 witness: the complete page after `showLoading`. -/
theorem submit_guard_noop_witness :
    (registerSimpleFormSubmit defaultOpts failingNet (showLoading botPage none) =
        { page := showLoading botPage none, trace := [] } ∧
      registerBotSubmitWithTelegramChecks defaultOpts failingNet (showLoading botPage none) =
        { page := showLoading botPage none, trace := [] }) ∧
    ((showLoading botPage none).isSubmitting = true ∧
      submitDisabled (showLoading botPage none) = true) :=
  ⟨submit_guard_noop.1 defaultOpts failingNet (showLoading botPage none) (by decide),
    submit_guard_noop.2 botPage none (by decide)⟩

/-- C1 counterexample: on the page without a submit control, busy after
`showLoading`, a submit intent is not ignored: the simple handler runs the plan
validator, posts the form, shows a notification and clears the busy flag, and
the credential-bearing handler issues all four requests. -/
theorem submit_guard_counterexample :
    (showLoading pageWithoutSubmit none).isSubmitting = true ∧
    Event.validatePlanSection ∈ (registerSimpleFormSubmit defaultOpts (postNet 200 "")
      (showLoading pageWithoutSubmit none)).trace ∧
    fetchSites (registerSimpleFormSubmit defaultOpts (postNet 200 "")
      (showLoading pageWithoutSubmit none)).trace = [CallSite.formPost] ∧
    notifications (registerSimpleFormSubmit defaultOpts (postNet 200 "")
      (showLoading pageWithoutSubmit none)).trace =
        [Event.showSuccess "Salvo com sucesso! ✅" "Alterações salvas."] ∧
    (registerSimpleFormSubmit defaultOpts (postNet 200 "")
      (showLoading pageWithoutSubmit none)).page.isSubmitting = false ∧
    fetchSites (registerBotSubmitWithTelegramChecks defaultOpts
      (netWith "administrator" "administrator" 200 "") (showLoading pageWithoutSubmit none)).trace =
        [CallSite.getMe, CallSite.vipMember, CallSite.logsMember, CallSite.formPost] := by
  decide

/-- C2 witness: from the complete idle page, with a network whose every call
throws. -/
theorem submit_ends_idle_witness :
    Idle botPage ∧
    (Idle (registerSimpleFormSubmit defaultOpts failingNet botPage).page ∧
      SubmitEnabled botPage (registerSimpleFormSubmit defaultOpts failingNet botPage).page) ∧
    (Idle (registerBotSubmitWithTelegramChecks defaultOpts failingNet botPage).page ∧
      SubmitEnabled botPage
        (registerBotSubmitWithTelegramChecks defaultOpts failingNet botPage).page) :=
  ⟨⟨rfl, rfl⟩, submit_ends_idle defaultOpts failingNet botPage ⟨rfl, rfl⟩⟩


/-! ## Gating of the network calls -/

theorem fetchSites_append (a b : List Event) : fetchSites (a ++ b) = fetchSites a ++ fetchSites b := by
  induction a with
  | nil => rfl
  | cons e a ih => cases e <;> simp [fetchSites, ih]

theorem validateBotInGroups_calls (net : Net) (token a b : String) :
    fetchSites (validateBotInGroups net token a b).1 <+:
        [CallSite.getMe, CallSite.vipMember, CallSite.logsMember] ∧
    (CallSite.vipMember ∈ fetchSites (validateBotInGroups net token a b).1 →
      ∃ req, Event.fetch CallSite.getMe req ∈ (validateBotInGroups net token a b).1 ∧
        identityPassed (net 0 req) = true) ∧
    (CallSite.logsMember ∈ fetchSites (validateBotInGroups net token a b).1 →
      ∃ req, Event.fetch CallSite.vipMember req ∈ (validateBotInGroups net token a b).1 ∧
        membershipPassed (net 1 req) = true) ∧
    ((validateBotInGroups net token a b).2 = Except.ok () →
      fetchSites (validateBotInGroups net token a b).1 =
          [CallSite.getMe, CallSite.vipMember, CallSite.logsMember] ∧
        ∃ req, Event.fetch CallSite.logsMember req ∈ (validateBotInGroups net token a b).1 ∧
          membershipPassed (net 2 req) = true) := by
  unfold validateBotInGroups
  simp only [List.cons_append, List.nil_append]
  repeat' split
  all_goals
    refine ⟨by simp [fetchSites], ?_, ?_, ?_⟩
  all_goals
    first
    | (intro h; simp [fetchSites] at h; done)
    | (intro _
       exact ⟨_, List.mem_cons_self _ _, by simp_all [identityPassed]⟩)
    | (intro _
       exact ⟨_, List.mem_cons_of_mem _ (List.mem_cons_self _ _),
         by simp_all [membershipPassed]⟩)
    | (intro _
       exact ⟨by simp [fetchSites], _,
         List.mem_cons_of_mem _ (List.mem_cons_of_mem _ (List.mem_cons_self _ _)),
         by simp_all [membershipPassed]⟩)

theorem postForm_trace (opts : SubmitOpts) (ms : Option Messages) (net : Net) (k : Nat) (r : Run) :
    ∃ tail, (postForm opts ms net k r).1.trace = r.trace ++ tail ∧
      fetchSites tail = [CallSite.formPost] := by
  unfold postForm
  simp only []
  split
  · exact ⟨_, rfl, rfl⟩
  · split
    · simp only [onSubmitted, List.append_assoc]
      refine ⟨_, rfl, ?_⟩
      rfl
    · split <;> exact ⟨_, rfl, rfl⟩

theorem botTry_trace (opts : SubmitOpts) (net : Net) (token a b : String) (r : Run) :
    ∃ tail, (botTry opts net token a b r).1.trace =
        r.trace ++ [Event.updateLoadingStep 1 "active"] ++
          (validateBotInGroups net token a b).1 ++ tail ∧
      (((validateBotInGroups net token a b).2 = Except.ok () ∧
          fetchSites tail = [CallSite.formPost]) ∨
        ((validateBotInGroups net token a b).2 ≠ Except.ok () ∧ tail = [])) := by
  unfold botTry
  simp only []
  split
  · rename_i e he
    exact ⟨[], by simp, Or.inr ⟨by simp [he], rfl⟩⟩
  · rename_i u he
    obtain ⟨tail, ht, hs⟩ := postForm_trace opts (some (opts.stepMessages.getD botStepMessages))
      net 3
      { page := updateLoadingStep (updateLoadingStep (updateLoadingStep r.page 1 "active"
          (some (opts.stepMessages.getD botStepMessages))) 1 "completed" none) 4 "active"
          (some (opts.stepMessages.getD botStepMessages))
        trace := (r.trace ++ [Event.updateLoadingStep 1 "active"] ++
          (validateBotInGroups net token a b).1) ++ [Event.updateLoadingStep 1 "completed",
            Event.updateLoadingStep 4 "active"] }
    refine ⟨[Event.updateLoadingStep 1 "completed", Event.updateLoadingStep 4 "active"] ++ tail,
      ?_, Or.inl ⟨he, ?_⟩⟩
    · rw [ht]; simp
    · simp [fetchSites_append, fetchSites, hs]

theorem token_of_valid (o : Option String)
    (h : validateTelegramToken ((o.map trim).getD "undefined") = true) :
    ∃ t, o = some t ∧ validateTelegramToken (trim t) = true := by
  cases o with
  | none => exact absurd h (by decide)
  | some t => exact ⟨t, rfl, h⟩

theorem group_of_valid (o : Option String) (h : validateGroupIdOpt (o.map trim) = true) :
    ∃ g, o = some g ∧ validateGroupId (trim g) = true := by
  cases o with
  | none => simp [validateGroupIdOpt] at h
  | some g => exact ⟨g, rfl, h⟩

/-- Shape of the trace of a run of the credential-bearing handler: either no
request is issued, or the local checks passed and the requests are those of
`validateBotInGroups`, followed by the form submission exactly when the
verification returned. -/
theorem bot_trace_shape (opts : SubmitOpts) (net : Net) (p : Page) :
    fetchSites (registerBotSubmitWithTelegramChecks opts net p).trace = [] ∨
    (submitDisabled p = false ∧ LocalValid p ∧ ∃ t v l pre post,
      p.token = some t ∧ p.idVip = some v ∧ p.idLogs = some l ∧
      (registerBotSubmitWithTelegramChecks opts net p).trace =
        pre ++ (validateBotInGroups net (trim t) (trim v) (trim l)).1 ++ post ∧
      fetchSites pre = [] ∧
      (((validateBotInGroups net (trim t) (trim v) (trim l)).2 = Except.ok () ∧
          fetchSites post = [CallSite.formPost]) ∨
        ((validateBotInGroups net (trim t) (trim v) (trim l)).2 ≠ Except.ok () ∧
          fetchSites post = []))) := by
  unfold registerBotSubmitWithTelegramChecks
  simp only []
  split
  · exact Or.inl rfl
  rename_i hg
  split
  · exact Or.inl rfl
  rename_i hp
  split
  · exact Or.inl rfl
  rename_i ht
  split
  · exact Or.inl rfl
  rename_i hv
  split
  · exact Or.inl rfl
  rename_i hl
  right
  simp only [Bool.not_eq_true, Bool.not_eq_true', Bool.not_eq_false] at hg hp ht hv hl
  obtain ⟨t, htok, ht1⟩ := token_of_valid _ ht
  obtain ⟨v, hvip, hv1⟩ := group_of_valid _ hv
  obtain ⟨l, hlogs, hl1⟩ := group_of_valid _ hl
  refine ⟨hg, ⟨hp, ⟨t, htok, ht1⟩, ⟨v, hvip, hv1⟩, ⟨l, hlogs, hl1⟩⟩, t, v, l, ?_⟩
  simp only [htok, hvip, hlogs, Option.map_some', Option.getD_some]
  obtain ⟨tail, htr, hs⟩ := botTry_trace opts net (trim t) (trim v) (trim l)
    { page := showLoading p (some (optOr opts.submitLoadingText "Validando..."))
      trace := [Event.validatePlanSection, Event.validateTelegramToken (some (trim t)),
        Event.validateGroupId (some (trim v)), Event.validateGroupId (some (trim l)),
        Event.showLoading (optOr opts.submitLoadingText "Validando...")] }
  revert htr
  generalize botTry opts net _ _ _ _ = x
  intro htr
  rcases x with ⟨r, _ | err⟩
  · simp only at htr ⊢
    refine ⟨[Event.validatePlanSection, Event.validateTelegramToken (some (trim t)),
        Event.validateGroupId (some (trim v)), Event.validateGroupId (some (trim l)),
        Event.showLoading (optOr opts.submitLoadingText "Validando...")] ++
        [Event.updateLoadingStep 1 "active"], tail, trivial, trivial, trivial,
      ?_, ?_, ?_⟩
    · rw [htr]
    · rfl
    · rcases hs with ⟨h1, h2⟩ | ⟨h1, h2⟩
      · exact Or.inl ⟨h1, h2⟩
      · exact Or.inr ⟨h1, by rw [h2]; rfl⟩
  · simp only at htr ⊢
    refine ⟨[Event.validatePlanSection, Event.validateTelegramToken (some (trim t)),
        Event.validateGroupId (some (trim v)), Event.validateGroupId (some (trim l)),
        Event.showLoading (optOr opts.submitLoadingText "Validando...")] ++
        [Event.updateLoadingStep 1 "active"],
      tail ++ [Event.hideLoading,
        Event.showError (classifyError (errorText err) (trim v) (trim l)).1
          (classifyError (errorText err) (trim v) (trim l)).2], trivial, trivial, trivial,
      ?_, ?_, ?_⟩
    · rw [htr]; simp
    · rfl
    · rcases hs with ⟨h1, h2⟩ | ⟨h1, h2⟩
      · exact Or.inl ⟨h1, by simp [fetchSites_append, h2, fetchSites]⟩
      · exact Or.inr ⟨h1, by rw [h2]; rfl⟩

/-- C3. In every run of the credential-bearing handler the requests are issued
in the order identity, group A, group B, form submission, each at most once; the
identity call is issued only if the plan section, the credential format and
both group identifier formats are valid; the group A call only if the identity
call succeeded; the group B call only if the group A check passed; and the
form submission only if the group B check passed and `validateBotInGroups`
returned. -/
theorem bot_calls_gated (opts : SubmitOpts) (net : Net) (p : Page) :
    fetchSites (registerBotSubmitWithTelegramChecks opts net p).trace <+:
      [CallSite.getMe, CallSite.vipMember, CallSite.logsMember, CallSite.formPost] ∧
    (CallSite.getMe ∈ fetchSites (registerBotSubmitWithTelegramChecks opts net p).trace →
      LocalValid p) ∧
    (CallSite.vipMember ∈ fetchSites (registerBotSubmitWithTelegramChecks opts net p).trace →
      ∃ req, Event.fetch CallSite.getMe req ∈
          (registerBotSubmitWithTelegramChecks opts net p).trace ∧
        identityPassed (net 0 req) = true) ∧
    (CallSite.logsMember ∈ fetchSites (registerBotSubmitWithTelegramChecks opts net p).trace →
      ∃ req, Event.fetch CallSite.vipMember req ∈
          (registerBotSubmitWithTelegramChecks opts net p).trace ∧
        membershipPassed (net 1 req) = true) ∧
    (CallSite.formPost ∈ fetchSites (registerBotSubmitWithTelegramChecks opts net p).trace →
      (∃ req, Event.fetch CallSite.logsMember req ∈
          (registerBotSubmitWithTelegramChecks opts net p).trace ∧
        membershipPassed (net 2 req) = true) ∧
      ∃ t v l, p.token = some t ∧ p.idVip = some v ∧ p.idLogs = some l ∧
        (validateBotInGroups net (trim t) (trim v) (trim l)).2 = Except.ok ()) := by
  rcases bot_trace_shape opts net p with h | ⟨_, hlv, t, v, l, pre, post, ht, hv, hl, htr, hpre, hpost⟩
  · rw [h]
    exact ⟨List.nil_prefix, by simp, by simp, by simp, by simp⟩
  · have hc := validateBotInGroups_calls net (trim t) (trim v) (trim l)
    obtain ⟨c1, c2, c3, c4⟩ := hc
    have hmem : ∀ e, e ∈ (validateBotInGroups net (trim t) (trim v) (trim l)).1 →
        e ∈ (registerBotSubmitWithTelegramChecks opts net p).trace := by
      intro e he
      rw [htr]
      simp [he]
    rcases hpost with ⟨hok, hp4⟩ | ⟨hno, hp0⟩
    · obtain ⟨c5, c6⟩ := c4 hok
      have hsites : fetchSites (registerBotSubmitWithTelegramChecks opts net p).trace =
          [CallSite.getMe, CallSite.vipMember, CallSite.logsMember, CallSite.formPost] := by
        rw [htr, fetchSites_append, fetchSites_append, hpre, c5, hp4]
        rfl
      refine ⟨by rw [hsites], fun _ => hlv, fun _ => ?_, fun _ => ?_, fun _ => ⟨?_, ?_⟩⟩
      · obtain ⟨req, hr, hi⟩ := c2 (by rw [c5]; simp)
        exact ⟨req, hmem _ hr, hi⟩
      · obtain ⟨req, hr, hi⟩ := c3 (by rw [c5]; simp)
        exact ⟨req, hmem _ hr, hi⟩
      · obtain ⟨req, hr, hi⟩ := c6
        exact ⟨req, hmem _ hr, hi⟩
      · exact ⟨t, v, l, ht, hv, hl, hok⟩
    · have hsites : fetchSites (registerBotSubmitWithTelegramChecks opts net p).trace =
          fetchSites (validateBotInGroups net (trim t) (trim v) (trim l)).1 := by
        rw [htr, fetchSites_append, fetchSites_append, hpre, hp0]
        simp
      rw [hsites]
      refine ⟨c1.trans (List.prefix_append _ [CallSite.formPost]), fun _ => hlv, fun h => ?_,
        fun h => ?_, fun h => ?_⟩
      · obtain ⟨req, hr, hi⟩ := c2 h
        exact ⟨req, hmem _ hr, hi⟩
      · obtain ⟨req, hr, hi⟩ := c3 h
        exact ⟨req, hmem _ hr, hi⟩
      · have := c1.subset h
        simp at this

/-- C3 witness: the run on the complete page with both roles `administrator`
issues the four requests, and each gate holds there. -/
theorem bot_calls_gated_witness :
    CallSite.formPost ∈ fetchSites (registerBotSubmitWithTelegramChecks defaultOpts
        (netWith "administrator" "administrator" 200 "") botPage).trace ∧
      LocalValid botPage ∧
      (∃ req, Event.fetch CallSite.getMe req ∈ (registerBotSubmitWithTelegramChecks defaultOpts
          (netWith "administrator" "administrator" 200 "") botPage).trace ∧
        identityPassed (netWith "administrator" "administrator" 200 "" 0 req) = true) ∧
      (∃ req, Event.fetch CallSite.vipMember req ∈ (registerBotSubmitWithTelegramChecks defaultOpts
          (netWith "administrator" "administrator" 200 "") botPage).trace ∧
        membershipPassed (netWith "administrator" "administrator" 200 "" 1 req) = true) ∧
      (∃ req, Event.fetch CallSite.logsMember req ∈ (registerBotSubmitWithTelegramChecks
          defaultOpts (netWith "administrator" "administrator" 200 "") botPage).trace ∧
        membershipPassed (netWith "administrator" "administrator" 200 "" 2 req) = true) :=
  have h := bot_calls_gated defaultOpts (netWith "administrator" "administrator" 200 "") botPage
  ⟨by decide, h.2.1 (by decide), h.2.2.1 (by decide), h.2.2.2.1 (by decide),
    (h.2.2.2.2 (by decide)).1⟩

/-! ## Remote verification as a function of the three responses -/

theorem optOr_description (e : Envelope) :
    optOr e.description "Bot não está no grupo" = unreachableDetail e := by
  unfold unreachableDetail optOr
  cases e.description with
  | none => rfl
  | some d =>
    simp only [orElse]
    by_cases hd : d = ""
    · subst hd; rfl
    · have : truthy d = true := (truthy_iff_ne d).mpr hd
      simp [this, hd]

/-- C4. With the three calls answered by responses whose envelopes are well
formed, `validateBotInGroups` returns exactly when the identity response has a
success HTTP status and a true success flag and both membership responses have
a true success flag and a role among `administrator` and `creator`; otherwise
it throws the failure of the first failing step: `Token inválido`, then for
group A and for group B the unreachable failure carrying the description of the
provider or the default text, or the not-administrator failure. -/
theorem validateBotInGroups_result (net : Net) (token a b : String) (r1 r2 r3 : Response)
    (e1 e2 e3 : Envelope)
    (n1 : ∀ req, net 0 req = Except.ok r1) (n2 : ∀ req, net 1 req = Except.ok r2)
    (n3 : ∀ req, net 2 req = Except.ok r3)
    (j1 : r1.ok = true → r1.json = Except.ok e1) (j2 : r2.json = Except.ok e2)
    (j3 : r3.json = Except.ok e3)
    (w1 : e1.WellFormed) (w2 : e2.WellFormed) (w3 : e3.WellFormed) :
    ((validateBotInGroups net token a b).2 = Except.ok () ↔
      r1.ok = true ∧ e1.ok = true ∧ e2.ok = true ∧ isAdminRole e2.role = true ∧
        e3.ok = true ∧ isAdminRole e3.role = true) ∧
    (¬ (r1.ok = true ∧ e1.ok = true) →
      (validateBotInGroups net token a b).2 = Except.error (mkError "Token inválido")) ∧
    (r1.ok = true ∧ e1.ok = true → e2.ok = false →
      (validateBotInGroups net token a b).2 =
        Except.error (mkError ("Erro no grupo VIP: " ++ unreachableDetail e2))) ∧
    (r1.ok = true ∧ e1.ok = true → e2.ok = true → isAdminRole e2.role = false →
      (validateBotInGroups net token a b).2 =
        Except.error (mkError "Bot precisa ser administrador no grupo VIP")) ∧
    (r1.ok = true ∧ e1.ok = true → e2.ok = true → isAdminRole e2.role = true →
      e3.ok = false →
      (validateBotInGroups net token a b).2 =
        Except.error (mkError ("Erro no grupo de notificações: " ++ unreachableDetail e3))) ∧
    (r1.ok = true ∧ e1.ok = true → e2.ok = true → isAdminRole e2.role = true →
      e3.ok = true → isAdminRole e3.role = false →
      (validateBotInGroups net token a b).2 =
        Except.error (mkError "Bot precisa ser administrador no grupo de notificações")) := by
  have f0 : ¬ (r1.ok = true ∧ e1.ok = true) →
      (validateBotInGroups net token a b).2 = Except.error (mkError "Token inválido") := by
    intro h
    unfold validateBotInGroups
    simp only [n1]
    by_cases h1 : r1.ok = true
    · have h2 : e1.ok = false := by
        cases h3 : e1.ok
        · rfl
        · exact absurd ⟨h1, h3⟩ h
      simp [h1, j1 h1, h2]
    · simp [h1]
  have key : r1.ok = true ∧ e1.ok = true → ∃ m1, e1.result = some m1 ∧
      (validateBotInGroups net token a b).2 =
        (if e2.ok = false then
          Except.error (mkError ("Erro no grupo VIP: " ++ unreachableDetail e2))
        else if isAdminRole e2.role = false then
          Except.error (mkError "Bot precisa ser administrador no grupo VIP")
        else if e3.ok = false then
          Except.error (mkError ("Erro no grupo de notificações: " ++ unreachableDetail e3))
        else if isAdminRole e3.role = false then
          Except.error (mkError "Bot precisa ser administrador no grupo de notificações")
        else Except.ok ()) := by
    rintro ⟨h1, h2⟩
    cases hm1 : e1.result with
    | none => exact absurd hm1 (w1 h2)
    | some m1 =>
      refine ⟨m1, rfl, ?_⟩
      unfold validateBotInGroups
      simp only [n1, n2, n3, j1 h1, j2, j3, h1, h2, hm1, Bool.not_true, Bool.false_eq_true,
        if_false]
      cases h3 : e2.ok
      · simp [optOr_description]
      · cases hm2 : e2.result with
        | none => exact absurd hm2 (w2 h3)
        | some m2 =>
          have hr2 : e2.role = m2.status := by simp [Envelope.role, hm2]
          simp only [hr2, Bool.not_true, Bool.false_eq_true, if_false]
          cases h4 : isAdminRole m2.status
          · simp
          · cases h5 : e3.ok
            · simp [optOr_description]
            · cases hm3 : e3.result with
              | none => exact absurd hm3 (w3 h5)
              | some m3 =>
                have hr3 : e3.role = m3.status := by simp [Envelope.role, hm3]
                simp only [hr3]
                cases h6 : isAdminRole m3.status <;> simp
  refine ⟨?_, f0, ?_, ?_, ?_, ?_⟩
  · constructor
    · intro h
      by_cases hid : r1.ok = true ∧ e1.ok = true
      · obtain ⟨m1, _, hk⟩ := key hid
        rw [hk] at h
        cases h3 : e2.ok <;> cases h4 : isAdminRole e2.role <;> cases h5 : e3.ok <;>
          cases h6 : isAdminRole e3.role <;> simp_all
      · rw [f0 hid] at h
        cases h
    · rintro ⟨h1, h2, h3, h4, h5, h6⟩
      obtain ⟨m1, _, hk⟩ := key ⟨h1, h2⟩
      rw [hk]
      simp [h3, h4, h5, h6]
  · intro hid h3
    obtain ⟨m1, _, hk⟩ := key hid
    rw [hk]; simp [h3]
  · intro hid h3 h4
    obtain ⟨m1, _, hk⟩ := key hid
    rw [hk]; simp [h3, h4]
  · intro hid h3 h4 h5
    obtain ⟨m1, _, hk⟩ := key hid
    rw [hk]; simp [h3, h4, h5]
  · intro hid h3 h4 h5 h6
    obtain ⟨m1, _, hk⟩ := key hid
    rw [hk]; simp [h3, h4, h5, h6]

/-- C4 witness: identity resolved, group A `administrator`, group B `member`. -/
theorem validateBotInGroups_result_witness :
    (validateBotInGroups (netWith "administrator" "member" 200 "") "123456789:ABC-defGHI_123"
        "-1001234567890" "-1009876543210").2 =
      Except.error (mkError "Bot precisa ser administrador no grupo de notificações") :=
  (validateBotInGroups_result (netWith "administrator" "member" 200 "")
    "123456789:ABC-defGHI_123" "-1001234567890" "-1009876543210"
    (apiResponse { ok := true, description := none, result := some ⟨"42", none⟩ })
    (memberResponse "administrator") (memberResponse "member")
    { ok := true, description := none, result := some ⟨"42", none⟩ }
    { ok := true, description := none, result := some ⟨"", some "administrator"⟩ }
    { ok := true, description := none, result := some ⟨"", some "member"⟩ }
    (fun _ => rfl) (fun _ => rfl) (fun _ => rfl) (fun _ => rfl) rfl rfl
    (fun _ => by decide) (fun _ => by decide) (fun _ => by decide)).2.2.2.2.2
    ⟨by decide, rfl⟩ rfl (by decide) rfl (by decide)

/-! ## End-to-end runs of the credential-bearing handler -/

theorem orElse_eq (a b : String) : orElse a b = if a ≠ "" then a else b := by
  unfold orElse
  by_cases h : a = ""
  · subst h; rfl
  · simp [(truthy_iff_ne a).mpr h, h]

theorem optOr_redirect (given : Option String) (u loc : String) :
    optOr given (orElse u loc) = redirectTarget given u loc := by
  cases given with
  | none => simp [optOr, redirectTarget, orElse_eq]
  | some g => simp [optOr, redirectTarget, orElse_eq]

theorem validateBotInGroups_eval (net : Net) (token a b : String) (r1 r2 r3 : Response)
    (e1 e2 e3 : Envelope) (m1 m2 m3 : ApiResult)
    (n1 : ∀ req, net 0 req = Except.ok r1) (n2 : ∀ req, net 1 req = Except.ok r2)
    (n3 : ∀ req, net 2 req = Except.ok r3)
    (h1 : r1.ok = true) (j1 : r1.json = Except.ok e1) (o1 : e1.ok = true)
    (i1 : e1.result = some m1)
    (j2 : r2.json = Except.ok e2) (o2 : e2.ok = true) (i2 : e2.result = some m2)
    (a2 : isAdminRole m2.status = true)
    (j3 : r3.json = Except.ok e3) (o3 : e3.ok = true) (i3 : e3.result = some m3) :
    validateBotInGroups net token a b =
      ([Event.fetch CallSite.getMe
          (Request.get ("https://api.telegram.org/bot" ++ token ++ "/getMe")),
        Event.fetch CallSite.vipMember
          (Request.get ("https://api.telegram.org/bot" ++ token ++ "/getChatMember?chat_id=" ++
            a ++ "&user_id=" ++ m1.id)),
        Event.fetch CallSite.logsMember
          (Request.get ("https://api.telegram.org/bot" ++ token ++ "/getChatMember?chat_id=" ++
            b ++ "&user_id=" ++ m1.id))],
       if isAdminRole m3.status = true then Except.ok ()
       else Except.error (mkError "Bot precisa ser administrador no grupo de notificações")) := by
  unfold validateBotInGroups
  simp only [n1, n2, n3, h1, j1, o1, i1, j2, o2, i2, a2, j3, o3, i3, Bool.not_true,
    Bool.false_eq_true, if_false, List.cons_append, List.nil_append]
  cases isAdminRole m3.status <;> simp

theorem updateLoadingStep_panel (p : Page) (n : Int) (s : String) (ms : Option Messages) :
    (updateLoadingStep p n s ms).errorDisplay = p.errorDisplay ∧
      (updateLoadingStep p n s ms).errorTitle = p.errorTitle ∧
      (updateLoadingStep p n s ms).errorMessage = p.errorMessage := by
  unfold updateLoadingStep
  simp only []
  split
  · split <;> exact ⟨rfl, rfl, rfl⟩
  · exact ⟨rfl, rfl, rfl⟩

theorem updateLoadingStep_successPanel (p : Page) (n : Int) (s : String) (ms : Option Messages) :
    (updateLoadingStep p n s ms).successDisplay = p.successDisplay ∧
      (updateLoadingStep p n s ms).successTitle = p.successTitle ∧
      (updateLoadingStep p n s ms).successMessage = p.successMessage := by
  unfold updateLoadingStep
  simp only []
  split
  · split <;> exact ⟨rfl, rfl, rfl⟩
  · exact ⟨rfl, rfl, rfl⟩

theorem showSuccess_panel (p : Page) (t m d t0 m0 : String) (hd : p.successDisplay = some d)
    (ht : p.successTitle = some t0) (hm : p.successMessage = some m0) :
    (showSuccess p t m).successDisplay = some "block" ∧ (showSuccess p t m).successTitle = some t ∧
      (showSuccess p t m).successMessage = some m := by
  simp [showSuccess, hd, ht, hm]

theorem showError_panel (p : Page) (t m d t0 m0 : String) (hd : p.errorDisplay = some d)
    (ht : p.errorTitle = some t0) (hm : p.errorMessage = some m0) :
    (showError p t m).errorDisplay = some "block" ∧ (showError p t m).errorTitle = some t ∧
      (showError p t m).errorMessage = some m := by
  simp [showError, hd, ht, hm]

theorem classify_groupB_notAdmin (a b : String) :
    classifyError (errorText (mkError "Bot precisa ser administrador no grupo de notificações"))
        a b =
      ("Problema no Grupo de Notificações",
        "Verifique se o bot está no grupo de notificações e é administrador (" ++ b ++ ").") := by
  have e0 : errorText (mkError "Bot precisa ser administrador no grupo de notificações") =
      "Bot precisa ser administrador no grupo de notificações" := by decide
  have c1 : includes "Bot precisa ser administrador no grupo de notificações"
      "Token inválido" = false := by decide
  have c2 : includes (toLowerCase "Bot precisa ser administrador no grupo de notificações")
      "vip" = false := by decide
  have c3 : includes (toLowerCase "Bot precisa ser administrador no grupo de notificações")
      "notific" = true := by decide
  simp [classifyError, e0, c1, c2, c3]

/-- C5. In a run of the credential-bearing handler that passes the guard, with
valid plans, a well-formed credential and well-formed group identifiers, in
which the identity and group A checks pass and the group B check returns a role
that is neither `administrator` nor `creator`: no form submission is issued, the
busy state is cleared, and the one notification shown is the error titled
`Problema no Grupo de Notificações` (which the error panel, when the page has
one, then displays). -/
theorem groupB_notAdmin_aborts (opts : SubmitOpts) (net : Net) (p : Page)
    (r1 r2 r3 : Response) (e1 e2 e3 : Envelope) (m1 m2 m3 : ApiResult) (t v l : String)
    (hg : submitDisabled p = false) (hp : (validatePlanSection p.plans).ok = true)
    (ht : p.token = some t) (ht1 : validateTelegramToken (trim t) = true)
    (hv : p.idVip = some v) (hv1 : validateGroupId (trim v) = true)
    (hl : p.idLogs = some l) (hl1 : validateGroupId (trim l) = true)
    (n1 : ∀ req, net 0 req = Except.ok r1) (n2 : ∀ req, net 1 req = Except.ok r2)
    (n3 : ∀ req, net 2 req = Except.ok r3)
    (h1 : r1.ok = true) (j1 : r1.json = Except.ok e1) (o1 : e1.ok = true)
    (i1 : e1.result = some m1)
    (j2 : r2.json = Except.ok e2) (o2 : e2.ok = true) (i2 : e2.result = some m2)
    (a2 : isAdminRole m2.status = true)
    (j3 : r3.json = Except.ok e3) (o3 : e3.ok = true) (i3 : e3.result = some m3)
    (a3 : isAdminRole m3.status = false) :
    CallSite.formPost ∉ fetchSites (registerBotSubmitWithTelegramChecks opts net p).trace ∧
    fetchSites (registerBotSubmitWithTelegramChecks opts net p).trace =
      [CallSite.getMe, CallSite.vipMember, CallSite.logsMember] ∧
    Idle (registerBotSubmitWithTelegramChecks opts net p).page ∧
    notifications (registerBotSubmitWithTelegramChecks opts net p).trace =
      [Event.showError "Problema no Grupo de Notificações"
        ("Verifique se o bot está no grupo de notificações e é administrador (" ++
          trim l ++ ").")] ∧
    (∀ d t0 m0, p.errorDisplay = some d → p.errorTitle = some t0 → p.errorMessage = some m0 →
      (registerBotSubmitWithTelegramChecks opts net p).page.errorDisplay = some "block" ∧
      (registerBotSubmitWithTelegramChecks opts net p).page.errorTitle =
        some "Problema no Grupo de Notificações") := by
  have hrun : registerBotSubmitWithTelegramChecks opts net p =
      { page := showError (hideLoading (updateLoadingStep
            (showLoading p (some (optOr opts.submitLoadingText "Validando..."))) 1 "active"
            (some (opts.stepMessages.getD botStepMessages))))
          "Problema no Grupo de Notificações"
          ("Verifique se o bot está no grupo de notificações e é administrador (" ++
            trim l ++ ").")
        trace := [Event.validatePlanSection, Event.validateTelegramToken (some (trim t)),
          Event.validateGroupId (some (trim v)), Event.validateGroupId (some (trim l)),
          Event.showLoading (optOr opts.submitLoadingText "Validando..."),
          Event.updateLoadingStep 1 "active",
          Event.fetch CallSite.getMe
            (Request.get ("https://api.telegram.org/bot" ++ trim t ++ "/getMe")),
          Event.fetch CallSite.vipMember
            (Request.get ("https://api.telegram.org/bot" ++ trim t ++
              "/getChatMember?chat_id=" ++ trim v ++ "&user_id=" ++ m1.id)),
          Event.fetch CallSite.logsMember
            (Request.get ("https://api.telegram.org/bot" ++ trim t ++
              "/getChatMember?chat_id=" ++ trim l ++ "&user_id=" ++ m1.id)),
          Event.hideLoading,
          Event.showError "Problema no Grupo de Notificações"
            ("Verifique se o bot está no grupo de notificações e é administrador (" ++
              trim l ++ ").")] } := by
    have hev := validateBotInGroups_eval net (trim t) (trim v) (trim l) r1 r2 r3 e1 e2 e3 m1 m2 m3
      n1 n2 n3 h1 j1 o1 i1 j2 o2 i2 a2 j3 o3 i3
    simp only [a3, Bool.false_eq_true, if_false] at hev
    simp [registerBotSubmitWithTelegramChecks, hg, hp, ht, ht1, hv, hv1, hl, hl1,
      validateGroupIdOpt, botTry, hev, classify_groupB_notAdmin]
  rw [hrun]
  refine ⟨by simp [fetchSites], by simp [fetchSites], ?_, by simp [notifications], ?_⟩
  · exact (exited_of_eq (hideLoading_idle _) (showError_frame _ _ _).1 (showError_frame _ _ _).2).1
  · intro d t0 m0 hd ht0 hm0
    have hu := updateLoadingStep_panel
      (showLoading p (some (optOr opts.submitLoadingText "Validando..."))) 1 "active"
      (some (opts.stepMessages.getD botStepMessages))
    have := showError_panel (hideLoading (updateLoadingStep
        (showLoading p (some (optOr opts.submitLoadingText "Validando..."))) 1 "active"
        (some (opts.stepMessages.getD botStepMessages))))
      "Problema no Grupo de Notificações"
      ("Verifique se o bot está no grupo de notificações e é administrador (" ++ trim l ++ ").")
      d t0 m0 (by simp only [hideLoading]; rw [hu.1]; exact hd)
      (by simp only [hideLoading]; rw [hu.2.1]; exact ht0)
      (by simp only [hideLoading]; rw [hu.2.2]; exact hm0)
    exact ⟨this.1, this.2.1⟩

/-- C5 witness: the complete page, with group B answering `member`. -/
theorem groupB_notAdmin_aborts_witness :
    CallSite.formPost ∉ fetchSites (registerBotSubmitWithTelegramChecks defaultOpts
        (netWith "administrator" "member" 200 "") botPage).trace ∧
      Idle (registerBotSubmitWithTelegramChecks defaultOpts
        (netWith "administrator" "member" 200 "") botPage).page ∧
      (registerBotSubmitWithTelegramChecks defaultOpts
        (netWith "administrator" "member" 200 "") botPage).page.errorTitle =
          some "Problema no Grupo de Notificações" :=
  have h := groupB_notAdmin_aborts defaultOpts (netWith "administrator" "member" 200 "") botPage
    (apiResponse { ok := true, description := none, result := some ⟨"42", none⟩ })
    (memberResponse "administrator") (memberResponse "member")
    { ok := true, description := none, result := some ⟨"42", none⟩ }
    { ok := true, description := none, result := some ⟨"", some "administrator"⟩ }
    { ok := true, description := none, result := some ⟨"", some "member"⟩ }
    ⟨"42", none⟩ ⟨"", some "administrator"⟩ ⟨"", some "member"⟩
    "123456789:ABC-defGHI_123" "-1001234567890" "-1009876543210"
    rfl (by decide) rfl (by decide) rfl (by decide) rfl (by decide)
    (fun _ => rfl) (fun _ => rfl) (fun _ => rfl)
    (by decide) rfl rfl rfl rfl rfl rfl (by decide) rfl rfl rfl (by decide)
  ⟨h.1, h.2.2.1, (h.2.2.2.2 "none" "" "" rfl rfl rfl).2⟩

theorem postTarget_updateLoadingStep (p : Page) (n : Int) (s : String) (ms : Option Messages) :
    postTarget (updateLoadingStep p n s ms) = postTarget p := by
  have h := updateLoadingStep_frame p n s ms
  simp [postTarget, h.2.2.1, h.2.2.2]

theorem location_updateLoadingStep (p : Page) (n : Int) (s : String) (ms : Option Messages) :
    (updateLoadingStep p n s ms).location = p.location :=
  (updateLoadingStep_frame p n s ms).2.2.1

/-- C6. In a run of the credential-bearing handler that passes the guard, with
valid plans, a well-formed credential, well-formed group identifiers, the
identity resolved, both groups answering an administrator role and a 2xx answer
to the submission, the run does exactly this, in this order: the local checks,
loading shown, step 1 active, the three verification calls, step 1 completed,
step 4 active, one form submission, step 4 completed, loading hidden, one
success notification and one redirect scheduled after 1200 ms to the address
given by the caller, else the address of the response, else the current
location; it ends idle, and the success panel, when the page has one, displays
the notification. -/
theorem bot_success_run (opts : SubmitOpts) (net : Net) (p : Page)
    (r1 r2 r3 r4 : Response) (e1 e2 e3 : Envelope) (m1 m2 m3 : ApiResult) (t v l : String)
    (hg : submitDisabled p = false) (hp : (validatePlanSection p.plans).ok = true)
    (ht : p.token = some t) (ht1 : validateTelegramToken (trim t) = true)
    (hv : p.idVip = some v) (hv1 : validateGroupId (trim v) = true)
    (hl : p.idLogs = some l) (hl1 : validateGroupId (trim l) = true)
    (n1 : ∀ req, net 0 req = Except.ok r1) (n2 : ∀ req, net 1 req = Except.ok r2)
    (n3 : ∀ req, net 2 req = Except.ok r3) (n4 : ∀ req, net 3 req = Except.ok r4)
    (h1 : r1.ok = true) (j1 : r1.json = Except.ok e1) (o1 : e1.ok = true)
    (i1 : e1.result = some m1)
    (j2 : r2.json = Except.ok e2) (o2 : e2.ok = true) (i2 : e2.result = some m2)
    (a2 : isAdminRole m2.status = true)
    (j3 : r3.json = Except.ok e3) (o3 : e3.ok = true) (i3 : e3.result = some m3)
    (a3 : isAdminRole m3.status = true)
    (h4 : r4.ok = true) :
    (registerBotSubmitWithTelegramChecks opts net p).trace =
      [Event.validatePlanSection, Event.validateTelegramToken (some (trim t)),
        Event.validateGroupId (some (trim v)), Event.validateGroupId (some (trim l)),
        Event.showLoading (optOr opts.submitLoadingText "Validando..."),
        Event.updateLoadingStep 1 "active",
        Event.fetch CallSite.getMe
          (Request.get ("https://api.telegram.org/bot" ++ trim t ++ "/getMe")),
        Event.fetch CallSite.vipMember
          (Request.get ("https://api.telegram.org/bot" ++ trim t ++
            "/getChatMember?chat_id=" ++ trim v ++ "&user_id=" ++ m1.id)),
        Event.fetch CallSite.logsMember
          (Request.get ("https://api.telegram.org/bot" ++ trim t ++
            "/getChatMember?chat_id=" ++ trim l ++ "&user_id=" ++ m1.id)),
        Event.updateLoadingStep 1 "completed",
        Event.updateLoadingStep 4 "active",
        Event.fetch CallSite.formPost (Request.post (postTarget p)),
        Event.updateLoadingStep 4 "completed",
        Event.hideLoading,
        Event.showSuccess (optOr opts.successTitle "Salvo com sucesso! ✅")
          (optOr opts.successMessage "Alterações salvas."),
        Event.setTimeout 1200 (redirectTarget opts.redirectUrl r4.url p.location)] ∧
    fetchSites (registerBotSubmitWithTelegramChecks opts net p).trace =
      [CallSite.getMe, CallSite.vipMember, CallSite.logsMember, CallSite.formPost] ∧
    notifications (registerBotSubmitWithTelegramChecks opts net p).trace =
      [Event.showSuccess (optOr opts.successTitle "Salvo com sucesso! ✅")
        (optOr opts.successMessage "Alterações salvas.")] ∧
    redirects (registerBotSubmitWithTelegramChecks opts net p).trace =
      [redirectTarget opts.redirectUrl r4.url p.location] ∧
    Idle (registerBotSubmitWithTelegramChecks opts net p).page ∧
    (∀ d t0 m0, p.successDisplay = some d → p.successTitle = some t0 →
      p.successMessage = some m0 →
      (registerBotSubmitWithTelegramChecks opts net p).page.successDisplay = some "block" ∧
      (registerBotSubmitWithTelegramChecks opts net p).page.successTitle =
        some (optOr opts.successTitle "Salvo com sucesso! ✅") ∧
      (registerBotSubmitWithTelegramChecks opts net p).page.successMessage =
        some (optOr opts.successMessage "Alterações salvas.")) := by
  have hev := validateBotInGroups_eval net (trim t) (trim v) (trim l) r1 r2 r3 e1 e2 e3 m1 m2 m3
    n1 n2 n3 h1 j1 o1 i1 j2 o2 i2 a2 j3 o3 i3
  simp only [a3, if_true] at hev
  have hrun : registerBotSubmitWithTelegramChecks opts net p =
      onSubmitted opts (some (opts.stepMessages.getD botStepMessages)) r4
        { page := updateLoadingStep (updateLoadingStep (updateLoadingStep
            (showLoading p (some (optOr opts.submitLoadingText "Validando..."))) 1 "active"
            (some (opts.stepMessages.getD botStepMessages))) 1 "completed" none) 4 "active"
            (some (opts.stepMessages.getD botStepMessages))
          trace := [Event.validatePlanSection, Event.validateTelegramToken (some (trim t)),
            Event.validateGroupId (some (trim v)), Event.validateGroupId (some (trim l)),
            Event.showLoading (optOr opts.submitLoadingText "Validando..."),
            Event.updateLoadingStep 1 "active",
            Event.fetch CallSite.getMe
              (Request.get ("https://api.telegram.org/bot" ++ trim t ++ "/getMe")),
            Event.fetch CallSite.vipMember
              (Request.get ("https://api.telegram.org/bot" ++ trim t ++
                "/getChatMember?chat_id=" ++ trim v ++ "&user_id=" ++ m1.id)),
            Event.fetch CallSite.logsMember
              (Request.get ("https://api.telegram.org/bot" ++ trim t ++
                "/getChatMember?chat_id=" ++ trim l ++ "&user_id=" ++ m1.id)),
            Event.updateLoadingStep 1 "completed",
            Event.updateLoadingStep 4 "active",
            Event.fetch CallSite.formPost (Request.post (postTarget p))] } := by
    simp [registerBotSubmitWithTelegramChecks, hg, hp, ht, ht1, hv, hv1, hl, hl1,
      validateGroupIdOpt, botTry, hev, postForm, n4, h4, postTarget_updateLoadingStep]
    rfl
  refine ⟨?_, ?_, ?_, ?_, ?_, ?_⟩
  · rw [hrun]
    simp only [onSubmitted, location_updateLoadingStep, optOr_redirect, List.cons_append,
      List.nil_append]
    rfl
  · rw [hrun]
    simp [onSubmitted, fetchSites]
  · rw [hrun]
    simp [onSubmitted, notifications]
  · rw [hrun]
    simp only [onSubmitted, location_updateLoadingStep, optOr_redirect, List.cons_append,
      List.nil_append, redirects]
    rfl
  · rw [hrun]
    exact (onSubmitted_exits _ _ _ _).1
  · intro d t0 m0 hd ht0 hm0
    rw [hrun]
    simp only [onSubmitted]
    refine showSuccess_panel _ _ _ d t0 m0 ?_ ?_ ?_
    · simp only [hideLoading, (updateLoadingStep_successPanel _ _ _ _).1]
      exact hd
    · simp only [hideLoading, (updateLoadingStep_successPanel _ _ _ _).2.1]
      exact ht0
    · simp only [hideLoading, (updateLoadingStep_successPanel _ _ _ _).2.2]
      exact hm0

/-- C6 witness: the complete page, both groups answering `administrator`, the
submission answered with status 200. -/
theorem bot_success_run_witness :
    fetchSites (registerBotSubmitWithTelegramChecks defaultOpts
        (netWith "administrator" "creator" 200 "") botPage).trace =
      [CallSite.getMe, CallSite.vipMember, CallSite.logsMember, CallSite.formPost] ∧
    redirects (registerBotSubmitWithTelegramChecks defaultOpts
        (netWith "administrator" "creator" 200 "") botPage).trace =
      [redirectTarget none "https://painel.example/bots" "https://painel.example/bots/new"] :=
  have h := bot_success_run defaultOpts (netWith "administrator" "creator" 200 "") botPage
    (apiResponse { ok := true, description := none, result := some ⟨"42", none⟩ })
    (memberResponse "administrator") (memberResponse "creator") (postResponse 200 "")
    { ok := true, description := none, result := some ⟨"42", none⟩ }
    { ok := true, description := none, result := some ⟨"", some "administrator"⟩ }
    { ok := true, description := none, result := some ⟨"", some "creator"⟩ }
    ⟨"42", none⟩ ⟨"", some "administrator"⟩ ⟨"", some "creator"⟩
    "123456789:ABC-defGHI_123" "-1001234567890" "-1009876543210"
    rfl (by decide) rfl (by decide) rfl (by decide) rfl (by decide)
    (fun _ => rfl) (fun _ => rfl) (fun _ => rfl) (fun _ => rfl)
    (by decide) rfl rfl rfl rfl rfl rfl (by decide) rfl rfl rfl (by decide) (by decide)
  ⟨h.2.1, h.2.2.2.1⟩

theorem validateBotInGroups_only_fetches (net : Net) (token a b : String) (e : Event)
    (h : e ∈ (validateBotInGroups net token a b).1) : ∃ s q, e = Event.fetch s q := by
  revert h
  unfold validateBotInGroups
  simp only [List.cons_append, List.nil_append]
  repeat' split
  all_goals
    intro h
    simp only [List.mem_cons, List.mem_singleton, List.not_mem_nil, or_false] at h
    rcases h with rfl | rfl | rfl <;> exact ⟨_, _, rfl⟩

theorem postForm_completed (opts : SubmitOpts) (ms : Option Messages) (net : Net) (k : Nat)
    (r : Run) (h : Event.updateLoadingStep 4 "completed" ∈ (postForm opts ms net k r).1.trace) :
    Event.updateLoadingStep 4 "completed" ∈ r.trace ∨
      ∃ resp, net k (Request.post (postTarget r.page)) = Except.ok resp ∧ resp.ok = true := by
  revert h
  unfold postForm
  simp only []
  split
  · intro h; left; simpa using h
  · rename_i resp hresp
    split
    · rename_i hok
      intro _
      exact Or.inr ⟨resp, hresp, hok⟩
    · split <;> (intro h; left; simpa using h)

theorem botTry_completed (opts : SubmitOpts) (net : Net) (token a b : String) (r : Run)
    (h : Event.updateLoadingStep 4 "completed" ∈ (botTry opts net token a b r).1.trace) :
    Event.updateLoadingStep 4 "completed" ∈ r.trace ∨
      ∃ resp, net 3 (Request.post (postTarget r.page)) = Except.ok resp ∧ resp.ok = true := by
  have hv : Event.updateLoadingStep 4 "completed" ∉ (validateBotInGroups net token a b).1 := by
    intro hm
    obtain ⟨s, q, hq⟩ := validateBotInGroups_only_fetches net token a b _ hm
    cases hq
  revert h
  unfold botTry
  simp only []
  split
  · intro h
    simp only [List.mem_append, List.mem_singleton] at h
    rcases h with (h | h) | h
    · exact Or.inl h
    · simp at h
    · exact absurd h hv
  · intro h
    rcases postForm_completed _ _ _ _ _ h with h | ⟨resp, h1, h2⟩
    · simp only [List.mem_append, List.mem_cons, List.mem_singleton, List.not_mem_nil,
        or_false] at h
      rcases h with ((h | h) | h) | h
      · exact Or.inl h
      · simp at h
      · exact absurd h hv
      · simp at h
    · right
      refine ⟨resp, ?_, h2⟩
      simpa [postTarget_updateLoadingStep] using h1

/-- Step 4 is marked completed by the credential-bearing handler only in a run
whose form submission, the fourth request, was answered with a 2xx response. -/
theorem bot_step4_completed_only_after_2xx (opts : SubmitOpts) (net : Net) (p : Page)
    (h : Event.updateLoadingStep 4 "completed" ∈
      (registerBotSubmitWithTelegramChecks opts net p).trace) :
    ∃ resp, net 3 (Request.post (postTarget p)) = Except.ok resp ∧ resp.ok = true := by
  revert h
  unfold registerBotSubmitWithTelegramChecks
  simp only []
  split
  · simp
  split
  · simp
  split
  · simp
  split
  · simp
  split
  · simp
  have hx := botTry_completed opts net ((p.token.map trim).getD "undefined")
    ((p.idVip.map trim).getD "undefined") ((p.idLogs.map trim).getD "undefined")
    { page := showLoading p (some (optOr opts.submitLoadingText "Validando..."))
      trace := [Event.validatePlanSection, Event.validateTelegramToken (p.token.map trim),
        Event.validateGroupId (p.idVip.map trim), Event.validateGroupId (p.idLogs.map trim),
        Event.showLoading (optOr opts.submitLoadingText "Validando...")] }
  revert hx
  generalize botTry opts net _ _ _ _ = x
  intro hx h
  have hin : Event.updateLoadingStep 4 "completed" ∈ x.1.trace := by
    rcases x with ⟨r, _ | err⟩
    · exact h
    · simp only [List.mem_append, List.mem_cons, List.mem_singleton, List.not_mem_nil,
        or_false] at h
      rcases h with h | h | h
      · exact h
      · simp at h
      · simp at h
  rcases hx hin with h0 | h0
  · simp at h0
  · simpa [postTarget, showLoading] using h0

/-! ## Formatting of group identifiers -/

theorem removeAll_notDigitOrHyphen (v : String) :
    (removeAll isNotDigitOrHyphen v).data =
      v.data.filter (fun c => decide ('0' ≤ c ∧ c ≤ '9') || c == '-') := by
  simp only [removeAll, isNotDigitOrHyphen, isDigit, Bool.not_not]

/-- C11. `formatGroupId` replaces the value `v` of the input by `f v`, where
`f` removes every character that is not a decimal digit or a hyphen and then
puts one hyphen in front exactly when the result is not empty and does not
already start with a hyphen; so `1001234567890` becomes `-1001234567890`,
`-100abc123` becomes `-100123`, `--5` stays `--5` and the empty text stays
empty. -/
theorem formatGroupId_spec :
    (∀ input : InputEl, (formatGroupId input).value = normalizedGroupId input.value) ∧
    (formatGroupId ⟨"1001234567890"⟩).value = "-1001234567890" ∧
    (formatGroupId ⟨"-100abc123"⟩).value = "-100123" ∧
    (formatGroupId ⟨"--5"⟩).value = "--5" ∧
    (formatGroupId ⟨""⟩).value = "" := by
  refine ⟨?_, by decide, by decide, by decide, by decide⟩
  intro input
  have hk := removeAll_notDigitOrHyphen input.value
  simp only [formatGroupId, normalizedGroupId]
  generalize removeAll isNotDigitOrHyphen input.value = s at hk ⊢
  rw [← hk]
  cases s with
  | mk d =>
    cases d with
    | nil => simp [truthy]
    | cons c d =>
      by_cases hc : c = '-'
      · subst hc
        simp [truthy, startsWith, startsWithChars]
      · have hne : ('-' == c) = false := by
          rw [beq_eq_false_iff_ne]
          exact fun h => hc h.symm
        simp only [truthy, startsWith, startsWithChars, hne, List.isEmpty_cons, Bool.not_false,
          Bool.and_self, Bool.and_true, if_true, Bool.false_and]
        simp [hc]
        rfl

/-! ## Media upload -/

theorem handleMediaUpload_cases (env : UploadEnv) (config : UploadConfig) (previewId : String)
    (s : UploadSurface) (f : SelectedFile) (hf : s.input.file = some f) :
    ((handleMediaUpload env config previewId s).result = some true ∧
      (mediaTypeOk config f.type && decide (f.size ≤ mediaLimit config f.type)) = true) ∨
    ((∃ message, handleMediaUpload env config previewId s = rejectUpload s message) ∧
      (mediaTypeOk config f.type && decide (f.size ≤ mediaLimit config f.type)) = false) := by
  unfold handleMediaUpload mediaTypeOk mediaLimit
  simp only [hf]
  generalize config.allowedTypes.contains (toLowerCase f.type) = A
  generalize (startsWith f.type "image/" &&
    !(["image/jpeg", "image/jpg", "image/png"].contains (toLowerCase f.type))) = B
  generalize (if startsWith f.type "video/" = true then config.maxVideoSize
    else config.maxImageSize) = L
  cases A
  · right
    exact ⟨⟨_, rfl⟩, rfl⟩
  · cases B
    · by_cases h3 : L < f.size
      · right
        simp only [Bool.not_true, Bool.false_eq_true, if_false, h3, if_true]
        exact ⟨⟨_, rfl⟩, by simp; omega⟩
      · left
        simp only [Bool.not_true, Bool.false_eq_true, if_false, h3]
        exact ⟨trivial, by simp; omega⟩
    · right
      exact ⟨⟨_, rfl⟩, rfl⟩

theorem imageTypes_checked : ∀ t ∈ imageTypes,
    mediaTypeOk defaultUploadConfig t = true ∧
      mediaLimit defaultUploadConfig t = 10 * 1024 * 1024 ∧ t ∉ videoTypes := by
  decide

theorem videoTypes_checked : ∀ t ∈ videoTypes,
    mediaTypeOk defaultUploadConfig t = true ∧
      mediaLimit defaultUploadConfig t = 50 * 1024 * 1024 ∧ t ∉ imageTypes := by
  decide

theorem mediaTypeOk_unlisted (type : String)
    (h : toLowerCase type ∉ imageTypes ++ videoTypes) :
    mediaTypeOk defaultUploadConfig type = false := by
  have hc : defaultUploadConfig.allowedTypes.contains (toLowerCase type) = false := by
    have hm : toLowerCase type ∉ defaultUploadConfig.allowedTypes := h
    simpa using hm
  simp only [mediaTypeOk, hc]
  rfl

theorem lowerChars_reported (c : Char) (h1 : 0x20 ≤ c.toNat) (h2 : c.toNat ≤ 0x7E)
    (h3 : ¬ (0x41 ≤ c.toNat ∧ c.toNat ≤ 0x5A)) : lowerChars c = [c] := by
  have e1 : ((decide (0x41 ≤ c.toNat) && decide (c.toNat ≤ 0x5A)) ||
      (decide (0xC0 ≤ c.toNat) && decide (c.toNat ≤ 0xDE) && c.toNat != 0xD7)) = false := by
    simp only [Bool.or_eq_false_iff, Bool.and_eq_false_iff, decide_eq_false_iff_not]
    omega
  have e2 : (c.toNat == 0x130) = false := by rw [beq_eq_false_iff_ne]; omega
  have e3 : (c.toNat == 0x178) = false := by rw [beq_eq_false_iff_ne]; omega
  have e4 : (c.toNat == 0x1E9E) = false := by rw [beq_eq_false_iff_ne]; omega
  have e5 : (c.toNat == 0x212A) = false := by rw [beq_eq_false_iff_ne]; omega
  have e6 : (c.toNat == 0x212B) = false := by rw [beq_eq_false_iff_ne]; omega
  simp only [lowerChars, e1, e2, e3, e4, e5, e6, Bool.false_eq_true, if_false]

theorem lowerAll_reported (s : List Char)
    (h : s.all (fun c => decide (0x20 ≤ c.toNat) && decide (c.toNat ≤ 0x7E) &&
      !(decide (0x41 ≤ c.toNat) && decide (c.toNat ≤ 0x5A))) = true) : lowerAll s = s := by
  induction s with
  | nil => rfl
  | cons c s ih =>
    simp only [List.all_cons, Bool.and_eq_true, decide_eq_true_eq, Bool.not_eq_true',
      Bool.and_eq_false_iff, decide_eq_false_iff_not] at h
    obtain ⟨⟨⟨h1, h2⟩, h3⟩, hs⟩ := h
    have hc := lowerChars_reported c h1 h2 (by omega)
    simp only [lowerAll, hc, List.singleton_append, List.cons.injEq, true_and]
    exact ih (by simpa using hs)

theorem toLowerCase_reported (type : String) (h : isReportedType type = true) :
    toLowerCase type = type := by
  have := lowerAll_reported type.data h
  simp only [toLowerCase, this]

/-- C12. With the default options, a selected file (its MIME type being as a
file object reports it: printable Basic Latin characters, no upper-case letter)
is accepted by `handleMediaUpload`, which then returns `true`, exactly when the
type is one of the three image types and the size is at most 10 MiB, or the
type is one of the six video types and the size is at most 50 MiB; every
other file is rejected: `false` is returned, the input is cleared, and the
preview surface and the label are left as they were; and a 60 MiB `video/mp4`
file is rejected. -/
theorem handleMediaUpload_default :
    (∀ (env : UploadEnv) (previewId : String) (s : UploadSurface) (f : SelectedFile),
      s.input.file = some f → isReportedType f.type = true →
      ((handleMediaUpload env defaultUploadConfig previewId s).result = some true ↔
        (f.type ∈ imageTypes ∧ f.size ≤ 10 * 1024 * 1024) ∨
          (f.type ∈ videoTypes ∧ f.size ≤ 50 * 1024 * 1024))) ∧
    (∀ (env : UploadEnv) (previewId : String) (s : UploadSurface) (f : SelectedFile),
      s.input.file = some f → isReportedType f.type = true →
      ¬ ((f.type ∈ imageTypes ∧ f.size ≤ 10 * 1024 * 1024) ∨
          (f.type ∈ videoTypes ∧ f.size ≤ 50 * 1024 * 1024)) →
      (handleMediaUpload env defaultUploadConfig previewId s).result = some false ∧
        (handleMediaUpload env defaultUploadConfig previewId s).surface.input.value = "" ∧
        (handleMediaUpload env defaultUploadConfig previewId s).surface.input.file = none ∧
        (handleMediaUpload env defaultUploadConfig previewId s).surface.preview = s.preview ∧
        (handleMediaUpload env defaultUploadConfig previewId s).surface.label = s.label) ∧
    (handleMediaUpload sampleUploadEnv defaultUploadConfig "mediaPreview"
      (uploadSurface ⟨"clipe.mp4", "video/mp4", 60 * 1024 * 1024⟩)).result = some false := by
  have hiff : ∀ (env : UploadEnv) (previewId : String) (s : UploadSurface) (f : SelectedFile),
      s.input.file = some f → isReportedType f.type = true →
      ((handleMediaUpload env defaultUploadConfig previewId s).result = some true ↔
        (f.type ∈ imageTypes ∧ f.size ≤ 10 * 1024 * 1024) ∨
          (f.type ∈ videoTypes ∧ f.size ≤ 50 * 1024 * 1024)) := by
    intro env previewId s f hf hrep
    have hlow := toLowerCase_reported f.type hrep
    have hres : (handleMediaUpload env defaultUploadConfig previewId s).result = some true ↔
        (mediaTypeOk defaultUploadConfig f.type &&
          decide (f.size ≤ mediaLimit defaultUploadConfig f.type)) = true := by
      rcases handleMediaUpload_cases env defaultUploadConfig previewId s f hf with
        ⟨h1, h2⟩ | ⟨⟨m, h1⟩, h2⟩
      · simp [h1, h2]
      · rw [h1, h2]
        simp [rejectUpload]
    rw [hres]
    by_cases hi : f.type ∈ imageTypes
    · obtain ⟨a, b, c⟩ := imageTypes_checked f.type hi
      simp [a, b, c, hi]
    · by_cases hv : f.type ∈ videoTypes
      · obtain ⟨a, b, c⟩ := videoTypes_checked f.type hv
        simp [a, b, hv, hi]
      · have hu := mediaTypeOk_unlisted f.type (by rw [hlow]; simp [hi, hv])
        simp [hu, hi, hv]
  refine ⟨hiff, ?_, by decide⟩
  intro env previewId s f hf hrep hno
  have hne : (handleMediaUpload env defaultUploadConfig previewId s).result ≠ some true :=
    fun h => hno ((hiff env previewId s f hf hrep).mp h)
  rcases handleMediaUpload_cases env defaultUploadConfig previewId s f hf with
    ⟨h1, _⟩ | ⟨⟨m, h1⟩, _⟩
  · exact absurd h1 hne
  · rw [h1]
    exact ⟨rfl, rfl, rfl, rfl, rfl⟩

/-- C12 witness: a 5 MiB `image/png` file is accepted, and the rejection of an
`application/pdf` file and of a 20 MiB `image/jpeg` file clears the input and
leaves the preview as it was. -/
theorem handleMediaUpload_default_witness :
    ((handleMediaUpload sampleUploadEnv defaultUploadConfig "mediaPreview"
        (uploadSurface ⟨"foto.png", "image/png", 5 * 1024 * 1024⟩)).result = some true ↔
      ("image/png" ∈ imageTypes ∧ 5 * 1024 * 1024 ≤ 10 * 1024 * 1024) ∨
        ("image/png" ∈ videoTypes ∧ 5 * 1024 * 1024 ≤ 50 * 1024 * 1024)) ∧
    (handleMediaUpload sampleUploadEnv defaultUploadConfig "mediaPreview"
      (uploadSurface ⟨"doc.pdf", "application/pdf", 10⟩)).result = some false ∧
    (handleMediaUpload sampleUploadEnv defaultUploadConfig "mediaPreview"
      (uploadSurface ⟨"foto.jpg", "image/jpeg", 20 * 1024 * 1024⟩)).surface.input.value = "" ∧
    (handleMediaUpload sampleUploadEnv defaultUploadConfig "mediaPreview"
      (uploadSurface ⟨"foto.jpg", "image/jpeg", 20 * 1024 * 1024⟩)).surface.preview =
        (uploadSurface ⟨"foto.jpg", "image/jpeg", 20 * 1024 * 1024⟩).preview :=
  have h2 := handleMediaUpload_default.2.1 sampleUploadEnv "mediaPreview"
    (uploadSurface ⟨"doc.pdf", "application/pdf", 10⟩) ⟨"doc.pdf", "application/pdf", 10⟩
    rfl (by decide) (by decide)
  have h3 := handleMediaUpload_default.2.1 sampleUploadEnv "mediaPreview"
    (uploadSurface ⟨"foto.jpg", "image/jpeg", 20 * 1024 * 1024⟩)
    ⟨"foto.jpg", "image/jpeg", 20 * 1024 * 1024⟩ rfl (by decide) (by decide)
  ⟨handleMediaUpload_default.1 sampleUploadEnv "mediaPreview"
      (uploadSurface ⟨"foto.png", "image/png", 5 * 1024 * 1024⟩)
      ⟨"foto.png", "image/png", 5 * 1024 * 1024⟩ rfl (by decide),
    h2.1, h3.2.1, h3.2.2.2.1⟩

/-! ## The submit label across `showLoading` and `hideLoading` -/

theorem truthy_of_ne (s : String) (h : s ≠ "") : truthy s = true := by
  cases s with
  | mk d =>
    cases d with
    | nil => exact absurd rfl h
    | cons c d => rfl

theorem showLoading_marker_first (p : Page) (t : SubmitText) (x : Option String)
    (hp : p.submitText = some t) (ht : t.textContent ≠ "")
    (hm : ∀ m, t.originalText = some m → m = "" ∨ m = t.textContent) :
    ∃ c, (showLoading p x).submitText = some ⟨c, some t.textContent⟩ := by
  refine ⟨orElse (optOr x p.submitLoadingText) p.submitLoadingText, ?_⟩
  simp only [showLoading, hp, Option.map_some', Option.some.injEq, SubmitText.mk.injEq, true_and]
  cases ho : t.originalText with
  | none => simp [truthy]
  | some m =>
    rcases hm m ho with h | h
    · subst h
      simp [truthy]
    · subst h
      simp [truthy_of_ne _ ht]

theorem showLoading_marker_kept (p : Page) (c T : String) (x : Option String)
    (hp : p.submitText = some ⟨c, some T⟩) (hT : T ≠ "") :
    ∃ c1, (showLoading p x).submitText = some ⟨c1, some T⟩ := by
  refine ⟨orElse (optOr x p.submitLoadingText) p.submitLoadingText, ?_⟩
  simp only [showLoading, hp, Option.map_some', Option.some.injEq, SubmitText.mk.injEq, true_and]
  simp [truthy_of_ne _ hT]

theorem foldl_showLoading_marker (texts : List (Option String)) (p : Page) (c T : String)
    (hp : p.submitText = some ⟨c, some T⟩) (hT : T ≠ "") :
    ∃ c1, (texts.foldl showLoading p).submitText = some ⟨c1, some T⟩ := by
  induction texts generalizing p c with
  | nil => exact ⟨c, hp⟩
  | cons x xs ih =>
    obtain ⟨c1, h1⟩ := showLoading_marker_kept p c T x hp hT
    exact ih (showLoading p x) c1 h1

/-- C13 (as amended). For every non-empty original label text whose marker is
not yet set (or holds that same text), and for every number `n ≥ 1` of
consecutive `showLoading` calls, whatever their overrides, followed by
`hideLoading`, the text of the submit label after `hideLoading` is the text it
had before the first `showLoading`, and the busy flag is down. -/
theorem hideLoading_restores_label (p : Page) (t : SubmitText) (texts : List (Option String))
    (hp : p.submitText = some t) (ht : t.textContent ≠ "")
    (hm : ∀ m, t.originalText = some m → m = "" ∨ m = t.textContent)
    (hn : texts ≠ []) :
    (hideLoading (texts.foldl showLoading p)).submitText.map (fun l => l.textContent) =
        some t.textContent ∧
      (hideLoading (texts.foldl showLoading p)).isSubmitting = false := by
  refine ⟨?_, rfl⟩
  cases texts with
  | nil => exact absurd rfl hn
  | cons x xs =>
    obtain ⟨c, h1⟩ := showLoading_marker_first p t x hp ht hm
    obtain ⟨c1, h2⟩ := foldl_showLoading_marker xs (showLoading p x) c t.textContent h1 ht
    simp only [List.foldl_cons, hideLoading, h2, Option.map_some', optOr, orElse,
      truthy_of_ne _ ht, if_true]

/-- C13 witness: the label `Criar Bot` of the complete page, after three
`showLoading` calls and one `hideLoading`. -/
theorem hideLoading_restores_label_witness :
    (hideLoading ([none, some "Salvando...", none].foldl showLoading botPage)).submitText.map
        (fun l => l.textContent) = some "Criar Bot" ∧
      (hideLoading ([none, some "Salvando...", none].foldl showLoading botPage)).isSubmitting =
        false :=
  hideLoading_restores_label botPage ⟨"Criar Bot", none⟩ [none, some "Salvando...", none] rfl
    (by decide) (by intro m h; cases h) (by decide)

/-- C13 counterexample: with an empty original label, one `showLoading`
followed by `hideLoading` leaves the label `Salvar`, and two `showLoading`
calls followed by `hideLoading` leave the loading text. -/
theorem hideLoading_label_counterexample :
    emptyLabelPage.submitText.map (fun l => l.textContent) = some "" ∧
    (hideLoading (showLoading emptyLabelPage none)).submitText.map (fun l => l.textContent) =
      some "Salvar" ∧
    (hideLoading (showLoading (showLoading emptyLabelPage none) none)).submitText.map
      (fun l => l.textContent) = some "Validando..." := by
  decide

/-! ## Progress steps outside the configured range -/

theorem stepIdOf_outOfRange (stepIds : List String) (n : Int)
    (h : n < 1 ∨ (stepIds.length : Int) < n) : stepIdOf stepIds n = "step" ++ toString n := by
  unfold stepIdOf
  by_cases h1 : 1 ≤ n
  · have hlen : stepIds.length ≤ (n - 1).toNat := by omega
    simp only [h1, if_true, List.get?_eq_none.mpr hlen, optOr]
  · simp [h1, optOr]

theorem updateFirst_absent (id : String) (f : StepEl → StepEl) (steps : List (String × StepEl))
    (h : ∀ e ∈ steps, e.1 ≠ id) : updateFirst id f steps = steps := by
  induction steps with
  | nil => rfl
  | cons e es ih =>
    have he : (e.1 == id) = false := by
      rw [beq_eq_false_iff_ne]
      exact h e (List.mem_cons_self e es)
    simp only [updateFirst, he, Bool.false_eq_true, if_false]
    rw [ih (fun x hx => h x (List.mem_cons_of_mem e hx))]

/-- C16 (as amended). For a step number outside `1..length` of the configured
identifier list, on a page that has no element whose identifier is `step`
followed by that number, `updateLoadingStep` changes the class and the markup
of no element; when the message mapping in use has no entry for the step
number the progress message is left unchanged; and when both hold the page is
left as it was. -/
theorem updateLoadingStep_outOfRange :
    (∀ (p : Page) (n : Int) (status : String) (ms : Option Messages),
      (n < 1 ∨ (p.stepIds.length : Int) < n) → (∀ e ∈ p.steps, e.1 ≠ "step" ++ toString n) →
      (updateLoadingStep p n status ms).steps = p.steps) ∧
    (∀ (p : Page) (n : Int) (status : String) (ms : Option Messages),
      lookupMessage (ms.getD messagesDefault) n = none →
      (updateLoadingStep p n status ms).loadingMessage = p.loadingMessage) ∧
    (∀ (p : Page) (n : Int) (status : String) (ms : Option Messages),
      (n < 1 ∨ (p.stepIds.length : Int) < n) → (∀ e ∈ p.steps, e.1 ≠ "step" ++ toString n) →
      lookupMessage (ms.getD messagesDefault) n = none →
      updateLoadingStep p n status ms = p) := by
  have hsteps : ∀ (p : Page) (n : Int) (status : String),
      (n < 1 ∨ (p.stepIds.length : Int) < n) → (∀ e ∈ p.steps, e.1 ≠ "step" ++ toString n) →
      updateFirst (stepIdOf p.stepIds n) (restyleStep status) p.steps = p.steps := by
    intro p n status hr ha
    rw [stepIdOf_outOfRange p.stepIds n hr]
    exact updateFirst_absent _ _ _ ha
  refine ⟨?_, ?_, ?_⟩
  · intro p n status ms hr ha
    have h := hsteps p n status hr ha
    unfold updateLoadingStep
    simp only []
    split
    · split <;> exact h
    · exact h
  · intro p n status ms hm
    unfold updateLoadingStep
    simp only [hm]
    split
    · rename_i heq
      simp at heq
    · rfl
  · intro p n status ms hr ha hm
    have h := hsteps p n status hr ha
    unfold updateLoadingStep
    simp only [hm, h]
    split
    · rename_i heq
      simp at heq
    · rfl

/-- C16 witness: step number 7 on the complete page, whose elements are
`step1` to `step4` and whose messages are numbered 1 to 4. -/
theorem updateLoadingStep_outOfRange_witness :
    (updateLoadingStep botPage 7 "completed" none).steps = botPage.steps ∧
    (updateLoadingStep botPage 7 "completed" none).loadingMessage = botPage.loadingMessage ∧
    updateLoadingStep botPage 7 "completed" none = botPage :=
  ⟨updateLoadingStep_outOfRange.1 botPage 7 "completed" none (by decide) (by decide),
    updateLoadingStep_outOfRange.2.1 botPage 7 "completed" none (by decide),
    updateLoadingStep_outOfRange.2.2 botPage 7 "completed" none (by decide) (by decide)
      (by decide)⟩

/-- C16 counterexample: on a page configured with two step identifiers whose
template has the elements `step1` to `step4`, step number 4 is out of range
and `updateLoadingStep(4, "completed")` resolves the element `step4` through
the fallback identifier and rewrites its class and its markup. -/
theorem updateLoadingStep_counterexample :
    (shortConfigPage.stepIds.length : Int) < 4 ∧
    (updateLoadingStep shortConfigPage 4 "completed" none).steps =
      [("step1", ⟨"step", "⏳ Token"⟩), ("step2", ⟨"step", "⏳ Grupo VIP"⟩),
        ("step3", ⟨"step", "⏳ Grupo de notificações"⟩),
        ("step4", ⟨"step completed", "✓ Salvar"⟩)] ∧
    (updateLoadingStep shortConfigPage 4 "completed" none).steps ≠ shortConfigPage.steps := by
  decide

/-! ## Text of the failures -/

theorem startsWithChars_mem (p s : List Char) (h : startsWithChars p s = true) :
    ∀ c ∈ p, c ∈ s := by
  induction p generalizing s with
  | nil => intro c hc; cases hc
  | cons a p ih =>
    cases s with
    | nil => simp [startsWithChars] at h
    | cons b s =>
      simp only [startsWithChars, Bool.and_eq_true, beq_iff_eq] at h
      obtain ⟨hab, hps⟩ := h
      intro c hc
      rcases List.mem_cons.mp hc with hca | hcp
      · rw [hca, hab]; exact List.mem_cons_self b s
      · exact List.mem_cons_of_mem b (ih s hps c hcp)

theorem includesChars_mem (p s : List Char) (h : includesChars p s = true) :
    ∀ c ∈ p, c ∈ s := by
  induction s with
  | nil => exact startsWithChars_mem p [] (by simpa [includesChars] using h)
  | cons b s ih =>
    simp only [includesChars, Bool.or_eq_true] at h
    rcases h with h | h
    · exact startsWithChars_mem p (b :: s) h
    · exact fun c hc => List.mem_cons_of_mem b (ih h c hc)

theorem startsWithChars_append (p a b : List Char) (h : startsWithChars p a = true) :
    startsWithChars p (a ++ b) = true := by
  induction p generalizing a with
  | nil => rfl
  | cons x p ih =>
    cases a with
    | nil => simp [startsWithChars] at h
    | cons y a =>
      simp only [startsWithChars, Bool.and_eq_true, List.cons_append] at h ⊢
      exact ⟨h.1, ih a h.2⟩

theorem includesChars_append_left (p a b : List Char) (h : includesChars p a = true) :
    includesChars p (a ++ b) = true := by
  induction a with
  | nil =>
    have hp : p = [] := by
      cases p with
      | nil => rfl
      | cons x p => simp [includesChars, startsWithChars] at h
    subst hp
    cases b <;> simp [includesChars, startsWithChars]
  | cons y a ih =>
    simp only [includesChars, Bool.or_eq_true, List.cons_append] at h ⊢
    rcases h with h | h
    · exact Or.inl (startsWithChars_append p (y :: a) b h)
    · exact Or.inr (ih h)

theorem includesChars_append_right (c : Char) (p a b : List Char) (h : c ∉ a) :
    includesChars (c :: p) (a ++ b) = includesChars (c :: p) b := by
  induction a with
  | nil => rfl
  | cons y a ih =>
    have hy : (c == y) = false := by
      rw [beq_eq_false_iff_ne]
      exact fun e => h (e ▸ List.mem_cons_self _ _)
    simp only [List.cons_append, includesChars, startsWithChars, hy, Bool.false_and,
      Bool.false_or]
    exact ih (fun hm => h (List.mem_cons_of_mem y hm))

theorem lowerAll_append (a b : List Char) : lowerAll (a ++ b) = lowerAll a ++ lowerAll b := by
  induction a with
  | nil => rfl
  | cons c a ih => simp [lowerAll, ih]

theorem mem_lowerAll (x : Char) (s : List Char) (h : x ∈ lowerAll s) :
    ∃ c ∈ s, x ∈ lowerChars c := by
  induction s with
  | nil => cases h
  | cons c s ih =>
    simp only [lowerAll, List.mem_append] at h
    rcases h with h | h
    · exact ⟨c, List.mem_cons_self c s, h⟩
    · obtain ⟨d, hd, hx⟩ := ih h
      exact ⟨d, List.mem_cons_of_mem c hd, hx⟩

theorem digitChar_mem : ∀ m, m < 10 → Nat.digitChar m ∈ "0123456789".data := by
  decide

theorem toDigitsCore_mem (f n : Nat) (ds : List Char) (c : Char)
    (h : c ∈ Nat.toDigitsCore 10 f n ds) : c ∈ "0123456789".data ∨ c ∈ ds := by
  induction f generalizing n ds with
  | zero => exact Or.inr (by simpa [Nat.toDigitsCore] using h)
  | succ f ih =>
    have hd : Nat.digitChar (n % 10) ∈ "0123456789".data :=
      digitChar_mem (n % 10) (Nat.mod_lt n (by decide))
    simp only [Nat.toDigitsCore] at h
    split at h
    · rcases List.mem_cons.mp h with h1 | h1
      · exact Or.inl (h1 ▸ hd)
      · exact Or.inr h1
    · rcases ih (n / 10) _ h with h1 | h1
      · exact Or.inl h1
      · rcases List.mem_cons.mp h1 with h2 | h2
        · exact Or.inl (h2 ▸ hd)
        · exact Or.inr h2

theorem statusText_chars (n : Nat) :
    ∀ c ∈ ("Erro HTTP " ++ toString n).data, c ∈ "Erro HTTP 0123456789".data := by
  intro c hc
  have hdata : ("Erro HTTP " ++ toString n).data = "Erro HTTP ".data ++ Nat.toDigits 10 n := by
    simp [toString, Nat.repr, List.asString]
  rw [hdata] at hc
  rcases List.mem_append.mp hc with h | h
  · exact List.mem_append_left "0123456789".data h
  · rcases toDigitsCore_mem _ _ _ c h with h1 | h1
    · exact List.mem_append_right "Erro HTTP ".data h1
    · cases h1

theorem statusText_clean (n : Nat) :
    includes ("Erro HTTP " ++ toString n) "Token inválido" = false ∧
    includes (toLowerCase ("Erro HTTP " ++ toString n)) "vip" = false ∧
    includes (toLowerCase ("Erro HTTP " ++ toString n)) "notific" = false := by
  have hk : 'k' ∉ "Erro HTTP 0123456789".data := by decide
  have hv : ∀ c ∈ "Erro HTTP 0123456789".data, 'v' ∉ lowerChars c := by decide
  have hn : ∀ c ∈ "Erro HTTP 0123456789".data, 'n' ∉ lowerChars c := by decide
  refine ⟨?_, ?_, ?_⟩
  · rw [← Bool.not_eq_true]
    intro h
    have := includesChars_mem _ _ h 'k' (by decide)
    exact hk (statusText_chars n _ this)
  · rw [← Bool.not_eq_true]
    intro h
    have := includesChars_mem _ _ h 'v' (by decide)
    obtain ⟨c, hc, hcv⟩ := mem_lowerAll _ _ this
    exact hv c (statusText_chars n c hc) hcv
  · rw [← Bool.not_eq_true]
    intro h
    have := includesChars_mem _ _ h 'n' (by decide)
    obtain ⟨c, hc, hcv⟩ := mem_lowerAll _ _ this
    exact hn c (statusText_chars n c hc) hcv

theorem errorText_mkError (m : String) (h : m ≠ "") : errorText (mkError m) = m := by
  simp [errorText, mkError, orElse, truthy_of_ne m h]

theorem failureDetail_eq (body : String) (status : Nat) :
    orElse body ("Erro HTTP " ++ toString status) = failureDetail body status :=
  orElse_eq _ _

theorem failureDetail_ne (body : String) (status : Nat) : failureDetail body status ≠ "" := by
  unfold failureDetail
  split
  · assumption
  · intro h
    have := congrArg String.data h
    simp at this

theorem classifyError_clean (msg a b : String) (h1 : includes msg "Token inválido" = false)
    (h2 : includes (toLowerCase msg) "vip" = false)
    (h3 : includes (toLowerCase msg) "notific" = false) :
    classifyError msg a b = ("Erro ao validar", msg) := by
  simp [classifyError, h1, h2, h3]

/-! ## Failures surfaced by the submit handlers -/

theorem notifications_append (a b : List Event) :
    notifications (a ++ b) = notifications a ++ notifications b := by
  induction a with
  | nil => rfl
  | cons e a ih => cases e <;> simp [notifications, ih]

theorem notifications_validateBotInGroups (net : Net) (token a b : String) :
    notifications (validateBotInGroups net token a b).1 = [] := by
  have h := validateBotInGroups_only_fetches net token a b
  generalize (validateBotInGroups net token a b).1 = l at h
  induction l with
  | nil => rfl
  | cons e l ih =>
    obtain ⟨s, q, hq⟩ := h e (List.mem_cons_self e l)
    subst hq
    simp only [notifications]
    exact ih (fun x hx => h x (List.mem_cons_of_mem _ hx))

theorem simple_submission_failure (opts : SubmitOpts) (net : Net) (p : Page) (resp : Response)
    (body : String) (hg : submitDisabled p = false)
    (hp : opts.validatePlans = false ∨ (validatePlanSection p.plans).ok = true)
    (n0 : ∀ req, net 0 req = Except.ok resp) (h0 : resp.ok = false)
    (hb : resp.text = Except.ok body) :
    notifications (registerSimpleFormSubmit opts net p).trace =
      [Event.showError "Erro ao salvar" (failureDetail body resp.status)] := by
  have hcond : (opts.validatePlans && !(validatePlanSection p.plans).ok) = false := by
    rcases hp with h | h <;> simp [h]
  have het := errorText_mkError _ (failureDetail_ne body resp.status)
  simp only [registerSimpleFormSubmit, hg, hcond, Bool.false_eq_true, if_false, simpleTry,
    postForm, n0, h0, hb, failureDetail_eq, het]
  cases opts.validatePlans <;> simp [notifications]

theorem bot_verification_failure (opts : SubmitOpts) (net : Net) (p : Page) (t v l : String)
    (err : JsError)
    (hg : submitDisabled p = false) (hp : (validatePlanSection p.plans).ok = true)
    (ht : p.token = some t) (ht1 : validateTelegramToken (trim t) = true)
    (hv : p.idVip = some v) (hv1 : validateGroupId (trim v) = true)
    (hl : p.idLogs = some l) (hl1 : validateGroupId (trim l) = true)
    (hfail : (validateBotInGroups net (trim t) (trim v) (trim l)).2 = Except.error err) :
    notifications (registerBotSubmitWithTelegramChecks opts net p).trace =
      [Event.showError (classifyError (errorText err) (trim v) (trim l)).1
        (classifyError (errorText err) (trim v) (trim l)).2] := by
  have hn := notifications_validateBotInGroups net (trim t) (trim v) (trim l)
  simp only [registerBotSubmitWithTelegramChecks, hg, hp, ht, ht1, hv, hv1, hl, hl1,
    validateGroupIdOpt, botTry, Option.map_some', Option.getD_some, Bool.not_true,
    Bool.false_eq_true, if_false, hfail]
  simp [notifications_append, notifications, hn]

theorem bot_submission_failure (opts : SubmitOpts) (net : Net) (p : Page) (t v l : String)
    (r4 : Response) (body : String)
    (hg : submitDisabled p = false) (hp : (validatePlanSection p.plans).ok = true)
    (ht : p.token = some t) (ht1 : validateTelegramToken (trim t) = true)
    (hv : p.idVip = some v) (hv1 : validateGroupId (trim v) = true)
    (hl : p.idLogs = some l) (hl1 : validateGroupId (trim l) = true)
    (hok : (validateBotInGroups net (trim t) (trim v) (trim l)).2 = Except.ok ())
    (n4 : ∀ req, net 3 req = Except.ok r4) (h4 : r4.ok = false)
    (hb : r4.text = Except.ok body) :
    notifications (registerBotSubmitWithTelegramChecks opts net p).trace =
      [Event.showError
        (classifyError (failureDetail body r4.status) (trim v) (trim l)).1
        (classifyError (failureDetail body r4.status) (trim v) (trim l)).2] := by
  have hn := notifications_validateBotInGroups net (trim t) (trim v) (trim l)
  have het := errorText_mkError _ (failureDetail_ne body r4.status)
  simp only [registerBotSubmitWithTelegramChecks, hg, hp, ht, ht1, hv, hv1, hl, hl1,
    validateGroupIdOpt, botTry, Option.map_some', Option.getD_some, Bool.not_true,
    Bool.false_eq_true, if_false, hok, postForm, n4, h4, hb, failureDetail_eq, het]
  simp [notifications_append, notifications, hn]

/-- C14 (as amended). For every non-2xx response to the form submission whose
body is read: the handler of `registerSimpleFormSubmit` shows the error message
that is the body when the body is not empty and `Erro HTTP <status>` when it
is; the handler of `registerBotSubmitWithTelegramChecks` shows that same
message whenever it contains none of `Token inválido`, `vip` and `notific`
(the last two in any letter case), which is always so for `Erro HTTP <status>`. -/
theorem submission_failure_message :
    (∀ (opts : SubmitOpts) (net : Net) (p : Page) (resp : Response) (body : String),
      submitDisabled p = false →
      (opts.validatePlans = false ∨ (validatePlanSection p.plans).ok = true) →
      (∀ req, net 0 req = Except.ok resp) → resp.ok = false → resp.text = Except.ok body →
      notifications (registerSimpleFormSubmit opts net p).trace =
        [Event.showError "Erro ao salvar" (failureDetail body resp.status)]) ∧
    (∀ (opts : SubmitOpts) (net : Net) (p : Page) (t v l : String) (r4 : Response)
      (body : String),
      submitDisabled p = false → (validatePlanSection p.plans).ok = true →
      p.token = some t → validateTelegramToken (trim t) = true →
      p.idVip = some v → validateGroupId (trim v) = true →
      p.idLogs = some l → validateGroupId (trim l) = true →
      (validateBotInGroups net (trim t) (trim v) (trim l)).2 = Except.ok () →
      (∀ req, net 3 req = Except.ok r4) → r4.ok = false → r4.text = Except.ok body →
      includes (failureDetail body r4.status) "Token inválido" = false →
      includes (toLowerCase (failureDetail body r4.status)) "vip" = false →
      includes (toLowerCase (failureDetail body r4.status)) "notific" = false →
      notifications (registerBotSubmitWithTelegramChecks opts net p).trace =
        [Event.showError "Erro ao validar" (failureDetail body r4.status)]) ∧
    (∀ (opts : SubmitOpts) (net : Net) (p : Page) (t v l : String) (r4 : Response),
      submitDisabled p = false → (validatePlanSection p.plans).ok = true →
      p.token = some t → validateTelegramToken (trim t) = true →
      p.idVip = some v → validateGroupId (trim v) = true →
      p.idLogs = some l → validateGroupId (trim l) = true →
      (validateBotInGroups net (trim t) (trim v) (trim l)).2 = Except.ok () →
      (∀ req, net 3 req = Except.ok r4) → r4.ok = false → r4.text = Except.ok "" →
      notifications (registerBotSubmitWithTelegramChecks opts net p).trace =
        [Event.showError "Erro ao validar" ("Erro HTTP " ++ toString r4.status)]) := by
  refine ⟨simple_submission_failure, ?_, ?_⟩
  · intro opts net p t v l r4 body hg hp ht ht1 hv hv1 hl hl1 hok n4 h4 hb c1 c2 c3
    rw [bot_submission_failure opts net p t v l r4 body hg hp ht ht1 hv hv1 hl hl1 hok n4 h4 hb,
      classifyError_clean _ _ _ c1 c2 c3]
  · intro opts net p t v l r4 hg hp ht ht1 hv hv1 hl hl1 hok n4 h4 hb
    have hd : failureDetail "" r4.status = "Erro HTTP " ++ toString r4.status := by
      simp [failureDetail]
    obtain ⟨c1, c2, c3⟩ := statusText_clean r4.status
    rw [bot_submission_failure opts net p t v l r4 "" hg hp ht ht1 hv hv1 hl hl1 hok n4 h4 hb,
      hd, classifyError_clean _ _ _ c1 c2 c3]

/-- C14 witness: the complete page; the submission answered 500 with the body
`falha` (both handlers) and 502 with an empty body (credential-bearing
handler). -/
theorem submission_failure_message_witness :
    notifications (registerSimpleFormSubmit defaultOpts (postNet 500 "falha") botPage).trace =
      [Event.showError "Erro ao salvar" (failureDetail "falha" 500)] ∧
    notifications (registerBotSubmitWithTelegramChecks defaultOpts
        (netWith "administrator" "creator" 500 "falha") botPage).trace =
      [Event.showError "Erro ao validar" (failureDetail "falha" 500)] ∧
    notifications (registerBotSubmitWithTelegramChecks defaultOpts
        (netWith "administrator" "creator" 502 "") botPage).trace =
      [Event.showError "Erro ao validar" ("Erro HTTP " ++ toString 502)] :=
  ⟨submission_failure_message.1 defaultOpts (postNet 500 "falha") botPage
      (postResponse 500 "falha") "falha" rfl (Or.inr (by decide)) (fun _ => rfl) (by decide) rfl,
    submission_failure_message.2.1 defaultOpts (netWith "administrator" "creator" 500 "falha")
      botPage "123456789:ABC-defGHI_123" "-1001234567890" "-1009876543210"
      (postResponse 500 "falha") "falha" rfl (by decide) rfl (by decide) rfl (by decide) rfl
      (by decide) rfl (fun _ => rfl) (by decide) rfl (by decide) (by decide) (by decide),
    submission_failure_message.2.2 defaultOpts (netWith "administrator" "creator" 502 "")
      botPage "123456789:ABC-defGHI_123" "-1001234567890" "-1009876543210"
      (postResponse 502 "") rfl (by decide) rfl (by decide) rfl (by decide) rfl
      (by decide) rfl (fun _ => rfl) (by decide) rfl⟩

/-- C14 counterexample: the credential-bearing handler, the submission answered
400 with the body `Plano VIP duplicado`: the message shown is not the body but
the group A text. -/
theorem submission_failure_counterexample :
    notifications (registerBotSubmitWithTelegramChecks defaultOpts
        (netWith "administrator" "creator" 400 "Plano VIP duplicado") botPage).trace =
      [Event.showError "Problema no Grupo VIP"
        "Verifique se o bot está no grupo VIP e é administrador (-1001234567890)."] ∧
    "Verifique se o bot está no grupo VIP e é administrador (-1001234567890)." ≠
      "Plano VIP duplicado" := by
  decide

/-! ## Classification of the verification failures -/

theorem includes_prefixed (pre d : String) (c : Char) (p : List Char) (h : c ∉ pre.data) :
    includes (pre ++ d) ⟨c :: p⟩ = includes d ⟨c :: p⟩ := by
  simp only [includes, String.data_append]
  exact includesChars_append_right c p pre.data d.data h

theorem includes_lower_prefixed (pre d : String) (c : Char) (p : List Char)
    (h : c ∉ (toLowerCase pre).data) :
    includes (toLowerCase (pre ++ d)) ⟨c :: p⟩ = includes (toLowerCase d) ⟨c :: p⟩ := by
  simp only [includes, toLowerCase, String.data_append, lowerAll_append] at h ⊢
  exact includesChars_append_right c p _ _ h

theorem includes_lower_of_prefix (pre d pat : String)
    (h : includes (toLowerCase pre) pat = true) :
    includes (toLowerCase (pre ++ d)) pat = true := by
  simp only [includes, toLowerCase, String.data_append, lowerAll_append] at h ⊢
  exact includesChars_append_left _ _ _ h

theorem prefixed_ne (pre d : String) (h : pre ≠ "") : pre ++ d ≠ "" := by
  intro he
  have hd := congrArg String.data he
  simp only [String.data_append] at hd
  have hp : pre.data = [] := (List.append_eq_nil.mp hd).1
  exact h (String.ext hp)

theorem classify_groupA_unreachable (d a b : String)
    (h : includes d "Token inválido" = false) :
    classifyError (errorText (mkError ("Erro no grupo VIP: " ++ d))) a b =
      ("Problema no Grupo VIP",
        "Verifique se o bot está no grupo VIP e é administrador (" ++ a ++ ").") := by
  rw [errorText_mkError _ (prefixed_ne _ d (by decide))]
  have h1 : includes ("Erro no grupo VIP: " ++ d) "Token inválido" = false := by
    have := includes_prefixed "Erro no grupo VIP: " d 'T' "oken inválido".data (by decide)
    exact this.trans h
  have h2 : includes (toLowerCase ("Erro no grupo VIP: " ++ d)) "vip" = true :=
    includes_lower_of_prefix _ d "vip" (by decide)
  simp [classifyError, h1, h2]

theorem classify_groupB_unreachable (d a b : String)
    (h : includes d "Token inválido" = false) (hv : includes (toLowerCase d) "vip" = false) :
    classifyError (errorText (mkError ("Erro no grupo de notificações: " ++ d))) a b =
      ("Problema no Grupo de Notificações",
        "Verifique se o bot está no grupo de notificações e é administrador (" ++ b ++ ").") := by
  rw [errorText_mkError _ (prefixed_ne _ d (by decide))]
  have h1 : includes ("Erro no grupo de notificações: " ++ d) "Token inválido" = false := by
    have := includes_prefixed "Erro no grupo de notificações: " d 'T' "oken inválido".data
      (by decide)
    exact this.trans h
  have h2 : includes (toLowerCase ("Erro no grupo de notificações: " ++ d)) "vip" = false := by
    have := includes_lower_prefixed "Erro no grupo de notificações: " d 'v' "ip".data
      (by decide)
    exact this.trans hv
  have h3 : includes (toLowerCase ("Erro no grupo de notificações: " ++ d)) "notific" = true :=
    includes_lower_of_prefix _ d "notific" (by decide)
  simp [classifyError, h1, h2, h3]

theorem classify_invalidToken (a b : String) :
    classifyError (errorText (mkError "Token inválido")) a b =
      ("Token Inválido",
        "O token do bot é inválido ou expirou. Verifique e tente novamente.") := by
  have e0 : errorText (mkError "Token inválido") = "Token inválido" := by decide
  have c1 : includes "Token inválido" "Token inválido" = true := by decide
  simp [classifyError, e0, c1]

/-- C15 (as amended). In a run of the credential-bearing handler that reaches
the remote verification: a group A unreachable failure raised by
`validateBotInGroups` is shown with the group A title whenever the description
it carries does not contain `Token inválido`; a group B unreachable failure is
shown with the group B title whenever the description it carries contains
neither `Token inválido` nor, in any letter case, `vip`; and an
invalid-credential failure is always shown with the invalid-token title. -/
theorem verification_failure_title :
    (∀ (opts : SubmitOpts) (net : Net) (p : Page) (t v l d : String),
      submitDisabled p = false → (validatePlanSection p.plans).ok = true →
      p.token = some t → validateTelegramToken (trim t) = true →
      p.idVip = some v → validateGroupId (trim v) = true →
      p.idLogs = some l → validateGroupId (trim l) = true →
      (validateBotInGroups net (trim t) (trim v) (trim l)).2 =
        Except.error (mkError ("Erro no grupo VIP: " ++ d)) →
      includes d "Token inválido" = false →
      notifications (registerBotSubmitWithTelegramChecks opts net p).trace =
        [Event.showError "Problema no Grupo VIP"
          ("Verifique se o bot está no grupo VIP e é administrador (" ++ trim v ++ ").")]) ∧
    (∀ (opts : SubmitOpts) (net : Net) (p : Page) (t v l d : String),
      submitDisabled p = false → (validatePlanSection p.plans).ok = true →
      p.token = some t → validateTelegramToken (trim t) = true →
      p.idVip = some v → validateGroupId (trim v) = true →
      p.idLogs = some l → validateGroupId (trim l) = true →
      (validateBotInGroups net (trim t) (trim v) (trim l)).2 =
        Except.error (mkError ("Erro no grupo de notificações: " ++ d)) →
      includes d "Token inválido" = false → includes (toLowerCase d) "vip" = false →
      notifications (registerBotSubmitWithTelegramChecks opts net p).trace =
        [Event.showError "Problema no Grupo de Notificações"
          ("Verifique se o bot está no grupo de notificações e é administrador (" ++
            trim l ++ ").")]) ∧
    (∀ (opts : SubmitOpts) (net : Net) (p : Page) (t v l : String),
      submitDisabled p = false → (validatePlanSection p.plans).ok = true →
      p.token = some t → validateTelegramToken (trim t) = true →
      p.idVip = some v → validateGroupId (trim v) = true →
      p.idLogs = some l → validateGroupId (trim l) = true →
      (validateBotInGroups net (trim t) (trim v) (trim l)).2 =
        Except.error (mkError "Token inválido") →
      notifications (registerBotSubmitWithTelegramChecks opts net p).trace =
        [Event.showError "Token Inválido"
          "O token do bot é inválido ou expirou. Verifique e tente novamente."]) := by
  refine ⟨?_, ?_, ?_⟩
  · intro opts net p t v l d hg hp ht ht1 hv hv1 hl hl1 hfail hd
    rw [bot_verification_failure opts net p t v l _ hg hp ht ht1 hv hv1 hl hl1 hfail,
      classify_groupA_unreachable d _ _ hd]
  · intro opts net p t v l d hg hp ht ht1 hv hv1 hl hl1 hfail hd hdv
    rw [bot_verification_failure opts net p t v l _ hg hp ht ht1 hv hv1 hl hl1 hfail,
      classify_groupB_unreachable d _ _ hd hdv]
  · intro opts net p t v l hg hp ht ht1 hv hv1 hl hl1 hfail
    rw [bot_verification_failure opts net p t v l _ hg hp ht ht1 hv hv1 hl hl1 hfail,
      classify_invalidToken]

/-- C15 witness: the complete page with group A unreachable, with group B
unreachable (both with `Bad Request: chat not found`), and with the identity
call answered 401. -/
theorem verification_failure_title_witness :
    notifications (registerBotSubmitWithTelegramChecks defaultOpts
        (netOf identityResponse (unreachableResponse "Bad Request: chat not found")
          (memberResponse "administrator") (postResponse 200 "")) botPage).trace =
      [Event.showError "Problema no Grupo VIP"
        ("Verifique se o bot está no grupo VIP e é administrador (" ++
          trim "-1001234567890" ++ ").")] ∧
    notifications (registerBotSubmitWithTelegramChecks defaultOpts
        (netOf identityResponse (memberResponse "administrator")
          (unreachableResponse "Bad Request: chat not found") (postResponse 200 "")) botPage).trace =
      [Event.showError "Problema no Grupo de Notificações"
        ("Verifique se o bot está no grupo de notificações e é administrador (" ++
          trim "-1009876543210" ++ ").")] ∧
    notifications (registerBotSubmitWithTelegramChecks defaultOpts
        (netOf (postResponse 401 "") (memberResponse "administrator")
          (memberResponse "administrator") (postResponse 200 "")) botPage).trace =
      [Event.showError "Token Inválido"
        "O token do bot é inválido ou expirou. Verifique e tente novamente."] :=
  ⟨verification_failure_title.1 defaultOpts _ botPage "123456789:ABC-defGHI_123"
      "-1001234567890" "-1009876543210" "Bad Request: chat not found"
      rfl (by decide) rfl (by decide) rfl (by decide) rfl (by decide) rfl (by decide),
    verification_failure_title.2.1 defaultOpts _ botPage "123456789:ABC-defGHI_123"
      "-1001234567890" "-1009876543210" "Bad Request: chat not found"
      rfl (by decide) rfl (by decide) rfl (by decide) rfl (by decide) rfl (by decide)
      (by decide),
    verification_failure_title.2.2 defaultOpts _ botPage "123456789:ABC-defGHI_123"
      "-1001234567890" "-1009876543210"
      rfl (by decide) rfl (by decide) rfl (by decide) rfl (by decide) rfl⟩

/-- C15 counterexample: a group B unreachable failure whose description is
`Forbidden: VIP members only` is shown with the group A title, and a group A
unreachable failure whose description is `Token inválido` is shown with the
invalid-token title. -/
theorem verification_failure_counterexample :
    (validateBotInGroups (netOf identityResponse (memberResponse "administrator")
        (unreachableResponse "Forbidden: VIP members only") (postResponse 200 ""))
        "123456789:ABC-defGHI_123" "-1001234567890" "-1009876543210").2 =
      Except.error (mkError "Erro no grupo de notificações: Forbidden: VIP members only") ∧
    notifications (registerBotSubmitWithTelegramChecks defaultOpts
        (netOf identityResponse (memberResponse "administrator")
          (unreachableResponse "Forbidden: VIP members only") (postResponse 200 ""))
        botPage).trace =
      [Event.showError "Problema no Grupo VIP"
        "Verifique se o bot está no grupo VIP e é administrador (-1001234567890)."] ∧
    (validateBotInGroups (netOf identityResponse (unreachableResponse "Token inválido")
        (memberResponse "administrator") (postResponse 200 ""))
        "123456789:ABC-defGHI_123" "-1001234567890" "-1009876543210").2 =
      Except.error (mkError "Erro no grupo VIP: Token inválido") ∧
    notifications (registerBotSubmitWithTelegramChecks defaultOpts
        (netOf identityResponse (unreachableResponse "Token inválido")
          (memberResponse "administrator") (postResponse 200 "")) botPage).trace =
      [Event.showError "Token Inválido"
        "O token do bot é inválido ou expirou. Verifique e tente novamente."] :=
  ⟨rfl, by decide, rfl, by decide⟩

end FormUtils
